import Mathlib

/-!
# Verification of the astra-formats bundle / asset-file codecs

This file is a shallow embedding, in Lean 4, of the Rust code in
`src/bundle.rs` and `src/asset.rs` of the astra-formats library, together
with proofs about it.

Modelling conventions:
* Bytes are `Nat` values (kept `< 256` by construction at every write site).
* Machine integers are `Nat` holding the raw bit pattern (`i128`/`i16`/`i32`
  values are stored as their unsigned two's-complement pattern, and `f32`
  fields as their 4-byte little-endian bit pattern, which is exactly what the
  codec moves around: the code never does arithmetic on them).  Where the
  Rust code can overflow (attacker-controlled `u64` additions and casts to
  `u32`), the wrap is written explicitly as `% 2 ^ 64` / `% 2 ^ 32`,
  matching release-mode (wrapping) semantics; where a panic can occur
  (slice indexing, `Vec` indexing) the model returns `Fail.panicked`.
* Rust `String` values are modelled as their list of Unicode code points
  (`UString` below); UTF-8 encoding/decoding (with lossy replacement and
  BOM removal, as done by `encoding_rs`) is modelled explicitly.
* The `binrw`-derived readers are modelled in a reader monad `RM` over a
  byte list plus cursor position; writers in a monad `Wr` whose state is
  the list of written bytes in reverse order (all component writers are
  purely sequential, so the cursor position is the byte count; the two
  seek-back backpatches in `AssetFile::write_options` are modelled by
  `patch_at` on the forward byte list).
* The external decompressors (`lzma_rs`, `lz4_flex`) are not part of this
  repository; the bundle reader is parameterized over them.
-/

set_option maxHeartbeats 1000000

namespace AstraFormats

/-! ## Reader monad over a byte stream (`std::io::Cursor` + `binrw`)

The input buffer is immutable, so a reader is a function of the (read-only)
byte list and the cursor position; its state is the position alone. -/

/-- Failure outcomes: `err` models a returned `binrw::Error` / `anyhow::Error`,
`panicked` models a Rust panic (out-of-bounds indexing, overflow in debug). -/
inductive Fail where
  | err : String → Fail
  | panicked : String → Fail
deriving Repr, DecidableEq

def RM (α : Type) : Type := List Nat → Nat → Except Fail (α × Nat)

instance : Monad RM where
  pure a := fun _ p => .ok (a, p)
  bind x f := fun d p => match x d p with
    | .ok (a, p') => f a d p'
    | .error e => .error e

def rerr {α : Type} (msg : String) : RM α := fun _ _ => .error (.err msg)

def rpanic {α : Type} (msg : String) : RM α := fun _ _ => .error (.panicked msg)

/-- `Read::read_exact`: take `n` bytes at the cursor, failing (like
`std::io::Cursor`) if fewer than `n` bytes remain. -/
def read_exact (n : Nat) : RM (List Nat) := fun d p =>
  if p + n ≤ d.length then
    .ok ((d.drop p).take n, p + n)
  else
    .error (.err "failed to fill whole buffer")

def read_u8 : RM Nat := do
  let b ← read_exact 1
  pure (b.headD 0)

/-- Value of a little-endian byte list. -/
def lebytes : List Nat → Nat
  | [] => 0
  | b :: rest => b % 256 + 256 * lebytes rest

def read_u16le : RM Nat := do
  let b ← read_exact 2
  pure (lebytes b)

def read_u32le : RM Nat := do
  let b ← read_exact 4
  pure (lebytes b)

def read_u64le : RM Nat := do
  let b ← read_exact 8
  pure (lebytes b)

def read_u128le : RM Nat := do
  let b ← read_exact 16
  pure (lebytes b)

def read_u16be : RM Nat := do
  let b ← read_exact 2
  pure (lebytes b.reverse)

def read_u32be : RM Nat := do
  let b ← read_exact 4
  pure (lebytes b.reverse)

def read_u64be : RM Nat := do
  let b ← read_exact 8
  pure (lebytes b.reverse)

def read_u128be : RM Nat := do
  let b ← read_exact 16
  pure (lebytes b.reverse)

/-- `SeekFrom::Start(q)` on a cursor. -/
def seek_to (q : Nat) : RM Unit := fun _ _ => .ok ((), q)

/-- Skip `n` bytes forward (`SeekFrom::Current(n)` with `n ≥ 0`). -/
def skip (n : Nat) : RM Unit := fun _ p => .ok ((), p + n)

/-- The next multiple of `n` at or after `p`; `align_up p 4` is exactly what
`if pos % 4 != 0 { seek(Current(4 - pos % 4)) }` computes. -/
def align_up (p n : Nat) : Nat := if p % n = 0 then p else p + (n - p % n)

/-- `binrw` `align_before(n)` / the inline alignment in `UArray`/`UString`:
advance the cursor to the next multiple of `n` (relative to stream start). -/
def ralign (n : Nat) : RM Unit := fun _ p => .ok ((), align_up p n)

/-- Split a byte list at its first zero byte (the terminator is dropped). -/
def split_at_zero : List Nat → Option (List Nat × List Nat)
  | [] => none
  | b :: rest =>
    if b = 0 then some ([], rest)
    else (split_at_zero rest).map (fun p => (b :: p.1, p.2))

/-- `binrw::NullString` read: bytes up to the next null; hitting end-of-input
first is an error. -/
def read_null_string : RM (List Nat) := fun d p =>
  match split_at_zero (d.drop p) with
  | some (str, _) => .ok (str, p + str.length + 1)
  | none => .error (.err "no null terminator before end of stream")

/-- Read `n` successive elements with the element reader (`#[br(count = n)]`,
or the element loop of `UArray`). -/
def read_count {α : Type} (elem : RM α) : Nat → RM (List α)
  | 0 => pure []
  | n + 1 => do
    let x ← elem
    let xs ← read_count elem n
    pure (x :: xs)

/-! ## Writer monad (sequential writes; state = bytes written, reversed) -/

def Wr (α : Type) : Type := List Nat → Except Fail (α × List Nat)

instance : Monad Wr where
  pure a := fun out => .ok (a, out)
  bind x f := fun out => match x out with
    | .ok (a, out') => f a out'
    | .error e => .error e

def werr {α : Type} (msg : String) : Wr α := fun _ => .error (.err msg)

def wpanic {α : Type} (msg : String) : Wr α := fun _ => .error (.panicked msg)

def write_u8 (b : Nat) : Wr Unit := fun out => .ok ((), b % 256 :: out)

/-- Append a list of (already in-range) bytes. -/
def write_bytes (bs : List Nat) : Wr Unit := fun out => .ok ((), bs.reverse ++ out)

/-- The `k` little-endian bytes of `v`. -/
def le_split : Nat → Nat → List Nat
  | 0, _ => []
  | k + 1, v => v % 256 :: le_split k (v / 256)

def write_u16le (v : Nat) : Wr Unit := write_bytes (le_split 2 v)

def write_u32le (v : Nat) : Wr Unit := write_bytes (le_split 4 v)

def write_u64le (v : Nat) : Wr Unit := write_bytes (le_split 8 v)

def write_u128le (v : Nat) : Wr Unit := write_bytes (le_split 16 v)

def write_u16be (v : Nat) : Wr Unit := write_bytes (le_split 2 v).reverse

def write_u32be (v : Nat) : Wr Unit := write_bytes (le_split 4 v).reverse

def write_u64be (v : Nat) : Wr Unit := write_bytes (le_split 8 v).reverse

def write_u128be (v : Nat) : Wr Unit := write_bytes (le_split 16 v).reverse

/-- One-byte-at-a-time padding loop, with a structural fuel bound (the loop
writes at most `align - 1` zero bytes, so any fuel of at least `align` makes
the bound irrelevant). -/
def pad_go (align : Nat) : Nat → List Nat → List Nat
  | 0, out => out
  | fuel + 1, out =>
    if out.length % align = 0 then out else pad_go align fuel (0 :: out)

/-- `write_padding` from `asset.rs`: while the position is not a multiple of
`align`, write a zero byte.  (In the sequential writer the position is the
number of bytes written.) -/
def pad_align (align : Nat) (out : List Nat) : List Nat :=
  if align = 0 then out else pad_go align align out

def wpad (align : Nat) : Wr Unit := fun out => .ok ((), pad_align align out)

/-- Run an element writer over each item in turn. -/
def write_list {α : Type} (elem : α → Wr Unit) : List α → Wr Unit
  | [] => pure ()
  | x :: xs => do
    elem x
    write_list elem xs

/-- Model of the two seek-back backpatches in `AssetFile::write_options`:
overwrite `patch.length` bytes of the (forward-order) output at offset `p`.
All uses stay inside the already-written region. -/
def patch_at (out : List Nat) (p : Nat) (patch : List Nat) : List Nat :=
  out.take p ++ patch ++ out.drop (p + patch.length)

/-- A sequential writer that always succeeds and only appends bytes. -/
def AppendOnly (w : Wr Unit) : Prop :=
  ∀ out : List Nat, ∃ new, w out = .ok ((), new ++ out)

/-! ## UTF-8 (encoding_rs `UTF_8.decode_with_bom_removal`, `str::as_bytes`) -/

/-- Is `b` a UTF-8 continuation byte? -/
def is_cont (b : Nat) : Bool := 0x80 ≤ b && b ≤ 0xBF

/-- Lossy UTF-8 decoding (WHATWG algorithm, as implemented by encoding_rs):
invalid sequences are replaced by U+FFFD per maximal subpart. Returns the
list of decoded code points. -/
def utf8_decode_lossy : List Nat → List Nat
  | [] => []
  | b :: rest =>
    if b < 0x80 then b :: utf8_decode_lossy rest
    else if 0xC2 ≤ b && b ≤ 0xDF then
      match rest with
      | [] => [0xFFFD]
      | b1 :: rest1 =>
        if is_cont b1 then
          ((b - 0xC0) * 0x40 + (b1 - 0x80)) :: utf8_decode_lossy rest1
        else 0xFFFD :: utf8_decode_lossy (b1 :: rest1)
    else if 0xE0 ≤ b && b ≤ 0xEF then
      match rest with
      | [] => [0xFFFD]
      | b1 :: rest1 =>
        if (b = 0xE0 && (0xA0 ≤ b1 && b1 ≤ 0xBF)) ||
           (b = 0xED && (0x80 ≤ b1 && b1 ≤ 0x9F)) ||
           ((b ≠ 0xE0 && b ≠ 0xED) && is_cont b1) then
          match rest1 with
          | [] => [0xFFFD]
          | b2 :: rest2 =>
            if is_cont b2 then
              ((b - 0xE0) * 0x1000 + (b1 - 0x80) * 0x40 + (b2 - 0x80)) ::
                utf8_decode_lossy rest2
            else 0xFFFD :: utf8_decode_lossy (b2 :: rest2)
        else 0xFFFD :: utf8_decode_lossy (b1 :: rest1)
    else if 0xF0 ≤ b && b ≤ 0xF4 then
      match rest with
      | [] => [0xFFFD]
      | b1 :: rest1 =>
        if (b = 0xF0 && (0x90 ≤ b1 && b1 ≤ 0xBF)) ||
           (b = 0xF4 && (0x80 ≤ b1 && b1 ≤ 0x8F)) ||
           ((b ≠ 0xF0 && b ≠ 0xF4) && is_cont b1) then
          match rest1 with
          | [] => [0xFFFD]
          | b2 :: rest2 =>
            if is_cont b2 then
              match rest2 with
              | [] => [0xFFFD]
              | b3 :: rest3 =>
                if is_cont b3 then
                  ((b - 0xF0) * 0x40000 + (b1 - 0x80) * 0x1000 +
                    (b2 - 0x80) * 0x40 + (b3 - 0x80)) :: utf8_decode_lossy rest3
                else 0xFFFD :: utf8_decode_lossy (b3 :: rest3)
            else 0xFFFD :: utf8_decode_lossy (b2 :: rest2)
        else 0xFFFD :: utf8_decode_lossy (b1 :: rest1)
    else 0xFFFD :: utf8_decode_lossy rest

/-- UTF-8 encoding of one code point (`String::as_bytes` for valid strings). -/
def utf8_encode_char (c : Nat) : List Nat :=
  if c < 0x80 then [c]
  else if c < 0x800 then [0xC0 + c / 0x40, 0x80 + c % 0x40]
  else if c < 0x10000 then
    [0xE0 + c / 0x1000, 0x80 + (c / 0x40) % 0x40, 0x80 + c % 0x40]
  else
    [0xF0 + c / 0x40000, 0x80 + (c / 0x1000) % 0x40, 0x80 + (c / 0x40) % 0x40,
      0x80 + c % 0x40]

def utf8_encode (s : List Nat) : List Nat := (s.map utf8_encode_char).flatten

/-- Drop a leading UTF-8 byte-order mark, if present. -/
def strip_bom (bs : List Nat) : List Nat :=
  match bs with
  | 0xEF :: 0xBB :: 0xBF :: rest => rest
  | _ => bs

/-- encoding_rs `UTF_8.decode_with_bom_removal`. -/
def decode_utf8_with_bom_removal (bs : List Nat) : List Nat :=
  utf8_decode_lossy (strip_bom bs)

/-! ## `UArray` and `UString` (asset.rs lines 617-782) -/

/-- A decoded Rust `String`, as its list of Unicode code points. -/
abbrev UString := List Nat

/-- `UArray::<T>::read_options`: align the cursor up to a multiple of 4
(relative to stream start), read a little-endian `u32` count, then that many
elements. -/
def UArray.read_options {α : Type} (elem : RM α) : RM (List α) := do
  ralign 4
  let count ← read_u32le
  read_count elem count

/-- `UArray::<T>::write_options`: zero-pad to a multiple of 4, write the
count as little-endian `u32`, then the elements. -/
def UArray.write_options {α : Type} (elem : α → Wr Unit) (items : List α) :
    Wr Unit := do
  wpad 4
  write_u32le (items.length % 2 ^ 32)
  write_list elem items

/-- `UString::read_options`: align up to a multiple of 4, read the `u32` byte
count and that many bytes, align up to 4 again (comment in the source: so a
following struct stays aligned when the string is a map key), then decode as
UTF-8 with BOM removal (lossy). -/
def UString.read_options : RM UString := do
  ralign 4
  let count ← read_u32le
  let buffer ← read_exact count
  ralign 4
  pure (decode_utf8_with_bom_removal buffer)

/-- `UString::write_options`: zero-pad to 4, write the UTF-8 byte length as
little-endian `u32`, the UTF-8 bytes, then zero-pad to 4 again. -/
def UString.write_options (s : UString) : Wr Unit := do
  wpad 4
  write_u32le ((utf8_encode s).length % 2 ^ 32)
  write_bytes (utf8_encode s)
  wpad 4

/-- `binrw::NullString` write: the raw bytes followed by one zero byte. -/
def write_null_string (bs : List Nat) : Wr Unit := do
  write_bytes bs
  write_u8 0

/-- `binrw` tuples read element-wise in order. -/
def read_pair {α β : Type} (ra : RM α) (rb : RM β) : RM (α × β) := do
  let a ← ra
  let b ← rb
  pure (a, b)

def write_pair {α β : Type} (wa : α → Wr Unit) (wb : β → Wr Unit)
    (x : α × β) : Wr Unit := do
  wa x.1
  wb x.2

/-! ## Record codec catalog (asset.rs lines 784-2094)

Every `#[binrw]` struct below is translated field-for-field; scalar fields
hold the raw bit pattern as a `Nat` (`i32`/`i64`/`i128` in two's complement,
`f32` as its 4-byte pattern).  `#[brw(align_before = 4)]` becomes
`ralign 4`/`wpad 4` before the field, `align_after` the same after it. -/

structure PPtr where
  file_id : Nat
  path_id : Nat
deriving Repr, DecidableEq

def PPtr.read_options : RM PPtr := do
  ralign 4
  let file_id ← read_u32le
  let path_id ← read_u64le
  pure ⟨file_id, path_id⟩

def PPtr.write_options (x : PPtr) : Wr Unit := do
  wpad 4
  write_u32le x.file_id
  write_u64le x.path_id

structure AssetInfo where
  preload_index : Nat
  preload_size : Nat
  asset : PPtr
deriving Repr, DecidableEq

def AssetInfo.read_options : RM AssetInfo := do
  let preload_index ← read_u32le
  let preload_size ← read_u32le
  let asset ← PPtr.read_options
  pure ⟨preload_index, preload_size, asset⟩

def AssetInfo.write_options (x : AssetInfo) : Wr Unit := do
  write_u32le x.preload_index
  write_u32le x.preload_size
  PPtr.write_options x.asset

structure Quaternionf where
  x : Nat
  y : Nat
  z : Nat
  w : Nat
deriving Repr, DecidableEq

def Quaternionf.read_options : RM Quaternionf := do
  let x ← read_u32le
  let y ← read_u32le
  let z ← read_u32le
  let w ← read_u32le
  pure ⟨x, y, z, w⟩

def Quaternionf.write_options (q : Quaternionf) : Wr Unit := do
  write_u32le q.x
  write_u32le q.y
  write_u32le q.z
  write_u32le q.w

structure Vector2f where
  x : Nat
  y : Nat
deriving Repr, DecidableEq

def Vector2f.read_options : RM Vector2f := do
  ralign 4
  let x ← read_u32le
  let y ← read_u32le
  pure ⟨x, y⟩

def Vector2f.write_options (v : Vector2f) : Wr Unit := do
  wpad 4
  write_u32le v.x
  write_u32le v.y

structure Vector3f where
  x : Nat
  y : Nat
  z : Nat
deriving Repr, DecidableEq

def Vector3f.read_options : RM Vector3f := do
  ralign 4
  let x ← read_u32le
  let y ← read_u32le
  let z ← read_u32le
  pure ⟨x, y, z⟩

def Vector3f.write_options (v : Vector3f) : Wr Unit := do
  wpad 4
  write_u32le v.x
  write_u32le v.y
  write_u32le v.z

structure Vector4f where
  x : Nat
  y : Nat
  z : Nat
  w : Nat
deriving Repr, DecidableEq

def Vector4f.read_options : RM Vector4f := do
  ralign 4
  let x ← read_u32le
  let y ← read_u32le
  let z ← read_u32le
  let w ← read_u32le
  pure ⟨x, y, z, w⟩

def Vector4f.write_options (v : Vector4f) : Wr Unit := do
  wpad 4
  write_u32le v.x
  write_u32le v.y
  write_u32le v.z
  write_u32le v.w

structure RectF where
  x : Nat
  y : Nat
  w : Nat
  h : Nat
deriving Repr, DecidableEq

def RectF.read_options : RM RectF := do
  ralign 4
  let x ← read_u32le
  let y ← read_u32le
  let w ← read_u32le
  let h ← read_u32le
  pure ⟨x, y, w, h⟩

def RectF.write_options (r : RectF) : Wr Unit := do
  wpad 4
  write_u32le r.x
  write_u32le r.y
  write_u32le r.w
  write_u32le r.h

structure Matrix4x4f where
  e00 : Nat
  e01 : Nat
  e02 : Nat
  e03 : Nat
  e10 : Nat
  e11 : Nat
  e12 : Nat
  e13 : Nat
  e20 : Nat
  e21 : Nat
  e22 : Nat
  e23 : Nat
  e30 : Nat
  e31 : Nat
  e32 : Nat
  e33 : Nat
deriving Repr, DecidableEq

def Matrix4x4f.read_options : RM Matrix4x4f := do
  let e00 ← read_u32le
  let e01 ← read_u32le
  let e02 ← read_u32le
  let e03 ← read_u32le
  let e10 ← read_u32le
  let e11 ← read_u32le
  let e12 ← read_u32le
  let e13 ← read_u32le
  let e20 ← read_u32le
  let e21 ← read_u32le
  let e22 ← read_u32le
  let e23 ← read_u32le
  let e30 ← read_u32le
  let e31 ← read_u32le
  let e32 ← read_u32le
  let e33 ← read_u32le
  pure ⟨e00, e01, e02, e03, e10, e11, e12, e13,
    e20, e21, e22, e23, e30, e31, e32, e33⟩

def Matrix4x4f.write_options (m : Matrix4x4f) : Wr Unit := do
  write_list write_u32le
    [m.e00, m.e01, m.e02, m.e03, m.e10, m.e11, m.e12, m.e13,
     m.e20, m.e21, m.e22, m.e23, m.e30, m.e31, m.e32, m.e33]

structure AABB where
  center : Vector3f
  extent : Vector3f
deriving Repr, DecidableEq

def AABB.read_options : RM AABB := do
  let center ← Vector3f.read_options
  let extent ← Vector3f.read_options
  pure ⟨center, extent⟩

def AABB.write_options (a : AABB) : Wr Unit := do
  Vector3f.write_options a.center
  Vector3f.write_options a.extent

structure MinMaxAABB where
  min : Vector3f
  max : Vector3f
deriving Repr, DecidableEq

def MinMaxAABB.read_options : RM MinMaxAABB := do
  let mn ← Vector3f.read_options
  let mx ← Vector3f.read_options
  pure ⟨mn, mx⟩

def MinMaxAABB.write_options (a : MinMaxAABB) : Wr Unit := do
  Vector3f.write_options a.min
  Vector3f.write_options a.max

structure ColorRGBA where
  r : Nat
  g : Nat
  b : Nat
  a : Nat
deriving Repr, DecidableEq

def ColorRGBA.read_options : RM ColorRGBA := do
  ralign 4
  let r ← read_u32le
  let g ← read_u32le
  let b ← read_u32le
  let a ← read_u32le
  pure ⟨r, g, b, a⟩

def ColorRGBA.write_options (c : ColorRGBA) : Wr Unit := do
  wpad 4
  write_u32le c.r
  write_u32le c.g
  write_u32le c.b
  write_u32le c.a

structure TextAsset where
  name : UString
  data : List Nat
deriving Repr, DecidableEq

def TextAsset.read_options : RM TextAsset := do
  let name ← UString.read_options
  let data ← UArray.read_options read_u8
  pure ⟨name, data⟩

def TextAsset.write_options (t : TextAsset) : Wr Unit := do
  UString.write_options t.name
  UArray.write_options write_u8 t.data

structure MonoScript where
  name : UString
  execution_order : Nat
  properties_hash : Nat
  class_name : UString
  namespace_ : UString
  assembly_name : UString
deriving Repr, DecidableEq

def MonoScript.read_options : RM MonoScript := do
  let name ← UString.read_options
  ralign 4
  let execution_order ← read_u32le
  let properties_hash ← read_u128le
  let class_name ← UString.read_options
  let namespace_ ← UString.read_options
  let assembly_name ← UString.read_options
  pure ⟨name, execution_order, properties_hash, class_name, namespace_,
    assembly_name⟩

def MonoScript.write_options (m : MonoScript) : Wr Unit := do
  UString.write_options m.name
  wpad 4
  write_u32le m.execution_order
  write_u128le m.properties_hash
  UString.write_options m.class_name
  UString.write_options m.namespace_
  UString.write_options m.assembly_name

structure MonoBehavior (T : Type) where
  game_object : PPtr
  enabled : Nat
  script : PPtr
  name : UString
  data : T
deriving Repr, DecidableEq

/-- `MonoBehavior::<T>::read_options`: note the hand-written 3-byte skip
after `enabled` (struct packing pad of the source engine). -/
def MonoBehavior.read_options {T : Type} (dataR : RM T) : RM (MonoBehavior T) := do
  let game_object ← PPtr.read_options
  let enabled ← read_u8
  skip 3
  let script ← PPtr.read_options
  let name ← UString.read_options
  let data ← dataR
  pure ⟨game_object, enabled, script, name, data⟩

def MonoBehavior.write_options {T : Type} (dataW : T → Wr Unit)
    (m : MonoBehavior T) : Wr Unit := do
  PPtr.write_options m.game_object
  write_u8 m.enabled
  write_u8 0
  write_u8 0
  write_u8 0
  PPtr.write_options m.script
  UString.write_options m.name
  dataW m.data

/-- The `MonoBehavior<()>` payload: reads and writes nothing. -/
def unit_read : RM Unit := pure ()

def unit_write : Unit → Wr Unit := fun _ => pure ()

structure TerrainLayerData where
  x : Nat
  y : Nat
  w : Nat
  h : Nat
  group : Nat
  attr : UString
deriving Repr, DecidableEq

def TerrainLayerData.read_options : RM TerrainLayerData := do
  ralign 4
  let x ← read_u32le
  let y ← read_u32le
  let w ← read_u32le
  let h ← read_u32le
  let group ← read_u32le
  let attr ← UString.read_options
  pure ⟨x, y, w, h, group, attr⟩

def TerrainLayerData.write_options (t : TerrainLayerData) : Wr Unit := do
  wpad 4
  write_u32le t.x
  write_u32le t.y
  write_u32le t.w
  write_u32le t.h
  write_u32le t.group
  UString.write_options t.attr

structure TerrainOverlapData where
  x : Nat
  y : Nat
  attr : UString
deriving Repr, DecidableEq

def TerrainOverlapData.read_options : RM TerrainOverlapData := do
  ralign 4
  let x ← read_u32le
  let y ← read_u32le
  let attr ← UString.read_options
  pure ⟨x, y, attr⟩

def TerrainOverlapData.write_options (t : TerrainOverlapData) : Wr Unit := do
  wpad 4
  write_u32le t.x
  write_u32le t.y
  UString.write_options t.attr

structure TerrainData where
  x : Nat
  z : Nat
  width : Nat
  height : Nat
  layers : List TerrainLayerData
  overlaps : List TerrainOverlapData
  terrains : List UString
deriving Repr, DecidableEq

def TerrainData.read_options : RM TerrainData := do
  ralign 4
  let x ← read_u32le
  let z ← read_u32le
  let width ← read_u32le
  let height ← read_u32le
  let layers ← UArray.read_options TerrainLayerData.read_options
  let overlaps ← UArray.read_options TerrainOverlapData.read_options
  let terrains ← UArray.read_options UString.read_options
  pure ⟨x, z, width, height, layers, overlaps, terrains⟩

def TerrainData.write_options (t : TerrainData) : Wr Unit := do
  wpad 4
  write_u32le t.x
  write_u32le t.z
  write_u32le t.width
  write_u32le t.height
  UArray.write_options TerrainLayerData.write_options t.layers
  UArray.write_options TerrainOverlapData.write_options t.overlaps
  UArray.write_options UString.write_options t.terrains

structure GlTextureSettings where
  filter_mode : Nat
  aniso : Nat
  mip_bias : Nat
  wrap_u : Nat
  wrap_v : Nat
  wrap_w : Nat
deriving Repr, DecidableEq

def GlTextureSettings.read_options : RM GlTextureSettings := do
  let filter_mode ← read_u32le
  let aniso ← read_u32le
  let mip_bias ← read_u32le
  let wrap_u ← read_u32le
  let wrap_v ← read_u32le
  let wrap_w ← read_u32le
  pure ⟨filter_mode, aniso, mip_bias, wrap_u, wrap_v, wrap_w⟩

def GlTextureSettings.write_options (g : GlTextureSettings) : Wr Unit := do
  write_u32le g.filter_mode
  write_u32le g.aniso
  write_u32le g.mip_bias
  write_u32le g.wrap_u
  write_u32le g.wrap_v
  write_u32le g.wrap_w

structure StreamingInfo where
  offset : Nat
  size : Nat
  path : UString
deriving Repr, DecidableEq

def StreamingInfo.read_options : RM StreamingInfo := do
  let offset ← read_u64le
  let size ← read_u32le
  let path ← UString.read_options
  pure ⟨offset, size, path⟩

def StreamingInfo.write_options (s : StreamingInfo) : Wr Unit := do
  write_u64le s.offset
  write_u32le s.size
  UString.write_options s.path

/-- Discriminants of the `#[brw(repr = u32)]` enum `TextureFormat`:
`Alpha8 = 1` through `ATC_RGBA8 = 35` consecutively, then `EAC_R = 41`
through `RGBA64 = 74` consecutively. -/
def texture_format_codes : List Nat :=
  (List.range 35).map (· + 1) ++ (List.range 34).map (· + 41)

/-- `TextureFormat` is kept as its `u32` discriminant. -/
structure TextureFormat where
  code : Nat
deriving Repr, DecidableEq

def TextureFormat.read_options : RM TextureFormat := do
  let code ← read_u32le
  if code ∈ texture_format_codes then
    pure ⟨code⟩
  else
    rerr "no variant matches the value of the repr enum"

def TextureFormat.write_options (t : TextureFormat) : Wr Unit :=
  write_u32le t.code

structure Texture2D where
  name : UString
  forced_fallback_format : Nat
  downscale_fallback : Nat
  is_alpha_channel_optional : Nat
  width : Nat
  height : Nat
  complete_image_size : Nat
  mips_stripped : Nat
  texture_format : TextureFormat
  mip_count : Nat
  is_readable : Nat
  is_pre_processed : Nat
  ignore_master_texture_limit : Nat
  streaming_mipmaps : Nat
  streaming_mipmaps_priority : Nat
  image_count : Nat
  texture_dimension : Nat
  texture_settings : GlTextureSettings
  lightmap_format : Nat
  color_space : Nat
  platform_blob : List Nat
  image_data : List Nat
  stream_data : StreamingInfo
deriving Repr, DecidableEq

def Texture2D.read_options : RM Texture2D := do
  let name ← UString.read_options
  ralign 4
  let forced_fallback_format ← read_u32le
  let downscale_fallback ← read_u8
  let is_alpha_channel_optional ← read_u8
  ralign 4
  let width ← read_u32le
  let height ← read_u32le
  let complete_image_size ← read_u32le
  let mips_stripped ← read_u32le
  let texture_format ← TextureFormat.read_options
  let mip_count ← read_u32le
  let is_readable ← read_u8
  let is_pre_processed ← read_u8
  let ignore_master_texture_limit ← read_u8
  let streaming_mipmaps ← read_u8
  let streaming_mipmaps_priority ← read_u32le
  let image_count ← read_u32le
  let texture_dimension ← read_u32le
  let texture_settings ← GlTextureSettings.read_options
  let lightmap_format ← read_u32le
  let color_space ← read_u32le
  let platform_blob ← UArray.read_options read_u8
  let image_data ← UArray.read_options read_u8
  let stream_data ← StreamingInfo.read_options
  pure ⟨name, forced_fallback_format, downscale_fallback,
    is_alpha_channel_optional, width, height, complete_image_size,
    mips_stripped, texture_format, mip_count, is_readable, is_pre_processed,
    ignore_master_texture_limit, streaming_mipmaps, streaming_mipmaps_priority,
    image_count, texture_dimension, texture_settings, lightmap_format,
    color_space, platform_blob, image_data, stream_data⟩

def Texture2D.write_options (t : Texture2D) : Wr Unit := do
  UString.write_options t.name
  wpad 4
  write_u32le t.forced_fallback_format
  write_u8 t.downscale_fallback
  write_u8 t.is_alpha_channel_optional
  wpad 4
  write_u32le t.width
  write_u32le t.height
  write_u32le t.complete_image_size
  write_u32le t.mips_stripped
  TextureFormat.write_options t.texture_format
  write_u32le t.mip_count
  write_u8 t.is_readable
  write_u8 t.is_pre_processed
  write_u8 t.ignore_master_texture_limit
  write_u8 t.streaming_mipmaps
  write_u32le t.streaming_mipmaps_priority
  write_u32le t.image_count
  write_u32le t.texture_dimension
  GlTextureSettings.write_options t.texture_settings
  write_u32le t.lightmap_format
  write_u32le t.color_space
  UArray.write_options write_u8 t.platform_blob
  UArray.write_options write_u8 t.image_data
  StreamingInfo.write_options t.stream_data

structure RenderDataKey where
  guid : Nat
  second : Nat
deriving Repr, DecidableEq

def RenderDataKey.read_options : RM RenderDataKey := do
  ralign 4
  let guid ← read_u128le
  let second ← read_u64le
  pure ⟨guid, second⟩

def RenderDataKey.write_options (r : RenderDataKey) : Wr Unit := do
  wpad 4
  write_u128le r.guid
  write_u64le r.second

structure SecondarySpriteTexture where
  texture : PPtr
  name : UString
deriving Repr, DecidableEq

def SecondarySpriteTexture.read_options : RM SecondarySpriteTexture := do
  let texture ← PPtr.read_options
  let name ← UString.read_options
  pure ⟨texture, name⟩

def SecondarySpriteTexture.write_options (s : SecondarySpriteTexture) :
    Wr Unit := do
  PPtr.write_options s.texture
  UString.write_options s.name

structure ChannelInfo where
  stream : Nat
  offset : Nat
  format : Nat
  dimension : Nat
deriving Repr, DecidableEq

def ChannelInfo.read_options : RM ChannelInfo := do
  let stream ← read_u8
  let offset ← read_u8
  let format ← read_u8
  let dimension ← read_u8
  pure ⟨stream, offset, format, dimension⟩

def ChannelInfo.write_options (c : ChannelInfo) : Wr Unit := do
  write_u8 c.stream
  write_u8 c.offset
  write_u8 c.format
  write_u8 c.dimension

structure VertexData where
  vertex_count : Nat
  channels : List ChannelInfo
  data : List Nat
deriving Repr, DecidableEq

def VertexData.read_options : RM VertexData := do
  ralign 4
  let vertex_count ← read_u32le
  let channels ← UArray.read_options ChannelInfo.read_options
  let data ← UArray.read_options read_u8
  pure ⟨vertex_count, channels, data⟩

def VertexData.write_options (v : VertexData) : Wr Unit := do
  wpad 4
  write_u32le v.vertex_count
  UArray.write_options ChannelInfo.write_options v.channels
  UArray.write_options write_u8 v.data

structure SubMesh where
  first_byte : Nat
  index_count : Nat
  topology : Nat
  base_vertex : Nat
  first_vertex : Nat
  vertex_count : Nat
  aabb : AABB
deriving Repr, DecidableEq

def SubMesh.read_options : RM SubMesh := do
  ralign 4
  let first_byte ← read_u32le
  let index_count ← read_u32le
  let topology ← read_u32le
  let base_vertex ← read_u32le
  let first_vertex ← read_u32le
  let vertex_count ← read_u32le
  let aabb ← AABB.read_options
  pure ⟨first_byte, index_count, topology, base_vertex, first_vertex,
    vertex_count, aabb⟩

def SubMesh.write_options (s : SubMesh) : Wr Unit := do
  wpad 4
  write_u32le s.first_byte
  write_u32le s.index_count
  write_u32le s.topology
  write_u32le s.base_vertex
  write_u32le s.first_vertex
  write_u32le s.vertex_count
  AABB.write_options s.aabb

structure SpriteRenderData where
  texture : PPtr
  alpha_texture : PPtr
  secondary_textures : List SecondarySpriteTexture
  sub_meshes : List SubMesh
  index_buffer : List Nat
  vertex_data : VertexData
  bind_pose : List Matrix4x4f
  texture_rect : RectF
  texture_rect_offset : Vector2f
  atlas_rect_offset : Vector2f
  settings_raw : Nat
  uv_transform : Vector4f
  downscale_multiplier : Nat
deriving Repr, DecidableEq

def SpriteRenderData.read_options : RM SpriteRenderData := do
  let texture ← PPtr.read_options
  let alpha_texture ← PPtr.read_options
  let secondary_textures ← UArray.read_options SecondarySpriteTexture.read_options
  let sub_meshes ← UArray.read_options SubMesh.read_options
  let index_buffer ← UArray.read_options read_u8
  let vertex_data ← VertexData.read_options
  let bind_pose ← UArray.read_options Matrix4x4f.read_options
  let texture_rect ← RectF.read_options
  let texture_rect_offset ← Vector2f.read_options
  let atlas_rect_offset ← Vector2f.read_options
  let settings_raw ← read_u32le
  let uv_transform ← Vector4f.read_options
  let downscale_multiplier ← read_u32le
  pure ⟨texture, alpha_texture, secondary_textures, sub_meshes, index_buffer,
    vertex_data, bind_pose, texture_rect, texture_rect_offset,
    atlas_rect_offset, settings_raw, uv_transform, downscale_multiplier⟩

def SpriteRenderData.write_options (s : SpriteRenderData) : Wr Unit := do
  PPtr.write_options s.texture
  PPtr.write_options s.alpha_texture
  UArray.write_options SecondarySpriteTexture.write_options s.secondary_textures
  UArray.write_options SubMesh.write_options s.sub_meshes
  UArray.write_options write_u8 s.index_buffer
  VertexData.write_options s.vertex_data
  UArray.write_options Matrix4x4f.write_options s.bind_pose
  RectF.write_options s.texture_rect
  Vector2f.write_options s.texture_rect_offset
  Vector2f.write_options s.atlas_rect_offset
  write_u32le s.settings_raw
  Vector4f.write_options s.uv_transform
  write_u32le s.downscale_multiplier

structure SpriteBone where
  name : UString
  position : Vector3f
  rotation : Quaternionf
  length : Nat
  parent_id : Nat
deriving Repr, DecidableEq

def SpriteBone.read_options : RM SpriteBone := do
  let name ← UString.read_options
  let position ← Vector3f.read_options
  let rotation ← Quaternionf.read_options
  let length ← read_u32le
  let parent_id ← read_u32le
  pure ⟨name, position, rotation, length, parent_id⟩

def SpriteBone.write_options (s : SpriteBone) : Wr Unit := do
  UString.write_options s.name
  Vector3f.write_options s.position
  Quaternionf.write_options s.rotation
  write_u32le s.length
  write_u32le s.parent_id

structure Sprite where
  name : UString
  rect : RectF
  offset : Vector2f
  border : Vector4f
  pixels_to_units : Nat
  pivot : Vector2f
  extrude : Nat
  is_polygon : Nat
  render_data_key : RenderDataKey
  atlas_tags : List UString
  sprite_atlas : PPtr
  sprite_render_data : SpriteRenderData
  physics_shape : List (List Vector2f)
  bones : List SpriteBone
deriving Repr, DecidableEq

def Sprite.read_options : RM Sprite := do
  let name ← UString.read_options
  let rect ← RectF.read_options
  let offset ← Vector2f.read_options
  let border ← Vector4f.read_options
  let pixels_to_units ← read_u32le
  let pivot ← Vector2f.read_options
  let extrude ← read_u32le
  let is_polygon ← read_u8
  let render_data_key ← RenderDataKey.read_options
  let atlas_tags ← UArray.read_options UString.read_options
  let sprite_atlas ← PPtr.read_options
  let sprite_render_data ← SpriteRenderData.read_options
  let physics_shape ← UArray.read_options (UArray.read_options Vector2f.read_options)
  let bones ← UArray.read_options SpriteBone.read_options
  pure ⟨name, rect, offset, border, pixels_to_units, pivot, extrude,
    is_polygon, render_data_key, atlas_tags, sprite_atlas, sprite_render_data,
    physics_shape, bones⟩

def Sprite.write_options (s : Sprite) : Wr Unit := do
  UString.write_options s.name
  RectF.write_options s.rect
  Vector2f.write_options s.offset
  Vector4f.write_options s.border
  write_u32le s.pixels_to_units
  Vector2f.write_options s.pivot
  write_u32le s.extrude
  write_u8 s.is_polygon
  RenderDataKey.write_options s.render_data_key
  UArray.write_options UString.write_options s.atlas_tags
  PPtr.write_options s.sprite_atlas
  SpriteRenderData.write_options s.sprite_render_data
  UArray.write_options (UArray.write_options Vector2f.write_options) s.physics_shape
  UArray.write_options SpriteBone.write_options s.bones

structure SpriteAtlasData where
  texture : PPtr
  alpha_texture : PPtr
  texture_rect : RectF
  texture_rect_offset : Vector2f
  atlas_rect_offset : Vector2f
  uv_transform : Vector4f
  downscale_multiplier : Nat
  settings_raw : Nat
  secondary_textures : List SecondarySpriteTexture
deriving Repr, DecidableEq

def SpriteAtlasData.read_options : RM SpriteAtlasData := do
  let texture ← PPtr.read_options
  let alpha_texture ← PPtr.read_options
  let texture_rect ← RectF.read_options
  let texture_rect_offset ← Vector2f.read_options
  let atlas_rect_offset ← Vector2f.read_options
  let uv_transform ← Vector4f.read_options
  let downscale_multiplier ← read_u32le
  let settings_raw ← read_u32le
  let secondary_textures ← UArray.read_options SecondarySpriteTexture.read_options
  pure ⟨texture, alpha_texture, texture_rect, texture_rect_offset,
    atlas_rect_offset, uv_transform, downscale_multiplier, settings_raw,
    secondary_textures⟩

def SpriteAtlasData.write_options (s : SpriteAtlasData) : Wr Unit := do
  PPtr.write_options s.texture
  PPtr.write_options s.alpha_texture
  RectF.write_options s.texture_rect
  Vector2f.write_options s.texture_rect_offset
  Vector2f.write_options s.atlas_rect_offset
  Vector4f.write_options s.uv_transform
  write_u32le s.downscale_multiplier
  write_u32le s.settings_raw
  UArray.write_options SecondarySpriteTexture.write_options s.secondary_textures

structure SpriteAtlas where
  name : UString
  packed_sprites : List PPtr
  sprite_names_to_index : List UString
  render_data_map : List (RenderDataKey × SpriteAtlasData)
  tag : UString
  is_variant : Nat
deriving Repr, DecidableEq

def SpriteAtlas.read_options : RM SpriteAtlas := do
  let name ← UString.read_options
  let packed_sprites ← UArray.read_options PPtr.read_options
  let sprite_names_to_index ← UArray.read_options UString.read_options
  let render_data_map ← UArray.read_options
    (read_pair RenderDataKey.read_options SpriteAtlasData.read_options)
  let tag ← UString.read_options
  let is_variant ← read_u32le
  pure ⟨name, packed_sprites, sprite_names_to_index, render_data_map, tag,
    is_variant⟩

def SpriteAtlas.write_options (s : SpriteAtlas) : Wr Unit := do
  UString.write_options s.name
  UArray.write_options PPtr.write_options s.packed_sprites
  UArray.write_options UString.write_options s.sprite_names_to_index
  UArray.write_options
    (write_pair RenderDataKey.write_options SpriteAtlasData.write_options)
    s.render_data_map
  UString.write_options s.tag
  write_u32le s.is_variant

structure GameObject where
  component : List PPtr
  layer : Nat
  name : UString
  tag : Nat
  is_active : Nat
deriving Repr, DecidableEq

def GameObject.read_options : RM GameObject := do
  let component ← UArray.read_options PPtr.read_options
  let layer ← read_u32le
  let name ← UString.read_options
  ralign 4
  let tag ← read_u16le
  let is_active ← read_u8
  pure ⟨component, layer, name, tag, is_active⟩

def GameObject.write_options (g : GameObject) : Wr Unit := do
  UArray.write_options PPtr.write_options g.component
  write_u32le g.layer
  UString.write_options g.name
  wpad 4
  write_u16le g.tag
  write_u8 g.is_active

structure Transform where
  game_object : PPtr
  local_rotation : Quaternionf
  local_position : Vector3f
  local_scale : Vector3f
  children : List PPtr
  father : PPtr
deriving Repr, DecidableEq

def Transform.read_options : RM Transform := do
  let game_object ← PPtr.read_options
  let local_rotation ← Quaternionf.read_options
  let local_position ← Vector3f.read_options
  let local_scale ← Vector3f.read_options
  let children ← UArray.read_options PPtr.read_options
  let father ← PPtr.read_options
  pure ⟨game_object, local_rotation, local_position, local_scale, children,
    father⟩

def Transform.write_options (t : Transform) : Wr Unit := do
  PPtr.write_options t.game_object
  Quaternionf.write_options t.local_rotation
  Vector3f.write_options t.local_position
  Vector3f.write_options t.local_scale
  UArray.write_options PPtr.write_options t.children
  PPtr.write_options t.father

structure Animator where
  game_object : PPtr
  enabled : Nat
  avatar : PPtr
  controller : PPtr
  culling_mode : Nat
  update_mode : Nat
  apply_root_motion : Nat
  linear_velocity_blending : Nat
  has_transform_hierarchy : Nat
  allow_constant_clip_sampling_optimization : Nat
  keep_animator_controller_state_on_disable : Nat
deriving Repr, DecidableEq

def Animator.read_options : RM Animator := do
  let game_object ← PPtr.read_options
  let enabled ← read_u8
  ralign 4
  let avatar ← PPtr.read_options
  let controller ← PPtr.read_options
  let culling_mode ← read_u32le
  let update_mode ← read_u32le
  let apply_root_motion ← read_u8
  let linear_velocity_blending ← read_u8
  ralign 4
  let has_transform_hierarchy ← read_u8
  let allow_constant_clip_sampling_optimization ← read_u8
  let keep_animator_controller_state_on_disable ← read_u8
  pure ⟨game_object, enabled, avatar, controller, culling_mode, update_mode,
    apply_root_motion, linear_velocity_blending, has_transform_hierarchy,
    allow_constant_clip_sampling_optimization,
    keep_animator_controller_state_on_disable⟩

def Animator.write_options (a : Animator) : Wr Unit := do
  PPtr.write_options a.game_object
  write_u8 a.enabled
  wpad 4
  PPtr.write_options a.avatar
  PPtr.write_options a.controller
  write_u32le a.culling_mode
  write_u32le a.update_mode
  write_u8 a.apply_root_motion
  write_u8 a.linear_velocity_blending
  wpad 4
  write_u8 a.has_transform_hierarchy
  write_u8 a.allow_constant_clip_sampling_optimization
  write_u8 a.keep_animator_controller_state_on_disable

structure AssetBundle where
  name : UString
  preloads : List PPtr
  container_map : List (UString × AssetInfo)
  main_asset : AssetInfo
  runtime_compatibility : Nat
  asset_bundle_name : UString
  dependencies : List UString
  is_streamed_asset_bundle : Nat
  explicit_data_layout : Nat
  path_flags : Nat
  scene_hashes : List (UString × UString)
deriving Repr, DecidableEq

def AssetBundle.read_options : RM AssetBundle := do
  let name ← UString.read_options
  let preloads ← UArray.read_options PPtr.read_options
  let container_map ← UArray.read_options
    (read_pair UString.read_options AssetInfo.read_options)
  let main_asset ← AssetInfo.read_options
  let runtime_compatibility ← read_u32le
  let asset_bundle_name ← UString.read_options
  let dependencies ← UArray.read_options UString.read_options
  let is_streamed_asset_bundle ← read_u8
  ralign 4
  let explicit_data_layout ← read_u32le
  let path_flags ← read_u32le
  let scene_hashes ← UArray.read_options
    (read_pair UString.read_options UString.read_options)
  pure ⟨name, preloads, container_map, main_asset, runtime_compatibility,
    asset_bundle_name, dependencies, is_streamed_asset_bundle,
    explicit_data_layout, path_flags, scene_hashes⟩

def AssetBundle.write_options (a : AssetBundle) : Wr Unit := do
  UString.write_options a.name
  UArray.write_options PPtr.write_options a.preloads
  UArray.write_options
    (write_pair UString.write_options AssetInfo.write_options) a.container_map
  AssetInfo.write_options a.main_asset
  write_u32le a.runtime_compatibility
  UString.write_options a.asset_bundle_name
  UArray.write_options UString.write_options a.dependencies
  write_u8 a.is_streamed_asset_bundle
  wpad 4
  write_u32le a.explicit_data_layout
  write_u32le a.path_flags
  UArray.write_options
    (write_pair UString.write_options UString.write_options) a.scene_hashes

structure BlendShapeVertex where
  vertex : Vector3f
  normal : Vector3f
  tangent : Vector3f
  index : Nat
deriving Repr, DecidableEq

def BlendShapeVertex.read_options : RM BlendShapeVertex := do
  let vertex ← Vector3f.read_options
  let normal ← Vector3f.read_options
  let tangent ← Vector3f.read_options
  let index ← read_u32le
  pure ⟨vertex, normal, tangent, index⟩

def BlendShapeVertex.write_options (b : BlendShapeVertex) : Wr Unit := do
  Vector3f.write_options b.vertex
  Vector3f.write_options b.normal
  Vector3f.write_options b.tangent
  write_u32le b.index

structure MeshBlendShape where
  first_vertex : Nat
  vertex_count : Nat
  has_normals : Nat
  has_tangents : Nat
deriving Repr, DecidableEq

def MeshBlendShape.read_options : RM MeshBlendShape := do
  ralign 4
  let first_vertex ← read_u32le
  let vertex_count ← read_u32le
  let has_normals ← read_u8
  let has_tangents ← read_u8
  pure ⟨first_vertex, vertex_count, has_normals, has_tangents⟩

def MeshBlendShape.write_options (m : MeshBlendShape) : Wr Unit := do
  wpad 4
  write_u32le m.first_vertex
  write_u32le m.vertex_count
  write_u8 m.has_normals
  write_u8 m.has_tangents

structure MeshBlendShapeChannel where
  name : UString
  name_hash : Nat
  frame_index : Nat
  frame_count : Nat
deriving Repr, DecidableEq

def MeshBlendShapeChannel.read_options : RM MeshBlendShapeChannel := do
  let name ← UString.read_options
  let name_hash ← read_u32le
  let frame_index ← read_u32le
  let frame_count ← read_u32le
  pure ⟨name, name_hash, frame_index, frame_count⟩

def MeshBlendShapeChannel.write_options (m : MeshBlendShapeChannel) :
    Wr Unit := do
  UString.write_options m.name
  write_u32le m.name_hash
  write_u32le m.frame_index
  write_u32le m.frame_count

structure BlendShapeData where
  vertices : List BlendShapeVertex
  shapes : List MeshBlendShape
  channels : List MeshBlendShapeChannel
  full_weights : List Nat
deriving Repr, DecidableEq

def BlendShapeData.read_options : RM BlendShapeData := do
  let vertices ← UArray.read_options BlendShapeVertex.read_options
  let shapes ← UArray.read_options MeshBlendShape.read_options
  let channels ← UArray.read_options MeshBlendShapeChannel.read_options
  let full_weights ← UArray.read_options read_u32le
  pure ⟨vertices, shapes, channels, full_weights⟩

def BlendShapeData.write_options (b : BlendShapeData) : Wr Unit := do
  UArray.write_options BlendShapeVertex.write_options b.vertices
  UArray.write_options MeshBlendShape.write_options b.shapes
  UArray.write_options MeshBlendShapeChannel.write_options b.channels
  UArray.write_options write_u32le b.full_weights

structure PackedBitVector where
  num_items : Nat
  range : Nat
  start : Nat
  data : List Nat
  bit_size : Nat
deriving Repr, DecidableEq

def PackedBitVector.read_options : RM PackedBitVector := do
  ralign 4
  let num_items ← read_u32le
  let range ← read_u32le
  let start ← read_u32le
  let data ← UArray.read_options read_u8
  let bit_size ← read_u8
  pure ⟨num_items, range, start, data, bit_size⟩

def PackedBitVector.write_options (p : PackedBitVector) : Wr Unit := do
  wpad 4
  write_u32le p.num_items
  write_u32le p.range
  write_u32le p.start
  UArray.write_options write_u8 p.data
  write_u8 p.bit_size

structure PackedBitVector2 where
  num_items : Nat
  data : List Nat
  bit_size : Nat
deriving Repr, DecidableEq

def PackedBitVector2.read_options : RM PackedBitVector2 := do
  ralign 4
  let num_items ← read_u32le
  let data ← UArray.read_options read_u8
  let bit_size ← read_u8
  pure ⟨num_items, data, bit_size⟩

def PackedBitVector2.write_options (p : PackedBitVector2) : Wr Unit := do
  wpad 4
  write_u32le p.num_items
  UArray.write_options write_u8 p.data
  write_u8 p.bit_size

structure CompressedMesh where
  vertices : PackedBitVector
  uv : PackedBitVector
  normals : PackedBitVector
  tangents : PackedBitVector
  weights : PackedBitVector2
  normal_signs : PackedBitVector2
  tangent_signs : PackedBitVector2
  float_colors : PackedBitVector
  bone_indices : PackedBitVector2
  triangles : PackedBitVector2
  uv_info : Nat
deriving Repr, DecidableEq

def CompressedMesh.read_options : RM CompressedMesh := do
  let vertices ← PackedBitVector.read_options
  let uv ← PackedBitVector.read_options
  let normals ← PackedBitVector.read_options
  let tangents ← PackedBitVector.read_options
  let weights ← PackedBitVector2.read_options
  let normal_signs ← PackedBitVector2.read_options
  let tangent_signs ← PackedBitVector2.read_options
  let float_colors ← PackedBitVector.read_options
  let bone_indices ← PackedBitVector2.read_options
  let triangles ← PackedBitVector2.read_options
  ralign 4
  let uv_info ← read_u32le
  pure ⟨vertices, uv, normals, tangents, weights, normal_signs, tangent_signs,
    float_colors, bone_indices, triangles, uv_info⟩

def CompressedMesh.write_options (c : CompressedMesh) : Wr Unit := do
  PackedBitVector.write_options c.vertices
  PackedBitVector.write_options c.uv
  PackedBitVector.write_options c.normals
  PackedBitVector.write_options c.tangents
  PackedBitVector2.write_options c.weights
  PackedBitVector2.write_options c.normal_signs
  PackedBitVector2.write_options c.tangent_signs
  PackedBitVector.write_options c.float_colors
  PackedBitVector2.write_options c.bone_indices
  PackedBitVector2.write_options c.triangles
  wpad 4
  write_u32le c.uv_info

structure Mesh where
  name : UString
  sub_meshes : List SubMesh
  shapes : BlendShapeData
  bind_pose : List Matrix4x4f
  bone_name_hashes : List Nat
  root_bone_name_hash : Nat
  bones_aabb : List MinMaxAABB
  variable_bone_count_weights : List Nat
  mesh_compression : Nat
  is_readable : Nat
  keep_vertices : Nat
  keep_indices : Nat
  index_format : Nat
  index_buffer : List Nat
  vertex_data : VertexData
  compressed_mesh : CompressedMesh
  local_aabb : AABB
  mesh_usage_flags : Nat
  baked_convex_collision_mesh : List Nat
  baked_triangle_collision_mesh : List Nat
  mesh_metrics_0 : Nat
  mesh_metrics_1 : Nat
  stream_data : StreamingInfo
deriving Repr, DecidableEq

def Mesh.read_options : RM Mesh := do
  let name ← UString.read_options
  let sub_meshes ← UArray.read_options SubMesh.read_options
  let shapes ← BlendShapeData.read_options
  let bind_pose ← UArray.read_options Matrix4x4f.read_options
  let bone_name_hashes ← UArray.read_options read_u32le
  let root_bone_name_hash ← read_u32le
  let bones_aabb ← UArray.read_options MinMaxAABB.read_options
  let variable_bone_count_weights ← UArray.read_options read_u32le
  let mesh_compression ← read_u8
  let is_readable ← read_u8
  let keep_vertices ← read_u8
  let keep_indices ← read_u8
  let index_format ← read_u32le
  let index_buffer ← UArray.read_options read_u8
  let vertex_data ← VertexData.read_options
  ralign 4
  let compressed_mesh ← CompressedMesh.read_options
  let local_aabb ← AABB.read_options
  let mesh_usage_flags ← read_u32le
  let baked_convex_collision_mesh ← UArray.read_options read_u8
  let baked_triangle_collision_mesh ← UArray.read_options read_u8
  let mesh_metrics_0 ← read_u32le
  let mesh_metrics_1 ← read_u32le
  let stream_data ← StreamingInfo.read_options
  pure ⟨name, sub_meshes, shapes, bind_pose, bone_name_hashes,
    root_bone_name_hash, bones_aabb, variable_bone_count_weights,
    mesh_compression, is_readable, keep_vertices, keep_indices, index_format,
    index_buffer, vertex_data, compressed_mesh, local_aabb, mesh_usage_flags,
    baked_convex_collision_mesh, baked_triangle_collision_mesh,
    mesh_metrics_0, mesh_metrics_1, stream_data⟩

def Mesh.write_options (m : Mesh) : Wr Unit := do
  UString.write_options m.name
  UArray.write_options SubMesh.write_options m.sub_meshes
  BlendShapeData.write_options m.shapes
  UArray.write_options Matrix4x4f.write_options m.bind_pose
  UArray.write_options write_u32le m.bone_name_hashes
  write_u32le m.root_bone_name_hash
  UArray.write_options MinMaxAABB.write_options m.bones_aabb
  UArray.write_options write_u32le m.variable_bone_count_weights
  write_u8 m.mesh_compression
  write_u8 m.is_readable
  write_u8 m.keep_vertices
  write_u8 m.keep_indices
  write_u32le m.index_format
  UArray.write_options write_u8 m.index_buffer
  VertexData.write_options m.vertex_data
  wpad 4
  CompressedMesh.write_options m.compressed_mesh
  AABB.write_options m.local_aabb
  write_u32le m.mesh_usage_flags
  UArray.write_options write_u8 m.baked_convex_collision_mesh
  UArray.write_options write_u8 m.baked_triangle_collision_mesh
  write_u32le m.mesh_metrics_0
  write_u32le m.mesh_metrics_1
  StreamingInfo.write_options m.stream_data

structure MeshFilter where
  game_object : PPtr
  mesh : PPtr
deriving Repr, DecidableEq

def MeshFilter.read_options : RM MeshFilter := do
  let game_object ← PPtr.read_options
  let mesh ← PPtr.read_options
  pure ⟨game_object, mesh⟩

def MeshFilter.write_options (m : MeshFilter) : Wr Unit := do
  PPtr.write_options m.game_object
  PPtr.write_options m.mesh

structure StaticBatchInfo where
  first_sub_mesh : Nat
  sub_mesh_count : Nat
deriving Repr, DecidableEq

def StaticBatchInfo.read_options : RM StaticBatchInfo := do
  let first_sub_mesh ← read_u16le
  let sub_mesh_count ← read_u16le
  pure ⟨first_sub_mesh, sub_mesh_count⟩

def StaticBatchInfo.write_options (s : StaticBatchInfo) : Wr Unit := do
  write_u16le s.first_sub_mesh
  write_u16le s.sub_mesh_count

structure MeshRenderer where
  game_object : PPtr
  enabled : Nat
  cast_shadows : Nat
  receive_shadows : Nat
  dynamic_occludee : Nat
  motion_vectors : Nat
  light_probe_usage : Nat
  reflection_probe_usage : Nat
  ray_tracing_mode : Nat
  ray_tracing_procedural : Nat
  rendering_layer_mask : Nat
  renderer_priority : Nat
  lightmap_index : Nat
  lightmap_index_dynamic : Nat
  lightmap_tiling_offset : Vector4f
  lightmap_tiling_offset_dynamic : Vector4f
  materials : List PPtr
  static_batch_info : StaticBatchInfo
  static_batch_root : PPtr
  probe_anchor : PPtr
  light_probe_volume_override : PPtr
  sorting_layer_id : Nat
  sorting_layer : Nat
  sorting_order : Nat
  additional_vertex_streams : PPtr
  enlighten_vertex_stream : PPtr
deriving Repr, DecidableEq

def MeshRenderer.read_options : RM MeshRenderer := do
  let game_object ← PPtr.read_options
  let enabled ← read_u8
  let cast_shadows ← read_u8
  let receive_shadows ← read_u8
  let dynamic_occludee ← read_u8
  let motion_vectors ← read_u8
  let light_probe_usage ← read_u8
  let reflection_probe_usage ← read_u8
  let ray_tracing_mode ← read_u8
  let ray_tracing_procedural ← read_u8
  ralign 4
  let rendering_layer_mask ← read_u32le
  let renderer_priority ← read_u32le
  let lightmap_index ← read_u16le
  let lightmap_index_dynamic ← read_u16le
  let lightmap_tiling_offset ← Vector4f.read_options
  let lightmap_tiling_offset_dynamic ← Vector4f.read_options
  let materials ← UArray.read_options PPtr.read_options
  let static_batch_info ← StaticBatchInfo.read_options
  let static_batch_root ← PPtr.read_options
  let probe_anchor ← PPtr.read_options
  let light_probe_volume_override ← PPtr.read_options
  let sorting_layer_id ← read_u32le
  let sorting_layer ← read_u16le
  let sorting_order ← read_u16le
  let additional_vertex_streams ← PPtr.read_options
  let enlighten_vertex_stream ← PPtr.read_options
  pure ⟨game_object, enabled, cast_shadows, receive_shadows, dynamic_occludee,
    motion_vectors, light_probe_usage, reflection_probe_usage,
    ray_tracing_mode, ray_tracing_procedural, rendering_layer_mask,
    renderer_priority, lightmap_index, lightmap_index_dynamic,
    lightmap_tiling_offset, lightmap_tiling_offset_dynamic, materials,
    static_batch_info, static_batch_root, probe_anchor,
    light_probe_volume_override, sorting_layer_id, sorting_layer,
    sorting_order, additional_vertex_streams, enlighten_vertex_stream⟩

def MeshRenderer.write_options (m : MeshRenderer) : Wr Unit := do
  PPtr.write_options m.game_object
  write_u8 m.enabled
  write_u8 m.cast_shadows
  write_u8 m.receive_shadows
  write_u8 m.dynamic_occludee
  write_u8 m.motion_vectors
  write_u8 m.light_probe_usage
  write_u8 m.reflection_probe_usage
  write_u8 m.ray_tracing_mode
  write_u8 m.ray_tracing_procedural
  wpad 4
  write_u32le m.rendering_layer_mask
  write_u32le m.renderer_priority
  write_u16le m.lightmap_index
  write_u16le m.lightmap_index_dynamic
  Vector4f.write_options m.lightmap_tiling_offset
  Vector4f.write_options m.lightmap_tiling_offset_dynamic
  UArray.write_options PPtr.write_options m.materials
  StaticBatchInfo.write_options m.static_batch_info
  PPtr.write_options m.static_batch_root
  PPtr.write_options m.probe_anchor
  PPtr.write_options m.light_probe_volume_override
  write_u32le m.sorting_layer_id
  write_u16le m.sorting_layer
  write_u16le m.sorting_order
  PPtr.write_options m.additional_vertex_streams
  PPtr.write_options m.enlighten_vertex_stream

structure SkinnedMeshRenderer where
  game_object : PPtr
  enabled : Nat
  cast_shadows : Nat
  receive_shadows : Nat
  dynamic_occludee : Nat
  motion_vectors : Nat
  light_probe_usage : Nat
  reflection_probe_usage : Nat
  ray_tracing_mode : Nat
  ray_trace_procedural : Nat
  rendering_layer_mask : Nat
  renderer_priority : Nat
  lightmap_index : Nat
  lightmap_index_dynamic : Nat
  lightmap_tiling_offset : Vector4f
  lightmap_tiling_offset_dynamic : Vector4f
  materials : List PPtr
  first_sub_mesh : Nat
  sub_mesh_count : Nat
  static_batch_root : PPtr
  probe_anchor : PPtr
  light_probe_volume_override : PPtr
  sorting_layer_id : Nat
  sorting_layer : Nat
  sorting_order : Nat
  quality : Nat
  update_when_offscreen : Nat
  skinned_motion_vectors : Nat
  mesh : PPtr
  bones : List PPtr
  blend_shape_weights : List Nat
  root_bone : PPtr
  aabb : AABB
  dirty_aabb : Nat
deriving Repr, DecidableEq

def SkinnedMeshRenderer.read_options : RM SkinnedMeshRenderer := do
  let game_object ← PPtr.read_options
  let enabled ← read_u8
  let cast_shadows ← read_u8
  let receive_shadows ← read_u8
  let dynamic_occludee ← read_u8
  let motion_vectors ← read_u8
  let light_probe_usage ← read_u8
  let reflection_probe_usage ← read_u8
  let ray_tracing_mode ← read_u8
  let ray_trace_procedural ← read_u8
  ralign 4
  let rendering_layer_mask ← read_u32le
  let renderer_priority ← read_u32le
  let lightmap_index ← read_u16le
  let lightmap_index_dynamic ← read_u16le
  let lightmap_tiling_offset ← Vector4f.read_options
  let lightmap_tiling_offset_dynamic ← Vector4f.read_options
  let materials ← UArray.read_options PPtr.read_options
  let first_sub_mesh ← read_u16le
  let sub_mesh_count ← read_u16le
  let static_batch_root ← PPtr.read_options
  let probe_anchor ← PPtr.read_options
  let light_probe_volume_override ← PPtr.read_options
  let sorting_layer_id ← read_u32le
  let sorting_layer ← read_u16le
  let sorting_order ← read_u16le
  let quality ← read_u32le
  let update_when_offscreen ← read_u8
  let skinned_motion_vectors ← read_u8
  ralign 4
  let mesh ← PPtr.read_options
  let bones ← UArray.read_options PPtr.read_options
  let blend_shape_weights ← UArray.read_options read_u32le
  let root_bone ← PPtr.read_options
  let aabb ← AABB.read_options
  let dirty_aabb ← read_u8
  pure ⟨game_object, enabled, cast_shadows, receive_shadows, dynamic_occludee,
    motion_vectors, light_probe_usage, reflection_probe_usage,
    ray_tracing_mode, ray_trace_procedural, rendering_layer_mask,
    renderer_priority, lightmap_index, lightmap_index_dynamic,
    lightmap_tiling_offset, lightmap_tiling_offset_dynamic, materials,
    first_sub_mesh, sub_mesh_count, static_batch_root, probe_anchor,
    light_probe_volume_override, sorting_layer_id, sorting_layer,
    sorting_order, quality, update_when_offscreen, skinned_motion_vectors,
    mesh, bones, blend_shape_weights, root_bone, aabb, dirty_aabb⟩

def SkinnedMeshRenderer.write_options (m : SkinnedMeshRenderer) : Wr Unit := do
  PPtr.write_options m.game_object
  write_u8 m.enabled
  write_u8 m.cast_shadows
  write_u8 m.receive_shadows
  write_u8 m.dynamic_occludee
  write_u8 m.motion_vectors
  write_u8 m.light_probe_usage
  write_u8 m.reflection_probe_usage
  write_u8 m.ray_tracing_mode
  write_u8 m.ray_trace_procedural
  wpad 4
  write_u32le m.rendering_layer_mask
  write_u32le m.renderer_priority
  write_u16le m.lightmap_index
  write_u16le m.lightmap_index_dynamic
  Vector4f.write_options m.lightmap_tiling_offset
  Vector4f.write_options m.lightmap_tiling_offset_dynamic
  UArray.write_options PPtr.write_options m.materials
  write_u16le m.first_sub_mesh
  write_u16le m.sub_mesh_count
  PPtr.write_options m.static_batch_root
  PPtr.write_options m.probe_anchor
  PPtr.write_options m.light_probe_volume_override
  write_u32le m.sorting_layer_id
  write_u16le m.sorting_layer
  write_u16le m.sorting_order
  write_u32le m.quality
  write_u8 m.update_when_offscreen
  write_u8 m.skinned_motion_vectors
  wpad 4
  PPtr.write_options m.mesh
  UArray.write_options PPtr.write_options m.bones
  UArray.write_options write_u32le m.blend_shape_weights
  PPtr.write_options m.root_bone
  AABB.write_options m.aabb
  write_u8 m.dirty_aabb

structure SkeletonNode where
  parent_id : Nat
  axes_id : Nat
deriving Repr, DecidableEq

def SkeletonNode.read_options : RM SkeletonNode := do
  let parent_id ← read_u32le
  let axes_id ← read_u32le
  pure ⟨parent_id, axes_id⟩

def SkeletonNode.write_options (s : SkeletonNode) : Wr Unit := do
  write_u32le s.parent_id
  write_u32le s.axes_id

structure SkeletonLimit where
  min : Vector3f
  max : Vector3f
deriving Repr, DecidableEq

def SkeletonLimit.read_options : RM SkeletonLimit := do
  let mn ← Vector3f.read_options
  let mx ← Vector3f.read_options
  pure ⟨mn, mx⟩

def SkeletonLimit.write_options (s : SkeletonLimit) : Wr Unit := do
  Vector3f.write_options s.min
  Vector3f.write_options s.max

structure SkeletonAxes where
  pre_q : Vector4f
  post_q : Vector4f
  sgn : Vector3f
  limit : SkeletonLimit
  length : Nat
  ty : Nat
deriving Repr, DecidableEq

def SkeletonAxes.read_options : RM SkeletonAxes := do
  let pre_q ← Vector4f.read_options
  let post_q ← Vector4f.read_options
  let sgn ← Vector3f.read_options
  let limit ← SkeletonLimit.read_options
  let length ← read_u32le
  let ty ← read_u32le
  pure ⟨pre_q, post_q, sgn, limit, length, ty⟩

def SkeletonAxes.write_options (s : SkeletonAxes) : Wr Unit := do
  Vector4f.write_options s.pre_q
  Vector4f.write_options s.post_q
  Vector3f.write_options s.sgn
  SkeletonLimit.write_options s.limit
  write_u32le s.length
  write_u32le s.ty

structure Skeleton where
  node : List SkeletonNode
  id : List Nat
  axes : List SkeletonAxes
deriving Repr, DecidableEq

def Skeleton.read_options : RM Skeleton := do
  let node ← UArray.read_options SkeletonNode.read_options
  let id ← UArray.read_options read_u32le
  let axes ← UArray.read_options SkeletonAxes.read_options
  pure ⟨node, id, axes⟩

def Skeleton.write_options (s : Skeleton) : Wr Unit := do
  UArray.write_options SkeletonNode.write_options s.node
  UArray.write_options write_u32le s.id
  UArray.write_options SkeletonAxes.write_options s.axes

structure SkeletonTransform where
  transform : Vector3f
  quaternion : Quaternionf
  scale : Vector3f
deriving Repr, DecidableEq

def SkeletonTransform.read_options : RM SkeletonTransform := do
  let transform ← Vector3f.read_options
  let quaternion ← Quaternionf.read_options
  let scale ← Vector3f.read_options
  pure ⟨transform, quaternion, scale⟩

def SkeletonTransform.write_options (s : SkeletonTransform) : Wr Unit := do
  Vector3f.write_options s.transform
  Quaternionf.write_options s.quaternion
  Vector3f.write_options s.scale

structure SkeletonPose where
  transform : List SkeletonTransform
deriving Repr, DecidableEq

def SkeletonPose.read_options : RM SkeletonPose := do
  let transform ← UArray.read_options SkeletonTransform.read_options
  pure ⟨transform⟩

def SkeletonPose.write_options (s : SkeletonPose) : Wr Unit := do
  UArray.write_options SkeletonTransform.write_options s.transform

structure AvatarHuman where
  root_x : SkeletonTransform
  skeleton : Skeleton
  skeleton_pose : SkeletonPose
  left_hand : List Nat
  right_hand : List Nat
  human_bone_index : List Nat
  human_bone_mass : List Nat
  scale : Nat
  arm_twist : Nat
  forearm_twist : Nat
  upper_left_twist : Nat
  leg_twist : Nat
  arm_stretch : Nat
  leg_stretch : Nat
  feet_spacing : Nat
  has_left_hand : Nat
  has_right_hand : Nat
  has_tdof : Nat
deriving Repr, DecidableEq

def AvatarHuman.read_options : RM AvatarHuman := do
  let root_x ← SkeletonTransform.read_options
  let skeleton ← Skeleton.read_options
  let skeleton_pose ← SkeletonPose.read_options
  let left_hand ← UArray.read_options read_u32le
  let right_hand ← UArray.read_options read_u32le
  let human_bone_index ← UArray.read_options read_u32le
  let human_bone_mass ← UArray.read_options read_u32le
  let scale ← read_u32le
  let arm_twist ← read_u32le
  let forearm_twist ← read_u32le
  let upper_left_twist ← read_u32le
  let leg_twist ← read_u32le
  let arm_stretch ← read_u32le
  let leg_stretch ← read_u32le
  let feet_spacing ← read_u32le
  let has_left_hand ← read_u8
  let has_right_hand ← read_u8
  let has_tdof ← read_u8
  pure ⟨root_x, skeleton, skeleton_pose, left_hand, right_hand,
    human_bone_index, human_bone_mass, scale, arm_twist, forearm_twist,
    upper_left_twist, leg_twist, arm_stretch, leg_stretch, feet_spacing,
    has_left_hand, has_right_hand, has_tdof⟩

def AvatarHuman.write_options (a : AvatarHuman) : Wr Unit := do
  SkeletonTransform.write_options a.root_x
  Skeleton.write_options a.skeleton
  SkeletonPose.write_options a.skeleton_pose
  UArray.write_options write_u32le a.left_hand
  UArray.write_options write_u32le a.right_hand
  UArray.write_options write_u32le a.human_bone_index
  UArray.write_options write_u32le a.human_bone_mass
  write_u32le a.scale
  write_u32le a.arm_twist
  write_u32le a.forearm_twist
  write_u32le a.upper_left_twist
  write_u32le a.leg_twist
  write_u32le a.arm_stretch
  write_u32le a.leg_stretch
  write_u32le a.feet_spacing
  write_u8 a.has_left_hand
  write_u8 a.has_right_hand
  write_u8 a.has_tdof

structure AvatarConstant where
  skeleton : Skeleton
  avatar_skeleton_pose : SkeletonPose
  default_pose : SkeletonPose
  skeleton_name_id_array : List Nat
  human : AvatarHuman
  human_skeleton_index_array : List Nat
  human_skeleton_reverse_index_array : List Nat
  root_motion_bone_index : Nat
  root_motion_bone_x : SkeletonTransform
  root_motion_skeleton : Skeleton
  root_motion_skeleton_pose : SkeletonPose
  root_motion_skeleton_index_array : List Nat
deriving Repr, DecidableEq

def AvatarConstant.read_options : RM AvatarConstant := do
  let skeleton ← Skeleton.read_options
  let avatar_skeleton_pose ← SkeletonPose.read_options
  let default_pose ← SkeletonPose.read_options
  let skeleton_name_id_array ← UArray.read_options read_u32le
  let human ← AvatarHuman.read_options
  let human_skeleton_index_array ← UArray.read_options read_u32le
  let human_skeleton_reverse_index_array ← UArray.read_options read_u32le
  let root_motion_bone_index ← read_u32le
  let root_motion_bone_x ← SkeletonTransform.read_options
  let root_motion_skeleton ← Skeleton.read_options
  let root_motion_skeleton_pose ← SkeletonPose.read_options
  let root_motion_skeleton_index_array ← UArray.read_options read_u32le
  pure ⟨skeleton, avatar_skeleton_pose, default_pose, skeleton_name_id_array,
    human, human_skeleton_index_array, human_skeleton_reverse_index_array,
    root_motion_bone_index, root_motion_bone_x, root_motion_skeleton,
    root_motion_skeleton_pose, root_motion_skeleton_index_array⟩

def AvatarConstant.write_options (a : AvatarConstant) : Wr Unit := do
  Skeleton.write_options a.skeleton
  SkeletonPose.write_options a.avatar_skeleton_pose
  SkeletonPose.write_options a.default_pose
  UArray.write_options write_u32le a.skeleton_name_id_array
  AvatarHuman.write_options a.human
  UArray.write_options write_u32le a.human_skeleton_index_array
  UArray.write_options write_u32le a.human_skeleton_reverse_index_array
  write_u32le a.root_motion_bone_index
  SkeletonTransform.write_options a.root_motion_bone_x
  Skeleton.write_options a.root_motion_skeleton
  SkeletonPose.write_options a.root_motion_skeleton_pose
  UArray.write_options write_u32le a.root_motion_skeleton_index_array

structure TosPair where
  first : Nat
  second : UString
deriving Repr, DecidableEq

def TosPair.read_options : RM TosPair := do
  ralign 4
  let first ← read_u32le
  let second ← UString.read_options
  pure ⟨first, second⟩

def TosPair.write_options (t : TosPair) : Wr Unit := do
  wpad 4
  write_u32le t.first
  UString.write_options t.second

structure SkeletonBoneLimit where
  min : Vector3f
  max : Vector3f
  value : Vector3f
  length : Nat
  modified : Nat
deriving Repr, DecidableEq

def SkeletonBoneLimit.read_options : RM SkeletonBoneLimit := do
  let mn ← Vector3f.read_options
  let mx ← Vector3f.read_options
  let value ← Vector3f.read_options
  let length ← read_u32le
  let modified ← read_u8
  pure ⟨mn, mx, value, length, modified⟩

def SkeletonBoneLimit.write_options (s : SkeletonBoneLimit) : Wr Unit := do
  Vector3f.write_options s.min
  Vector3f.write_options s.max
  Vector3f.write_options s.value
  write_u32le s.length
  write_u8 s.modified

structure HumanBone where
  bone_name : UString
  human_name : UString
  limit : SkeletonBoneLimit
deriving Repr, DecidableEq

def HumanBone.read_options : RM HumanBone := do
  let bone_name ← UString.read_options
  let human_name ← UString.read_options
  let limit ← SkeletonBoneLimit.read_options
  pure ⟨bone_name, human_name, limit⟩

def HumanBone.write_options (h : HumanBone) : Wr Unit := do
  UString.write_options h.bone_name
  UString.write_options h.human_name
  SkeletonBoneLimit.write_options h.limit

structure SkeletonBone where
  name : UString
  parent_name : UString
  position : Vector3f
  rotation : Vector3f
  scale : Vector3f
deriving Repr, DecidableEq

def SkeletonBone.read_options : RM SkeletonBone := do
  let name ← UString.read_options
  let parent_name ← UString.read_options
  let position ← Vector3f.read_options
  let rotation ← Vector3f.read_options
  let scale ← Vector3f.read_options
  pure ⟨name, parent_name, position, rotation, scale⟩

def SkeletonBone.write_options (s : SkeletonBone) : Wr Unit := do
  UString.write_options s.name
  UString.write_options s.parent_name
  Vector3f.write_options s.position
  Vector3f.write_options s.rotation
  Vector3f.write_options s.scale

structure HumanDescription where
  human : List HumanBone
  skeleton : List SkeletonBone
  arm_twist : Nat
  forearm_twist : Nat
  upper_leg_twist : Nat
  leg_twist : Nat
  arm_stretch : Nat
  leg_stretch : Nat
  feet_spacing : Nat
  global_scale : Nat
  root_motion_bone_name : UString
  has_translation_dof : Nat
  has_extra_root : Nat
  skeleton_has_parents : Nat
deriving Repr, DecidableEq

def HumanDescription.read_options : RM HumanDescription := do
  let human ← UArray.read_options HumanBone.read_options
  let skeleton ← UArray.read_options SkeletonBone.read_options
  let arm_twist ← read_u32le
  let forearm_twist ← read_u32le
  let upper_leg_twist ← read_u32le
  let leg_twist ← read_u32le
  let arm_stretch ← read_u32le
  let leg_stretch ← read_u32le
  let feet_spacing ← read_u32le
  let global_scale ← read_u32le
  let root_motion_bone_name ← UString.read_options
  let has_translation_dof ← read_u8
  let has_extra_root ← read_u8
  let skeleton_has_parents ← read_u8
  pure ⟨human, skeleton, arm_twist, forearm_twist, upper_leg_twist, leg_twist,
    arm_stretch, leg_stretch, feet_spacing, global_scale,
    root_motion_bone_name, has_translation_dof, has_extra_root,
    skeleton_has_parents⟩

def HumanDescription.write_options (h : HumanDescription) : Wr Unit := do
  UArray.write_options HumanBone.write_options h.human
  UArray.write_options SkeletonBone.write_options h.skeleton
  write_u32le h.arm_twist
  write_u32le h.forearm_twist
  write_u32le h.upper_leg_twist
  write_u32le h.leg_twist
  write_u32le h.arm_stretch
  write_u32le h.leg_stretch
  write_u32le h.feet_spacing
  write_u32le h.global_scale
  UString.write_options h.root_motion_bone_name
  write_u8 h.has_translation_dof
  write_u8 h.has_extra_root
  write_u8 h.skeleton_has_parents

structure Avatar where
  name : UString
  avatar_size : Nat
  avatar : AvatarConstant
  tos : List TosPair
  human_description : HumanDescription
deriving Repr, DecidableEq

def Avatar.read_options : RM Avatar := do
  let name ← UString.read_options
  let avatar_size ← read_u32le
  let avatar ← AvatarConstant.read_options
  let tos ← UArray.read_options TosPair.read_options
  let human_description ← HumanDescription.read_options
  pure ⟨name, avatar_size, avatar, tos, human_description⟩

def Avatar.write_options (a : Avatar) : Wr Unit := do
  UString.write_options a.name
  write_u32le a.avatar_size
  AvatarConstant.write_options a.avatar
  UArray.write_options TosPair.write_options a.tos
  HumanDescription.write_options a.human_description

structure TexEnv where
  texture : PPtr
  scale : Vector2f
  offset : Vector2f
deriving Repr, DecidableEq

def TexEnv.read_options : RM TexEnv := do
  ralign 4
  let texture ← PPtr.read_options
  let scale ← Vector2f.read_options
  let offset ← Vector2f.read_options
  pure ⟨texture, scale, offset⟩

def TexEnv.write_options (t : TexEnv) : Wr Unit := do
  wpad 4
  PPtr.write_options t.texture
  Vector2f.write_options t.scale
  Vector2f.write_options t.offset

structure FloatPropertySheetPair where
  key : UString
  value : Nat
deriving Repr, DecidableEq

def FloatPropertySheetPair.read_options : RM FloatPropertySheetPair := do
  let key ← UString.read_options
  ralign 4
  let value ← read_u32le
  pure ⟨key, value⟩

def FloatPropertySheetPair.write_options (f : FloatPropertySheetPair) :
    Wr Unit := do
  UString.write_options f.key
  wpad 4
  write_u32le f.value

structure UnityPropertySheet where
  text_envs : List (UString × TexEnv)
  floats : List FloatPropertySheetPair
  colors : List (UString × ColorRGBA)
deriving Repr, DecidableEq

def UnityPropertySheet.read_options : RM UnityPropertySheet := do
  let text_envs ← UArray.read_options
    (read_pair UString.read_options TexEnv.read_options)
  let floats ← UArray.read_options FloatPropertySheetPair.read_options
  let colors ← UArray.read_options
    (read_pair UString.read_options ColorRGBA.read_options)
  pure ⟨text_envs, floats, colors⟩

def UnityPropertySheet.write_options (u : UnityPropertySheet) : Wr Unit := do
  UArray.write_options
    (write_pair UString.write_options TexEnv.write_options) u.text_envs
  UArray.write_options FloatPropertySheetPair.write_options u.floats
  UArray.write_options
    (write_pair UString.write_options ColorRGBA.write_options) u.colors

structure Material where
  name : UString
  shader : PPtr
  shader_keywords : UString
  lightmap_flags : Nat
  enable_instancing_variants : Nat
  double_sided_gi : Nat
  custom_render_queue : Nat
  string_tag_map : List (UString × UString)
  disabled_shader_passes : List UString
  saved_properties : UnityPropertySheet
  build_texture_stacks : List (UString × UString)
deriving Repr, DecidableEq

def Material.read_options : RM Material := do
  let name ← UString.read_options
  let shader ← PPtr.read_options
  let shader_keywords ← UString.read_options
  ralign 4
  let lightmap_flags ← read_u32le
  let enable_instancing_variants ← read_u8
  let double_sided_gi ← read_u8
  ralign 4
  let custom_render_queue ← read_u32le
  let string_tag_map ← UArray.read_options
    (read_pair UString.read_options UString.read_options)
  let disabled_shader_passes ← UArray.read_options UString.read_options
  let saved_properties ← UnityPropertySheet.read_options
  let build_texture_stacks ← UArray.read_options
    (read_pair UString.read_options UString.read_options)
  pure ⟨name, shader, shader_keywords, lightmap_flags,
    enable_instancing_variants, double_sided_gi, custom_render_queue,
    string_tag_map, disabled_shader_passes, saved_properties,
    build_texture_stacks⟩

def Material.write_options (m : Material) : Wr Unit := do
  UString.write_options m.name
  PPtr.write_options m.shader
  UString.write_options m.shader_keywords
  wpad 4
  write_u32le m.lightmap_flags
  write_u8 m.enable_instancing_variants
  write_u8 m.double_sided_gi
  wpad 4
  write_u32le m.custom_render_queue
  UArray.write_options
    (write_pair UString.write_options UString.write_options) m.string_tag_map
  UArray.write_options UString.write_options m.disabled_shader_passes
  UnityPropertySheet.write_options m.saved_properties
  UArray.write_options
    (write_pair UString.write_options UString.write_options)
    m.build_texture_stacks

structure AngleLimits where
  active : Nat
  min : Nat
  max : Nat
deriving Repr, DecidableEq

def AngleLimits.read_options : RM AngleLimits := do
  let active ← read_u8
  ralign 4
  let mn ← read_u32le
  let mx ← read_u32le
  pure ⟨active, mn, mx⟩

def AngleLimits.write_options (a : AngleLimits) : Wr Unit := do
  write_u8 a.active
  wpad 4
  write_u32le a.min
  write_u32le a.max

structure SpringColliderProperty where
  ty : Nat
  radius : Nat
  width : Nat
  height : Nat
deriving Repr, DecidableEq

def SpringColliderProperty.read_options : RM SpringColliderProperty := do
  let ty ← read_u32le
  let radius ← read_u32le
  let width ← read_u32le
  let height ← read_u32le
  pure ⟨ty, radius, width, height⟩

def SpringColliderProperty.write_options (s : SpringColliderProperty) :
    Wr Unit := do
  write_u32le s.ty
  write_u32le s.radius
  write_u32le s.width
  write_u32le s.height

structure LengthLimitProperty where
  target_index : Nat
  target : Nat
deriving Repr, DecidableEq

def LengthLimitProperty.read_options : RM LengthLimitProperty := do
  let target_index ← read_u32le
  let target ← read_u32le
  pure ⟨target_index, target⟩

def LengthLimitProperty.write_options (l : LengthLimitProperty) : Wr Unit := do
  write_u32le l.target_index
  write_u32le l.target

structure SpringBoneProperties where
  stiffness_force : Nat
  drag_force : Nat
  spring_force : Vector3f
  wind_influence : Nat
  angular_stiffness : Nat
  y_angle_limits : AngleLimits
  z_angle_limits : AngleLimits
  radius : Nat
  spring_length : Nat
  bone_axis : Vector3f
  local_position : Vector3f
  initial_local_rotation : Quaternionf
  parent_index : Nat
  pivot_index : Nat
  pivot_local_matrix : Matrix4x4f
deriving Repr, DecidableEq

def SpringBoneProperties.read_options : RM SpringBoneProperties := do
  let stiffness_force ← read_u32le
  let drag_force ← read_u32le
  let spring_force ← Vector3f.read_options
  let wind_influence ← read_u32le
  let angular_stiffness ← read_u32le
  let y_angle_limits ← AngleLimits.read_options
  let z_angle_limits ← AngleLimits.read_options
  let radius ← read_u32le
  let spring_length ← read_u32le
  let bone_axis ← Vector3f.read_options
  let local_position ← Vector3f.read_options
  let initial_local_rotation ← Quaternionf.read_options
  let parent_index ← read_u32le
  let pivot_index ← read_u32le
  let pivot_local_matrix ← Matrix4x4f.read_options
  pure ⟨stiffness_force, drag_force, spring_force, wind_influence,
    angular_stiffness, y_angle_limits, z_angle_limits, radius, spring_length,
    bone_axis, local_position, initial_local_rotation, parent_index,
    pivot_index, pivot_local_matrix⟩

def SpringBoneProperties.write_options (s : SpringBoneProperties) :
    Wr Unit := do
  write_u32le s.stiffness_force
  write_u32le s.drag_force
  Vector3f.write_options s.spring_force
  write_u32le s.wind_influence
  write_u32le s.angular_stiffness
  AngleLimits.write_options s.y_angle_limits
  AngleLimits.write_options s.z_angle_limits
  write_u32le s.radius
  write_u32le s.spring_length
  Vector3f.write_options s.bone_axis
  Vector3f.write_options s.local_position
  Quaternionf.write_options s.initial_local_rotation
  write_u32le s.parent_index
  write_u32le s.pivot_index
  Matrix4x4f.write_options s.pivot_local_matrix

structure SpringJob where
  optimize_transform : Nat
  is_paused : Nat
  simulation_frame_rate : Nat
  dynamic_ratio : Nat
  gravity : Vector3f
  bounce : Nat
  friction : Nat
  time : Nat
  enable_angle_limits : Nat
  enable_collision : Nat
  enable_length_limtis : Nat
  collide_width_ground : Nat
  ground_height : Nat
  wind_disabled : Nat
  wind_influence : Nat
  wind_power : Vector3f
  wind_dir : Vector3f
  distance_rate : Vector3f
  automatic_reset : Nat
  reset_distance : Nat
  reset_angle : Nat
  sorted_bones : List PPtr
  job_colliders : List PPtr
  job_properties : List SpringBoneProperties
  init_local_rotations : List Quaternionf
  job_col_properties : List SpringColliderProperty
  job_length_properties : List LengthLimitProperty
deriving Repr, DecidableEq

def SpringJob.read_options : RM SpringJob := do
  let optimize_transform ← read_u32le
  let is_paused ← read_u32le
  let simulation_frame_rate ← read_u32le
  let dynamic_ratio ← read_u32le
  let gravity ← Vector3f.read_options
  let bounce ← read_u32le
  let friction ← read_u32le
  let time ← read_u32le
  let enable_angle_limits ← read_u32le
  let enable_collision ← read_u32le
  let enable_length_limtis ← read_u32le
  let collide_width_ground ← read_u32le
  let ground_height ← read_u32le
  let wind_disabled ← read_u32le
  let wind_influence ← read_u32le
  let wind_power ← Vector3f.read_options
  let wind_dir ← Vector3f.read_options
  let distance_rate ← Vector3f.read_options
  let automatic_reset ← read_u32le
  let reset_distance ← read_u32le
  let reset_angle ← read_u32le
  let sorted_bones ← UArray.read_options PPtr.read_options
  let job_colliders ← UArray.read_options PPtr.read_options
  let job_properties ← UArray.read_options SpringBoneProperties.read_options
  let init_local_rotations ← UArray.read_options Quaternionf.read_options
  let job_col_properties ← UArray.read_options SpringColliderProperty.read_options
  let job_length_properties ← UArray.read_options LengthLimitProperty.read_options
  pure ⟨optimize_transform, is_paused, simulation_frame_rate, dynamic_ratio,
    gravity, bounce, friction, time, enable_angle_limits, enable_collision,
    enable_length_limtis, collide_width_ground, ground_height, wind_disabled,
    wind_influence, wind_power, wind_dir, distance_rate, automatic_reset,
    reset_distance, reset_angle, sorted_bones, job_colliders, job_properties,
    init_local_rotations, job_col_properties, job_length_properties⟩

def SpringJob.write_options (s : SpringJob) : Wr Unit := do
  write_u32le s.optimize_transform
  write_u32le s.is_paused
  write_u32le s.simulation_frame_rate
  write_u32le s.dynamic_ratio
  Vector3f.write_options s.gravity
  write_u32le s.bounce
  write_u32le s.friction
  write_u32le s.time
  write_u32le s.enable_angle_limits
  write_u32le s.enable_collision
  write_u32le s.enable_length_limtis
  write_u32le s.collide_width_ground
  write_u32le s.ground_height
  write_u32le s.wind_disabled
  write_u32le s.wind_influence
  Vector3f.write_options s.wind_power
  Vector3f.write_options s.wind_dir
  Vector3f.write_options s.distance_rate
  write_u32le s.automatic_reset
  write_u32le s.reset_distance
  write_u32le s.reset_angle
  UArray.write_options PPtr.write_options s.sorted_bones
  UArray.write_options PPtr.write_options s.job_colliders
  UArray.write_options SpringBoneProperties.write_options s.job_properties
  UArray.write_options Quaternionf.write_options s.init_local_rotations
  UArray.write_options SpringColliderProperty.write_options s.job_col_properties
  UArray.write_options LengthLimitProperty.write_options s.job_length_properties

structure SpringBone where
  index : Nat
  enabled_job_system : Nat
  job_colliders : List PPtr
  valid_children : List PPtr
  stiffness_force : Nat
  drag_force : Nat
  spring_force : Vector3f
  wind_influence : Nat
  pivot_node : PPtr
  angular_stiffness : Nat
  y_angle_limits : AngleLimits
  z_angle_limits : AngleLimits
  length_limit_targets : List PPtr
  radius : Nat
  sphere_colliders : List PPtr
  capsule_colliders : List PPtr
  panel_colliders : List PPtr
deriving Repr, DecidableEq

def SpringBone.read_options : RM SpringBone := do
  let index ← read_u32le
  let enabled_job_system ← read_u8
  let job_colliders ← UArray.read_options PPtr.read_options
  let valid_children ← UArray.read_options PPtr.read_options
  let stiffness_force ← read_u32le
  let drag_force ← read_u32le
  let spring_force ← Vector3f.read_options
  let wind_influence ← read_u32le
  let pivot_node ← PPtr.read_options
  let angular_stiffness ← read_u32le
  let y_angle_limits ← AngleLimits.read_options
  let z_angle_limits ← AngleLimits.read_options
  let length_limit_targets ← UArray.read_options PPtr.read_options
  let radius ← read_u32le
  let sphere_colliders ← UArray.read_options PPtr.read_options
  let capsule_colliders ← UArray.read_options PPtr.read_options
  let panel_colliders ← UArray.read_options PPtr.read_options
  pure ⟨index, enabled_job_system, job_colliders, valid_children,
    stiffness_force, drag_force, spring_force, wind_influence, pivot_node,
    angular_stiffness, y_angle_limits, z_angle_limits, length_limit_targets,
    radius, sphere_colliders, capsule_colliders, panel_colliders⟩

def SpringBone.write_options (s : SpringBone) : Wr Unit := do
  write_u32le s.index
  write_u8 s.enabled_job_system
  UArray.write_options PPtr.write_options s.job_colliders
  UArray.write_options PPtr.write_options s.valid_children
  write_u32le s.stiffness_force
  write_u32le s.drag_force
  Vector3f.write_options s.spring_force
  write_u32le s.wind_influence
  PPtr.write_options s.pivot_node
  write_u32le s.angular_stiffness
  AngleLimits.write_options s.y_angle_limits
  AngleLimits.write_options s.z_angle_limits
  UArray.write_options PPtr.write_options s.length_limit_targets
  write_u32le s.radius
  UArray.write_options PPtr.write_options s.sphere_colliders
  UArray.write_options PPtr.write_options s.capsule_colliders
  UArray.write_options PPtr.write_options s.panel_colliders

structure XForm where
  t : Vector3f
  q : Quaternionf
  scale : Vector3f
deriving Repr, DecidableEq

def XForm.read_options : RM XForm := do
  let t ← Vector3f.read_options
  let q ← Quaternionf.read_options
  let scale ← Vector3f.read_options
  pure ⟨t, q, scale⟩

def XForm.write_options (x : XForm) : Wr Unit := do
  Vector3f.write_options x.t
  Quaternionf.write_options x.q
  Vector3f.write_options x.scale

structure HumanGoal where
  x : XForm
  weight_t : Nat
  weight_r : Nat
  hint_t : Vector3f
  hint_weight_t : Nat
deriving Repr, DecidableEq

def HumanGoal.read_options : RM HumanGoal := do
  let x ← XForm.read_options
  let weight_t ← read_u32le
  let weight_r ← read_u32le
  let hint_t ← Vector3f.read_options
  let hint_weight_t ← read_u32le
  pure ⟨x, weight_t, weight_r, hint_t, hint_weight_t⟩

def HumanGoal.write_options (h : HumanGoal) : Wr Unit := do
  XForm.write_options h.x
  write_u32le h.weight_t
  write_u32le h.weight_r
  Vector3f.write_options h.hint_t
  write_u32le h.hint_weight_t

structure HandPose where
  grab_x : XForm
  do_f_array : List Nat
  m_override : Nat
  close_open : Nat
  in_out : Nat
  grab : Nat
deriving Repr, DecidableEq

def HandPose.read_options : RM HandPose := do
  let grab_x ← XForm.read_options
  let do_f_array ← UArray.read_options read_u32le
  let m_override ← read_u32le
  let close_open ← read_u32le
  let in_out ← read_u32le
  let grab ← read_u32le
  pure ⟨grab_x, do_f_array, m_override, close_open, in_out, grab⟩

def HandPose.write_options (h : HandPose) : Wr Unit := do
  XForm.write_options h.grab_x
  UArray.write_options write_u32le h.do_f_array
  write_u32le h.m_override
  write_u32le h.close_open
  write_u32le h.in_out
  write_u32le h.grab

structure HumanPose where
  root_x : XForm
  look_at_position : Vector3f
  look_at_weight : Vector4f
  goal_array : List HumanGoal
  left_hand_pose : HandPose
  right_hand_pose : HandPose
  dof_array : List Nat
  t_dof_array : List Vector3f
deriving Repr, DecidableEq

def HumanPose.read_options : RM HumanPose := do
  let root_x ← XForm.read_options
  let look_at_position ← Vector3f.read_options
  let look_at_weight ← Vector4f.read_options
  let goal_array ← UArray.read_options HumanGoal.read_options
  let left_hand_pose ← HandPose.read_options
  let right_hand_pose ← HandPose.read_options
  let dof_array ← UArray.read_options read_u32le
  let t_dof_array ← UArray.read_options Vector3f.read_options
  pure ⟨root_x, look_at_position, look_at_weight, goal_array, left_hand_pose,
    right_hand_pose, dof_array, t_dof_array⟩

def HumanPose.write_options (h : HumanPose) : Wr Unit := do
  XForm.write_options h.root_x
  Vector3f.write_options h.look_at_position
  Vector4f.write_options h.look_at_weight
  UArray.write_options HumanGoal.write_options h.goal_array
  HandPose.write_options h.left_hand_pose
  HandPose.write_options h.right_hand_pose
  UArray.write_options write_u32le h.dof_array
  UArray.write_options Vector3f.write_options h.t_dof_array

structure StreamedClip where
  data : List Nat
  curve_count : Nat
deriving Repr, DecidableEq

def StreamedClip.read_options : RM StreamedClip := do
  let data ← UArray.read_options read_u32le
  let curve_count ← read_u32le
  pure ⟨data, curve_count⟩

def StreamedClip.write_options (s : StreamedClip) : Wr Unit := do
  UArray.write_options write_u32le s.data
  write_u32le s.curve_count

structure DenseClip where
  frame_count : Nat
  curve_count : Nat
  sample_rate : Nat
  begin_time : Nat
  sample_array : List Nat
deriving Repr, DecidableEq

def DenseClip.read_options : RM DenseClip := do
  let frame_count ← read_u32le
  let curve_count ← read_u32le
  let sample_rate ← read_u32le
  let begin_time ← read_u32le
  let sample_array ← UArray.read_options read_u32le
  pure ⟨frame_count, curve_count, sample_rate, begin_time, sample_array⟩

def DenseClip.write_options (d : DenseClip) : Wr Unit := do
  write_u32le d.frame_count
  write_u32le d.curve_count
  write_u32le d.sample_rate
  write_u32le d.begin_time
  UArray.write_options write_u32le d.sample_array

structure ConstantClip where
  data : List Nat
deriving Repr, DecidableEq

def ConstantClip.read_options : RM ConstantClip := do
  let data ← UArray.read_options read_u32le
  pure ⟨data⟩

def ConstantClip.write_options (c : ConstantClip) : Wr Unit := do
  UArray.write_options write_u32le c.data

structure Clip where
  streamed_clip : StreamedClip
  dense_clip : DenseClip
  constant_clip : ConstantClip
deriving Repr, DecidableEq

def Clip.read_options : RM Clip := do
  let streamed_clip ← StreamedClip.read_options
  let dense_clip ← DenseClip.read_options
  let constant_clip ← ConstantClip.read_options
  pure ⟨streamed_clip, dense_clip, constant_clip⟩

def Clip.write_options (c : Clip) : Wr Unit := do
  StreamedClip.write_options c.streamed_clip
  DenseClip.write_options c.dense_clip
  ConstantClip.write_options c.constant_clip

structure ValueDelta where
  start : Nat
  stop : Nat
deriving Repr, DecidableEq

def ValueDelta.read_options : RM ValueDelta := do
  let start ← read_u32le
  let stop ← read_u32le
  pure ⟨start, stop⟩

def ValueDelta.write_options (v : ValueDelta) : Wr Unit := do
  write_u32le v.start
  write_u32le v.stop

structure ClipMuscleConstant where
  delta_pose : HumanPose
  start_x : XForm
  stop_x : XForm
  left_foot_start_x : XForm
  right_foot_start_x : XForm
  average_speed : Vector3f
  clip : Clip
  start_time : Nat
  stop_time : Nat
  orientation_offset_y : Nat
  level : Nat
  cycle_offset : Nat
  average_angular_speed : Nat
  index_array : List Nat
  value_array_delta : List ValueDelta
  value_array_reference_pose : List Nat
  mirror : Nat
  loop_time : Nat
  loop_blend : Nat
  loop_blend_orientation : Nat
  loop_blend_position_y : Nat
  loop_blend_position_xz : Nat
  start_at_origin : Nat
  keep_original_orientation : Nat
  keep_original_position_y : Nat
  keep_original_position_xz : Nat
  height_from_feet : Nat
deriving Repr, DecidableEq

def ClipMuscleConstant.read_options : RM ClipMuscleConstant := do
  let delta_pose ← HumanPose.read_options
  let start_x ← XForm.read_options
  let stop_x ← XForm.read_options
  let left_foot_start_x ← XForm.read_options
  let right_foot_start_x ← XForm.read_options
  let average_speed ← Vector3f.read_options
  let clip ← Clip.read_options
  let start_time ← read_u32le
  let stop_time ← read_u32le
  let orientation_offset_y ← read_u32le
  let level ← read_u32le
  let cycle_offset ← read_u32le
  let average_angular_speed ← read_u32le
  let index_array ← UArray.read_options read_u32le
  let value_array_delta ← UArray.read_options ValueDelta.read_options
  let value_array_reference_pose ← UArray.read_options read_u32le
  let mirror ← read_u8
  let loop_time ← read_u8
  let loop_blend ← read_u8
  let loop_blend_orientation ← read_u8
  let loop_blend_position_y ← read_u8
  let loop_blend_position_xz ← read_u8
  let start_at_origin ← read_u8
  let keep_original_orientation ← read_u8
  let keep_original_position_y ← read_u8
  let keep_original_position_xz ← read_u8
  let height_from_feet ← read_u8
  pure ⟨delta_pose, start_x, stop_x, left_foot_start_x, right_foot_start_x,
    average_speed, clip, start_time, stop_time, orientation_offset_y, level,
    cycle_offset, average_angular_speed, index_array, value_array_delta,
    value_array_reference_pose, mirror, loop_time, loop_blend,
    loop_blend_orientation, loop_blend_position_y, loop_blend_position_xz,
    start_at_origin, keep_original_orientation, keep_original_position_y,
    keep_original_position_xz, height_from_feet⟩

def ClipMuscleConstant.write_options (c : ClipMuscleConstant) : Wr Unit := do
  HumanPose.write_options c.delta_pose
  XForm.write_options c.start_x
  XForm.write_options c.stop_x
  XForm.write_options c.left_foot_start_x
  XForm.write_options c.right_foot_start_x
  Vector3f.write_options c.average_speed
  Clip.write_options c.clip
  write_u32le c.start_time
  write_u32le c.stop_time
  write_u32le c.orientation_offset_y
  write_u32le c.level
  write_u32le c.cycle_offset
  write_u32le c.average_angular_speed
  UArray.write_options write_u32le c.index_array
  UArray.write_options ValueDelta.write_options c.value_array_delta
  UArray.write_options write_u32le c.value_array_reference_pose
  write_u8 c.mirror
  write_u8 c.loop_time
  write_u8 c.loop_blend
  write_u8 c.loop_blend_orientation
  write_u8 c.loop_blend_position_y
  write_u8 c.loop_blend_position_xz
  write_u8 c.start_at_origin
  write_u8 c.keep_original_orientation
  write_u8 c.keep_original_position_y
  write_u8 c.keep_original_position_xz
  write_u8 c.height_from_feet

structure QuaternionCurveKeyframe where
  time : Nat
  value : Quaternionf
  in_slope : Quaternionf
  out_slope : Quaternionf
  weighted_mode : Nat
  in_weight : Quaternionf
  out_weight : Quaternionf
deriving Repr, DecidableEq

def QuaternionCurveKeyframe.read_options : RM QuaternionCurveKeyframe := do
  let time ← read_u32le
  let value ← Quaternionf.read_options
  let in_slope ← Quaternionf.read_options
  let out_slope ← Quaternionf.read_options
  let weighted_mode ← read_u32le
  let in_weight ← Quaternionf.read_options
  let out_weight ← Quaternionf.read_options
  pure ⟨time, value, in_slope, out_slope, weighted_mode, in_weight, out_weight⟩

def QuaternionCurveKeyframe.write_options (q : QuaternionCurveKeyframe) :
    Wr Unit := do
  write_u32le q.time
  Quaternionf.write_options q.value
  Quaternionf.write_options q.in_slope
  Quaternionf.write_options q.out_slope
  write_u32le q.weighted_mode
  Quaternionf.write_options q.in_weight
  Quaternionf.write_options q.out_weight

structure QuaternionAnimationCurve where
  curve : List QuaternionCurveKeyframe
  pre_infinity : Nat
  post_infinity : Nat
  rotation_order : Nat
deriving Repr, DecidableEq

def QuaternionAnimationCurve.read_options : RM QuaternionAnimationCurve := do
  let curve ← UArray.read_options QuaternionCurveKeyframe.read_options
  let pre_infinity ← read_u32le
  let post_infinity ← read_u32le
  let rotation_order ← read_u32le
  pure ⟨curve, pre_infinity, post_infinity, rotation_order⟩

def QuaternionAnimationCurve.write_options (q : QuaternionAnimationCurve) :
    Wr Unit := do
  UArray.write_options QuaternionCurveKeyframe.write_options q.curve
  write_u32le q.pre_infinity
  write_u32le q.post_infinity
  write_u32le q.rotation_order

structure QuaternionCurve where
  curve : QuaternionAnimationCurve
  path : UString
deriving Repr, DecidableEq

def QuaternionCurve.read_options : RM QuaternionCurve := do
  let curve ← QuaternionAnimationCurve.read_options
  let path ← UString.read_options
  pure ⟨curve, path⟩

def QuaternionCurve.write_options (q : QuaternionCurve) : Wr Unit := do
  QuaternionAnimationCurve.write_options q.curve
  UString.write_options q.path

structure Vector3Curve where
  curve : List Vector3f
  pre_infinity : Nat
  post_infinity : Nat
  rotation_order : Nat
deriving Repr, DecidableEq

def Vector3Curve.read_options : RM Vector3Curve := do
  let curve ← UArray.read_options Vector3f.read_options
  let pre_infinity ← read_u32le
  let post_infinity ← read_u32le
  let rotation_order ← read_u32le
  pure ⟨curve, pre_infinity, post_infinity, rotation_order⟩

def Vector3Curve.write_options (v : Vector3Curve) : Wr Unit := do
  UArray.write_options Vector3f.write_options v.curve
  write_u32le v.pre_infinity
  write_u32le v.post_infinity
  write_u32le v.rotation_order

structure FloatCurve where
  curve : List Nat
  pre_infinity : Nat
  post_infinity : Nat
  rotation_order : Nat
deriving Repr, DecidableEq

def FloatCurve.read_options : RM FloatCurve := do
  let curve ← UArray.read_options read_u32le
  let pre_infinity ← read_u32le
  let post_infinity ← read_u32le
  let rotation_order ← read_u32le
  pure ⟨curve, pre_infinity, post_infinity, rotation_order⟩

def FloatCurve.write_options (f : FloatCurve) : Wr Unit := do
  UArray.write_options write_u32le f.curve
  write_u32le f.pre_infinity
  write_u32le f.post_infinity
  write_u32le f.rotation_order

structure PPtrCurve where
  curve : List PPtr
  pre_infinity : Nat
  post_infinity : Nat
  rotation_order : Nat
deriving Repr, DecidableEq

def PPtrCurve.read_options : RM PPtrCurve := do
  let curve ← UArray.read_options PPtr.read_options
  let pre_infinity ← read_u32le
  let post_infinity ← read_u32le
  let rotation_order ← read_u32le
  pure ⟨curve, pre_infinity, post_infinity, rotation_order⟩

def PPtrCurve.write_options (p : PPtrCurve) : Wr Unit := do
  UArray.write_options PPtr.write_options p.curve
  write_u32le p.pre_infinity
  write_u32le p.post_infinity
  write_u32le p.rotation_order

structure PackedIntVector where
  num_items : Nat
  data : List Nat
  bit_size : Nat
deriving Repr, DecidableEq

def PackedIntVector.read_options : RM PackedIntVector := do
  let num_items ← read_u32le
  let data ← UArray.read_options read_u8
  let bit_size ← read_u8
  pure ⟨num_items, data, bit_size⟩

def PackedIntVector.write_options (p : PackedIntVector) : Wr Unit := do
  write_u32le p.num_items
  UArray.write_options write_u8 p.data
  write_u8 p.bit_size

structure PackedFloatVector where
  num_items : Nat
  range : Nat
  start : Nat
  data : List Nat
  bit_size : Nat
deriving Repr, DecidableEq

def PackedFloatVector.read_options : RM PackedFloatVector := do
  let num_items ← read_u32le
  let range ← read_u32le
  let start ← read_u32le
  let data ← UArray.read_options read_u8
  let bit_size ← read_u8
  pure ⟨num_items, range, start, data, bit_size⟩

def PackedFloatVector.write_options (p : PackedFloatVector) : Wr Unit := do
  write_u32le p.num_items
  write_u32le p.range
  write_u32le p.start
  UArray.write_options write_u8 p.data
  write_u8 p.bit_size

structure CompressedAnimationCurve where
  path : UString
  times : PackedIntVector
  values : PackedFloatVector
  slopes : PackedFloatVector
  pre_infinity : Nat
  post_infinity : Nat
deriving Repr, DecidableEq

def CompressedAnimationCurve.read_options : RM CompressedAnimationCurve := do
  let path ← UString.read_options
  let times ← PackedIntVector.read_options
  let values ← PackedFloatVector.read_options
  let slopes ← PackedFloatVector.read_options
  let pre_infinity ← read_u32le
  let post_infinity ← read_u32le
  pure ⟨path, times, values, slopes, pre_infinity, post_infinity⟩

def CompressedAnimationCurve.write_options (c : CompressedAnimationCurve) :
    Wr Unit := do
  UString.write_options c.path
  PackedIntVector.write_options c.times
  PackedFloatVector.write_options c.values
  PackedFloatVector.write_options c.slopes
  write_u32le c.pre_infinity
  write_u32le c.post_infinity

structure GenericBinding where
  path : Nat
  attribute_ : Nat
  script : PPtr
  type_id : Nat
  custom_type : Nat
  is_pptr_curve : Nat
  is_int_curve : Nat
deriving Repr, DecidableEq

def GenericBinding.read_options : RM GenericBinding := do
  let path ← read_u32le
  let attribute_ ← read_u32le
  let script ← PPtr.read_options
  let type_id ← read_u32le
  let custom_type ← read_u8
  let is_pptr_curve ← read_u8
  let is_int_curve ← read_u8
  pure ⟨path, attribute_, script, type_id, custom_type, is_pptr_curve,
    is_int_curve⟩

def GenericBinding.write_options (g : GenericBinding) : Wr Unit := do
  write_u32le g.path
  write_u32le g.attribute_
  PPtr.write_options g.script
  write_u32le g.type_id
  write_u8 g.custom_type
  write_u8 g.is_pptr_curve
  write_u8 g.is_int_curve

structure AnimationClipBindingConstant where
  generic_bindings : List GenericBinding
  pptr_curve_mappings : List PPtr
deriving Repr, DecidableEq

def AnimationClipBindingConstant.read_options :
    RM AnimationClipBindingConstant := do
  let generic_bindings ← UArray.read_options GenericBinding.read_options
  let pptr_curve_mappings ← UArray.read_options PPtr.read_options
  pure ⟨generic_bindings, pptr_curve_mappings⟩

def AnimationClipBindingConstant.write_options
    (a : AnimationClipBindingConstant) : Wr Unit := do
  UArray.write_options GenericBinding.write_options a.generic_bindings
  UArray.write_options PPtr.write_options a.pptr_curve_mappings

structure AnimationEvent where
  time : Nat
  function_name : UString
  data : UString
  object_reference_parameter : PPtr
  float_parameter : Nat
  int_parameter : Nat
  message_options : Nat
deriving Repr, DecidableEq

def AnimationEvent.read_options : RM AnimationEvent := do
  let time ← read_u32le
  let function_name ← UString.read_options
  let data ← UString.read_options
  let object_reference_parameter ← PPtr.read_options
  let float_parameter ← read_u32le
  let int_parameter ← read_u32le
  let message_options ← read_u32le
  pure ⟨time, function_name, data, object_reference_parameter,
    float_parameter, int_parameter, message_options⟩

def AnimationEvent.write_options (a : AnimationEvent) : Wr Unit := do
  write_u32le a.time
  UString.write_options a.function_name
  UString.write_options a.data
  PPtr.write_options a.object_reference_parameter
  write_u32le a.float_parameter
  write_u32le a.int_parameter
  write_u32le a.message_options

structure AnimationClip where
  name : UString
  legacy : Nat
  compressed : Nat
  use_high_quality_curves : Nat
  rotation_curves : List QuaternionCurve
  compressed_rotation_curves : List CompressedAnimationCurve
  euler_curves : List Vector3Curve
  position_curves : List Vector3Curve
  scale_curves : List Vector3Curve
  float_curves : List FloatCurve
  pptr_curves : List PPtrCurve
  sample_rate : Nat
  wrap_mode : Nat
  local_bounds : AABB
  muscle_clip_size : Nat
  muscle_clip : ClipMuscleConstant
  clip_binding_constant : AnimationClipBindingConstant
  has_generic_root_transform : Nat
  has_motion_float_curves : Nat
  events : List AnimationEvent
deriving Repr, DecidableEq

def AnimationClip.read_options : RM AnimationClip := do
  let name ← UString.read_options
  ralign 4
  let legacy ← read_u8
  let compressed ← read_u8
  let use_high_quality_curves ← read_u8
  ralign 4
  let rotation_curves ← UArray.read_options QuaternionCurve.read_options
  let compressed_rotation_curves ←
    UArray.read_options CompressedAnimationCurve.read_options
  let euler_curves ← UArray.read_options Vector3Curve.read_options
  let position_curves ← UArray.read_options Vector3Curve.read_options
  let scale_curves ← UArray.read_options Vector3Curve.read_options
  let float_curves ← UArray.read_options FloatCurve.read_options
  let pptr_curves ← UArray.read_options PPtrCurve.read_options
  let sample_rate ← read_u32le
  let wrap_mode ← read_u32le
  let local_bounds ← AABB.read_options
  let muscle_clip_size ← read_u32le
  let muscle_clip ← ClipMuscleConstant.read_options
  let clip_binding_constant ← AnimationClipBindingConstant.read_options
  let has_generic_root_transform ← read_u8
  let has_motion_float_curves ← read_u8
  ralign 4
  let events ← UArray.read_options AnimationEvent.read_options
  pure ⟨name, legacy, compressed, use_high_quality_curves, rotation_curves,
    compressed_rotation_curves, euler_curves, position_curves, scale_curves,
    float_curves, pptr_curves, sample_rate, wrap_mode, local_bounds,
    muscle_clip_size, muscle_clip, clip_binding_constant,
    has_generic_root_transform, has_motion_float_curves, events⟩

def AnimationClip.write_options (a : AnimationClip) : Wr Unit := do
  UString.write_options a.name
  wpad 4
  write_u8 a.legacy
  write_u8 a.compressed
  write_u8 a.use_high_quality_curves
  wpad 4
  UArray.write_options QuaternionCurve.write_options a.rotation_curves
  UArray.write_options CompressedAnimationCurve.write_options
    a.compressed_rotation_curves
  UArray.write_options Vector3Curve.write_options a.euler_curves
  UArray.write_options Vector3Curve.write_options a.position_curves
  UArray.write_options Vector3Curve.write_options a.scale_curves
  UArray.write_options FloatCurve.write_options a.float_curves
  UArray.write_options PPtrCurve.write_options a.pptr_curves
  write_u32le a.sample_rate
  write_u32le a.wrap_mode
  AABB.write_options a.local_bounds
  write_u32le a.muscle_clip_size
  ClipMuscleConstant.write_options a.muscle_clip
  AnimationClipBindingConstant.write_options a.clip_binding_constant
  write_u8 a.has_generic_root_transform
  write_u8 a.has_motion_float_curves
  wpad 4
  UArray.write_options AnimationEvent.write_options a.events

/-! ## Type-hash constants (asset.rs lines 12-31)

The Rust constants are `i128`; here they are the corresponding unsigned
128-bit two's-complement patterns. -/

def ASSET_BUNDLE_HASH : Nat := 2 ^ 128 - 138975531846078832632480790701341156713

def TEXT_ASSET_HASH : Nat := 2 ^ 128 - 73723634408196252373272760413176173752

def MESH_HASH : Nat := 2 ^ 128 - 72083215265324370365192905875055095371

def MESH_FILTER_HASH : Nat := 161675840667827063370573699974811358877

def MESH_RENDERER_HASH : Nat := 2 ^ 128 - 72208694526585686254499184803611500559

def AVATAR_HASH : Nat := 2 ^ 128 - 125274292396291140701441925783063757818

def MATERIAL_HASH : Nat := 38580764854673472068260433708032579683

def TRANSFORM_HASH : Nat := 113257848714874300609633886051190185078

def GAME_OBJECT_HASH : Nat := 2 ^ 128 - 105210905878938171704810466949008006266

def SKINNED_MESH_RENDERER_HASH : Nat := 7922304469189766333664176646841079590

def ANIMATOR_HASH : Nat := 2 ^ 128 - 6849386489486133465282423213743802251

def EMPTY_MONO_BEHAVIOR_HASH : Nat := 106062145148120627758638137336021039985

def SPRING_BONE_MONO_BEHAVIOR_HASH : Nat :=
  86498438524189983969365375508344518452

def SPRING_JOB_MONO_BEHAVIOR_HASH : Nat :=
  2 ^ 128 - 157219901295754190086520324959963540033

def MONO_SCRIPT_HASH : Nat := 2 ^ 128 - 23841687017746243486512824057502732556

def TEXTURE_2D_HASH : Nat := 51401989309282493850807588349188048909

def SPRITE_HASH : Nat := 45701628647153051529734544331337206412

def SPRITE_ATLAS_HASH : Nat := 2 ^ 128 - 21517008777126347833343678527744186422

def TERRAIN_MONO_BEHAVIOR_TYPE_HASH : Nat :=
  161821592088346330348225465071444734321

def ANIMATION_CLIP_HASH : Nat := 2 ^ 128 - 80937412517696055409803870673809846754

/-! ## `Asset` dispatch (asset.rs lines 471-615) -/

/-- `Unparsed`: the universal fallback for unknown type hashes. -/
structure Unparsed where
  type_hash : Nat
  path_id : Nat
  blob : List Nat
deriving Repr, DecidableEq

/-- `Unparsed::write_options` re-emits the stored byte span verbatim
(`Vec<u8>`'s `BinWrite` writes the raw bytes, no length prefix). -/
def Unparsed.write_options (u : Unparsed) : Wr Unit :=
  write_bytes u.blob

inductive Asset where
  | Bundle : AssetBundle → Asset
  | Text : TextAsset → Asset
  | Script : MonoScript → Asset
  | Terrain : MonoBehavior TerrainData → Asset
  | Texture2D : Texture2D → Nat → Asset
  | SpriteAtlas : SpriteAtlas → Asset
  | Sprite : Sprite → Asset
  | EmptyMonoBehavior : MonoBehavior Unit → Asset
  | GameObject : GameObject → Asset
  | Animator : Animator → Asset
  | Mesh : Mesh → Asset
  | MeshFilter : MeshFilter → Asset
  | MeshRenderer : MeshRenderer → Asset
  | Avatar : Avatar → Asset
  | Transform : Transform → Asset
  | Material : Material → Asset
  | SkinnedMeshRenderer : SkinnedMeshRenderer → Asset
  | SpringJob : MonoBehavior SpringJob → Asset
  | SpringBone : MonoBehavior SpringBone → Asset
  | AnimationClip : AnimationClip → Asset
  | Unparsed : Unparsed → Asset
deriving Repr, DecidableEq

/-- `Asset::type_hash`: the variant-to-hash direction of the dispatch. -/
def Asset.type_hash : Asset → Nat
  | .Bundle _ => ASSET_BUNDLE_HASH
  | .Text _ => TEXT_ASSET_HASH
  | .Script _ => MONO_SCRIPT_HASH
  | .Terrain _ => TERRAIN_MONO_BEHAVIOR_TYPE_HASH
  | .Texture2D _ _ => TEXTURE_2D_HASH
  | .SpriteAtlas _ => SPRITE_ATLAS_HASH
  | .Sprite _ => SPRITE_HASH
  | .EmptyMonoBehavior _ => EMPTY_MONO_BEHAVIOR_HASH
  | .GameObject _ => GAME_OBJECT_HASH
  | .Animator _ => ANIMATOR_HASH
  | .MeshFilter _ => MESH_FILTER_HASH
  | .Mesh _ => MESH_HASH
  | .MeshRenderer _ => MESH_RENDERER_HASH
  | .Avatar _ => AVATAR_HASH
  | .Transform _ => TRANSFORM_HASH
  | .Material _ => MATERIAL_HASH
  | .SkinnedMeshRenderer _ => SKINNED_MESH_RENDERER_HASH
  | .SpringJob _ => SPRING_JOB_MONO_BEHAVIOR_HASH
  | .SpringBone _ => SPRING_BONE_MONO_BEHAVIOR_HASH
  | .AnimationClip _ => ANIMATION_CLIP_HASH
  | .Unparsed blob => blob.type_hash

/-- The hashes having a typed codec in `Asset::read_options`, in match-arm
order. -/
def known_type_hashes : List Nat :=
  [ASSET_BUNDLE_HASH, TEXT_ASSET_HASH, MONO_SCRIPT_HASH,
   TERRAIN_MONO_BEHAVIOR_TYPE_HASH, TEXTURE_2D_HASH, SPRITE_ATLAS_HASH,
   EMPTY_MONO_BEHAVIOR_HASH, SPRITE_HASH, GAME_OBJECT_HASH, ANIMATOR_HASH,
   MESH_HASH, MESH_FILTER_HASH, MESH_RENDERER_HASH, AVATAR_HASH,
   TRANSFORM_HASH, MATERIAL_HASH, SKINNED_MESH_RENDERER_HASH,
   SPRING_JOB_MONO_BEHAVIOR_HASH, SPRING_BONE_MONO_BEHAVIOR_HASH,
   ANIMATION_CLIP_HASH]

/-- `Asset::read_options` arguments: the declared object size (from the
object table), the type hash, and the object's stable id. -/
structure AssetReadOptions where
  size : Nat
  type_hash : Nat
  pptr : Nat

/-- `Asset::read_options`: dispatch on the type hash; any unknown hash
consumes exactly `size` raw bytes into `Unparsed`. -/
def Asset.read_options (args : AssetReadOptions) : RM Asset :=
  if args.type_hash = ASSET_BUNDLE_HASH then do
    let x ← AssetBundle.read_options
    pure (Asset.Bundle x)
  else if args.type_hash = TEXT_ASSET_HASH then do
    let x ← TextAsset.read_options
    pure (Asset.Text x)
  else if args.type_hash = MONO_SCRIPT_HASH then do
    let x ← MonoScript.read_options
    pure (Asset.Script x)
  else if args.type_hash = TERRAIN_MONO_BEHAVIOR_TYPE_HASH then do
    let x ← MonoBehavior.read_options TerrainData.read_options
    pure (Asset.Terrain x)
  else if args.type_hash = TEXTURE_2D_HASH then do
    let x ← Texture2D.read_options
    pure (Asset.Texture2D x args.pptr)
  else if args.type_hash = SPRITE_ATLAS_HASH then do
    let x ← SpriteAtlas.read_options
    pure (Asset.SpriteAtlas x)
  else if args.type_hash = EMPTY_MONO_BEHAVIOR_HASH then do
    let x ← MonoBehavior.read_options unit_read
    pure (Asset.EmptyMonoBehavior x)
  else if args.type_hash = SPRITE_HASH then do
    let x ← Sprite.read_options
    pure (Asset.Sprite x)
  else if args.type_hash = GAME_OBJECT_HASH then do
    let x ← GameObject.read_options
    pure (Asset.GameObject x)
  else if args.type_hash = ANIMATOR_HASH then do
    let x ← Animator.read_options
    pure (Asset.Animator x)
  else if args.type_hash = MESH_HASH then do
    let x ← Mesh.read_options
    pure (Asset.Mesh x)
  else if args.type_hash = MESH_FILTER_HASH then do
    let x ← MeshFilter.read_options
    pure (Asset.MeshFilter x)
  else if args.type_hash = MESH_RENDERER_HASH then do
    let x ← MeshRenderer.read_options
    pure (Asset.MeshRenderer x)
  else if args.type_hash = AVATAR_HASH then do
    let x ← Avatar.read_options
    pure (Asset.Avatar x)
  else if args.type_hash = TRANSFORM_HASH then do
    let x ← Transform.read_options
    pure (Asset.Transform x)
  else if args.type_hash = MATERIAL_HASH then do
    let x ← Material.read_options
    pure (Asset.Material x)
  else if args.type_hash = SKINNED_MESH_RENDERER_HASH then do
    let x ← SkinnedMeshRenderer.read_options
    pure (Asset.SkinnedMeshRenderer x)
  else if args.type_hash = SPRING_JOB_MONO_BEHAVIOR_HASH then do
    let x ← MonoBehavior.read_options SpringJob.read_options
    pure (Asset.SpringJob x)
  else if args.type_hash = SPRING_BONE_MONO_BEHAVIOR_HASH then do
    let x ← MonoBehavior.read_options SpringBone.read_options
    pure (Asset.SpringBone x)
  else if args.type_hash = ANIMATION_CLIP_HASH then do
    let x ← AnimationClip.read_options
    pure (Asset.AnimationClip x)
  else do
    let blob ← read_exact args.size
    pure (Asset.Unparsed ⟨args.type_hash, args.pptr, blob⟩)

/-- The derived `BinWrite` on the `Asset` enum: write the variant's fields in
order (for `Texture2D` this includes the trailing stable-id `u64`). -/
def Asset.write_options : Asset → Wr Unit
  | .Bundle x => AssetBundle.write_options x
  | .Text x => TextAsset.write_options x
  | .Script x => MonoScript.write_options x
  | .Terrain x => MonoBehavior.write_options TerrainData.write_options x
  | .Texture2D x pptr => do
    Texture2D.write_options x
    write_u64le pptr
  | .SpriteAtlas x => SpriteAtlas.write_options x
  | .Sprite x => Sprite.write_options x
  | .EmptyMonoBehavior x => MonoBehavior.write_options unit_write x
  | .GameObject x => GameObject.write_options x
  | .Animator x => Animator.write_options x
  | .Mesh x => Mesh.write_options x
  | .MeshFilter x => MeshFilter.write_options x
  | .MeshRenderer x => MeshRenderer.write_options x
  | .Avatar x => Avatar.write_options x
  | .Transform x => Transform.write_options x
  | .Material x => Material.write_options x
  | .SkinnedMeshRenderer x => SkinnedMeshRenderer.write_options x
  | .SpringJob x => MonoBehavior.write_options SpringJob.write_options x
  | .SpringBone x => MonoBehavior.write_options SpringBone.write_options x
  | .AnimationClip x => AnimationClip.write_options x
  | .Unparsed u => Unparsed.write_options u

/-! ## `AssetFile` (asset.rs lines 40-273) -/

structure AssetFileHeader where
  junk : Nat
  version : Nat
  junk2 : Nat
  meta_data_size : Nat
  file_size : Nat
  data_offset : Nat
  junk3 : Nat
  unity_version : List Nat
  platform : Nat
  enable_type_tree : Nat
deriving Repr, DecidableEq

/-- The header is read big-endian (`#[brw(big)]`) except `platform`, which is
`#[brw(little)]`. -/
def AssetFileHeader.read_be : RM AssetFileHeader := do
  let junk ← read_u64be
  let version ← read_u32be
  let junk2 ← read_u64be
  let meta_data_size ← read_u32be
  let file_size ← read_u64be
  let data_offset ← read_u64be
  let junk3 ← read_u64be
  let unity_version ← read_null_string
  let platform ← read_u32le
  let enable_type_tree ← read_u8
  pure ⟨junk, version, junk2, meta_data_size, file_size, data_offset, junk3,
    unity_version, platform, enable_type_tree⟩

def AssetFileHeader.write_be (h : AssetFileHeader) : Wr Unit := do
  write_u64be h.junk
  write_u32be h.version
  write_u64be h.junk2
  write_u32be h.meta_data_size
  write_u64be h.file_size
  write_u64be h.data_offset
  write_u64be h.junk3
  write_null_string h.unity_version
  write_u32le h.platform
  write_u8 h.enable_type_tree

structure AssetFileTypeTreeNode where
  node_version : Nat
  level : Nat
  type_flags : Nat
  type_str_offset : Nat
  name_str_offset : Nat
  byte_size : Nat
  index : Nat
  meta_flag : Nat
  ref_type_hash : Nat
deriving Repr, DecidableEq

def AssetFileTypeTreeNode.read_options : RM AssetFileTypeTreeNode := do
  let node_version ← read_u16le
  let level ← read_u8
  let type_flags ← read_u8
  let type_str_offset ← read_u32le
  let name_str_offset ← read_u32le
  let byte_size ← read_u32le
  let index ← read_u32le
  let meta_flag ← read_u32le
  let ref_type_hash ← read_u64le
  pure ⟨node_version, level, type_flags, type_str_offset, name_str_offset,
    byte_size, index, meta_flag, ref_type_hash⟩

def AssetFileTypeTreeNode.write_options (n : AssetFileTypeTreeNode) :
    Wr Unit := do
  write_u16le n.node_version
  write_u8 n.level
  write_u8 n.type_flags
  write_u32le n.type_str_offset
  write_u32le n.name_str_offset
  write_u32le n.byte_size
  write_u32le n.index
  write_u32le n.meta_flag
  write_u64le n.ref_type_hash

/-- The embedded type tree; `node_count`/`str_buffer_size` are stored fields
(written back verbatim, not recomputed). -/
structure AssetFileTypeTree where
  node_count : Nat
  str_buffer_size : Nat
  nodes : List AssetFileTypeTreeNode
  str_buffer : List Nat
deriving Repr, DecidableEq

def AssetFileTypeTree.read_options : RM AssetFileTypeTree := do
  let node_count ← read_u32le
  let str_buffer_size ← read_u32le
  let nodes ← read_count AssetFileTypeTreeNode.read_options node_count
  let str_buffer ← read_exact str_buffer_size
  pure ⟨node_count, str_buffer_size, nodes, str_buffer⟩

def AssetFileTypeTree.write_options (t : AssetFileTypeTree) : Wr Unit := do
  write_u32le t.node_count
  write_u32le t.str_buffer_size
  write_list AssetFileTypeTreeNode.write_options t.nodes
  write_bytes t.str_buffer

/-- A type-table entry; `script_id` is present on the wire only when
`class_id == 114` (and defaults to 0 otherwise). -/
structure AssetFileType where
  class_id : Nat
  is_stripped_type : Nat
  script_type_index : Nat
  script_id : Nat
  type_hash : Nat
  type_tree : AssetFileTypeTree
  junk : Nat
deriving Repr, DecidableEq

def AssetFileType.read_options : RM AssetFileType := do
  let class_id ← read_u32le
  let is_stripped_type ← read_u8
  let script_type_index ← read_u16le
  let script_id ← if class_id = 114 then read_u128le else pure 0
  let type_hash ← read_u128le
  let type_tree ← AssetFileTypeTree.read_options
  let junk ← read_u32le
  pure ⟨class_id, is_stripped_type, script_type_index, script_id, type_hash,
    type_tree, junk⟩

def AssetFileType.write_options (t : AssetFileType) : Wr Unit := do
  write_u32le t.class_id
  write_u8 t.is_stripped_type
  write_u16le t.script_type_index
  if t.class_id = 114 then write_u128le t.script_id else pure ()
  write_u128le t.type_hash
  AssetFileTypeTree.write_options t.type_tree
  write_u32le t.junk

structure AssetFileObject where
  path_id : Nat
  offset : Nat
  size : Nat
  type_id : Nat
deriving Repr, DecidableEq

def AssetFileObject.read_options : RM AssetFileObject := do
  let path_id ← read_u64le
  let offset ← read_u64le
  let size ← read_u32le
  let type_id ← read_u32le
  pure ⟨path_id, offset, size, type_id⟩

def AssetFileObject.write_options (o : AssetFileObject) : Wr Unit := do
  write_u64le o.path_id
  write_u64le o.offset
  write_u32le o.size
  write_u32le o.type_id

structure AssetScript where
  file_id : Nat
  object_id : Nat
deriving Repr, DecidableEq

def AssetScript.read_options : RM AssetScript := do
  let file_id ← read_u32le
  let object_id ← read_u64le
  pure ⟨file_id, object_id⟩

def AssetScript.write_options (s : AssetScript) : Wr Unit := do
  write_u32le s.file_id
  write_u64le s.object_id

structure AssetExternal where
  unknown : List Nat
  guid : Nat
  ty : Nat
  path : List Nat
deriving Repr, DecidableEq

def AssetExternal.read_options : RM AssetExternal := do
  let unknown ← read_null_string
  let guid ← read_u128le
  let ty ← read_u32le
  let path ← read_null_string
  pure ⟨unknown, guid, ty, path⟩

def AssetExternal.write_options (e : AssetExternal) : Wr Unit := do
  write_null_string e.unknown
  write_u128le e.guid
  write_u32le e.ty
  write_null_string e.path

/-- Insert `x` in front of the first element `y` with `le x y` (so, for a
`≤`-style comparator, in front of the first element with an equal or larger
key). -/
def insert_sorted {α : Type} (le : α → α → Bool) (x : α) :
    List α → List α
  | [] => [x]
  | y :: ys => if le x y then x :: y :: ys else y :: insert_sorted le x ys

/-- A stable sort (insertion sort, placing each element before later-listed
elements with equal keys), modelling Rust's stable `slice::sort_by`.  A
stable sort is uniquely determined by the key function, so this agrees with
the source's driver-provided merge sort. -/
def stable_sort {α : Type} (le : α → α → Bool) : List α → List α
  | [] => []
  | x :: xs => insert_sorted le x (stable_sort le xs)

/-- `calculate_object_order` (asset.rs lines 236-243): the indices of the
object-table entries sorted stably by ascending byte offset. -/
def calculate_object_order (objects : List AssetFileObject) : List Nat :=
  (stable_sort (fun a b => a.2.offset ≤ b.2.offset) objects.enum).map Prod.fst

/-- The offset-sorted object list used by `read_assets`. -/
def sorted_by_offset (objects : List AssetFileObject) : List AssetFileObject :=
  stable_sort (fun a b => a.offset ≤ b.offset) objects

/-- One iteration of the `read_assets` loop: bounds-unchecked type lookup
(a Rust indexing panic when `type_id` is out of range — the source carries a
`TODO: Bounds check` comment), absolute seek to `data_offset + offset`
(wrapping `u64` addition), then the dispatch read. -/
def read_assets_loop (types : List AssetFileType) (data_offset : Nat) :
    List AssetFileObject → RM (List Asset)
  | [] => pure []
  | obj :: rest => do
    match types.get? obj.type_id with
    | none => rpanic "index out of bounds: types"
    | some ty => do
      seek_to ((data_offset + obj.offset) % 2 ^ 64)
      let a ← Asset.read_options ⟨obj.size, ty.type_hash, obj.path_id⟩
      let rest_assets ← read_assets_loop types data_offset rest
      pure (a :: rest_assets)

/-- `read_assets` (asset.rs lines 207-231). -/
def read_assets (types : List AssetFileType) (objects : List AssetFileObject)
    (data_offset : Nat) : RM (List Asset) :=
  read_assets_loop types data_offset (sorted_by_offset objects)

structure AssetFile where
  header : AssetFileHeader
  types : List AssetFileType
  path_ids : List Nat
  object_order : List Nat
  scripts : List AssetScript
  externals : List AssetExternal
  user_info : List Nat
  assets : List Asset
deriving Repr, DecidableEq

/-- All fields read by the `#[binread]` derive on `AssetFile`, including the
`#[br(temp)]` ones, in wire order. -/
structure AssetFileRawParse where
  header : AssetFileHeader
  type_count : Nat
  types : List AssetFileType
  object_count : Nat
  objects : List AssetFileObject
  script_count : Nat
  scripts : List AssetScript
  external_count : Nat
  externals : List AssetExternal
  ref_type_count : Nat
  user_info : List Nat
  assets : List Asset
deriving Repr, DecidableEq

/-- The field-by-field parse of `AssetFile` (header big-endian, the rest
little-endian; `object_count` is `#[br(align_after = 4)]`). -/
def AssetFile.read_raw : RM AssetFileRawParse := do
  let header ← AssetFileHeader.read_be
  let type_count ← read_u32le
  let types ← read_count AssetFileType.read_options type_count
  let object_count ← read_u32le
  ralign 4
  let objects ← read_count AssetFileObject.read_options object_count
  let script_count ← read_u32le
  let scripts ← read_count AssetScript.read_options script_count
  let external_count ← read_u32le
  let externals ← read_count AssetExternal.read_options external_count
  let ref_type_count ← read_u32le
  let user_info ← read_null_string
  let assets ← read_assets types objects header.data_offset
  pure ⟨header, type_count, types, object_count, objects, script_count,
    scripts, external_count, externals, ref_type_count, user_info, assets⟩

/-- `AssetFile::read_le`: the raw parse, the `assert(ref_type_count == 0)`
from `#[br(little, assert(..))]`, and the `#[br(calc = ..)]` derived fields
`path_ids` and `object_order`. -/
def AssetFile.read_le : RM AssetFile := do
  let raw ← AssetFile.read_raw
  if raw.ref_type_count = 0 then
    pure ⟨raw.header, raw.types, raw.objects.map (·.path_id),
      calculate_object_order raw.objects, raw.scripts, raw.externals,
      raw.user_info, raw.assets⟩
  else
    rerr "assertion failed: ref_type_count == 0"

/-- Parse an `AssetFile` from a byte slice (cursor at 0). -/
def AssetFile.from_bytes (b : List Nat) : Except Fail AssetFile :=
  (AssetFile.read_le b 0).map Prod.fst

/-- Rust `u64 as i64` (two's complement reinterpretation). -/
def as_i64 (n : Nat) : Int :=
  if n < 2 ^ 63 then (n : Int) else (n : Int) - 2 ^ 64

/-- `AssetFile::get_asset_by_path_id` (asset.rs lines 79-92): find the first
logical index whose path id (cast to `i64`) matches, find the physical slot
the retained permutation maps there, and index into `assets`. -/
def AssetFile.get_asset_by_path_id (af : AssetFile) (path_id : Int) :
    Option Asset :=
  match af.path_ids.findIdx? (fun elem => as_i64 elem = path_id) with
  | none => none
  | some index =>
    match af.object_order.findIdx? (fun elem => elem = index) with
    | none => none
    | some actual_index => af.assets.get? actual_index

/-! ## `AssetFile::write_options` (asset.rs lines 109-201)

The writer below follows the source statement by statement.  The sequential
phase runs in `Wr` (position = bytes written so far, since the write starts
from the enclosing cursor's end and every component writer only appends);
the two final seek-back writes (header, object table) become `patch_at` on
the forward byte list.  The result is a trace record carrying, besides the
final bytes, the source's own local variables (`meta_data_base`,
`meta_data_size`, `data_offset`, ...) so that theorems can speak about
them. -/

/-- Current position of the sequential writer. -/
def wpos : Wr Nat := fun out => .ok (out.length, out)

/-- The zero-fill loop `while pos < base_position + data_offset` writes one
zero byte per iteration, i.e. appends `target - pos` zeros. -/
def fill_zeros_to (target : Nat) (out : List Nat) : List Nat :=
  List.replicate (target - out.length) 0 ++ out

/-- The `HashMap: type_hash -> index` built by `collect()`: on duplicate
hashes the later (larger) index wins. -/
def type_hash_to_id (types : List AssetFileType) (h : Nat) : Option Nat :=
  ((types.enum).filter (fun p => p.2.type_hash = h)).getLast?.map Prod.fst

/-- The per-asset loop of the write path: pad to 8, remember the offset,
write the asset, pad to 4, then store the object-table entry (with
`path_id = 0` for now) at slot `object_index`.  An unmapped type hash is the
source's `AssertFail`; an out-of-range `object_index` would be a Rust
indexing panic. -/
def write_assets_loop (types : List AssetFileType) (start : Nat) :
    List AssetFileObject → List (Asset × Nat) → Wr (List AssetFileObject)
  | objects, [] => pure objects
  | objects, (asset, object_index) :: rest => do
    wpad 8
    let pos1 ← wpos
    let offset := pos1 - start
    Asset.write_options asset
    wpad 4
    let pos2 ← wpos
    match type_hash_to_id types asset.type_hash with
    | none => werr "could not map asset back to its type ID"
    | some id =>
      if h : object_index < objects.length then
        write_assets_loop types start
          (objects.set object_index
            ⟨0, offset, (pos2 - start - offset) % 2 ^ 32, id % 2 ^ 32⟩)
          rest
      else
        wpanic "index out of bounds: objects"

/-- The backfill loop `objects[i].path_id = path_ids[i]` (indexing panic when
`path_ids` is longer than the table). -/
def set_path_ids : List AssetFileObject → Nat → List Nat →
    Except Fail (List AssetFileObject)
  | objs, _, [] => .ok objs
  | objs, i, p :: rest =>
    if h : i < objs.length then
      set_path_ids (objs.set i { objs.get ⟨i, h⟩ with path_id := p }) (i + 1)
        rest
    else
      .error (.panicked "index out of bounds: objects")

structure AssetFileWriteTrace where
  base_position : Nat
  meta_data_base : Nat
  objects_position : Nat
  ref_position : Nat
  user_info_end : Nat
  meta_data_size : Nat
  padded16 : Nat
  data_offset : Nat
  asset_blob_start : Nat
  objects_table : List AssetFileObject
  end_position : Nat
  header_out : AssetFileHeader
  out : List Nat
deriving Repr, DecidableEq

/-- `AssetFile::write_options`, starting at the end of an already-written
byte list `out_init` (forward order; the bundle writer serializes asset
files into the middle of its blob, and the alignment paddings are relative
to the enclosing stream's start). -/
def AssetFile.write_pipeline (af : AssetFile) (out_init : List Nat) :
    Except Fail AssetFileWriteTrace := do
  let base_position := out_init.length
  -- reserve 0x36 + unity_version.len() zero bytes for the header
  let out0 : List Nat :=
    List.replicate (0x36 + af.header.unity_version.length) 0 ++
      out_init.reverse
  let meta_data_base := out0.length
  let (_, out1) ← write_u32le (af.types.length % 2 ^ 32) out0
  let (_, out2) ← write_list AssetFileType.write_options af.types out1
  let (_, out3) ← write_u32le (af.assets.length % 2 ^ 32) out2
  let out4 := pad_align 4 out3
  let objects_position := out4.length
  -- reserve the object table (24 bytes per asset)
  let out5 := List.replicate (24 * af.assets.length) 0 ++ out4
  let (_, out6) ← write_u32le (af.scripts.length % 2 ^ 32) out5
  let (_, out7) ← write_list AssetScript.write_options af.scripts out6
  let (_, out8) ← write_u32le (af.externals.length % 2 ^ 32) out7
  let (_, out9) ← write_list AssetExternal.write_options af.externals out8
  let ref_position := out9.length
  -- ref types: not supported, write a zero count
  let (_, out10) ← write_u32be 0 out9
  let (_, out11) ← write_null_string af.user_info out10
  let meta_data_size := out11.length - meta_data_base
  let out12 := pad_align 16 out11
  let data_offset := max (out12.length - base_position) 0x1000
  let out13 := fill_zeros_to (base_position + data_offset) out12
  let start := out13.length
  let (objects, out14) ← write_assets_loop af.types start
    (List.replicate af.assets.length ⟨0, 0, 0, 0⟩)
    (af.assets.zip af.object_order) out13
  let out15 := pad_align 4 out14
  let objects2 ← set_path_ids objects 0 af.path_ids
  let end_position := out15.length
  let header_out : AssetFileHeader :=
    { af.header with
      version := 22
      meta_data_size :=
        (meta_data_size + af.header.unity_version.length + 6) % 2 ^ 32
      file_size := end_position - base_position
      data_offset := data_offset
      platform := 38
      enable_type_tree := 1 }
  let (_, hrev) ← AssetFileHeader.write_be header_out []
  let (_, orev) ← write_list AssetFileObject.write_options objects2 []
  let final1 := patch_at out15.reverse base_position hrev.reverse
  let final2 := patch_at final1 objects_position orev.reverse
  pure ⟨base_position, meta_data_base, objects_position, ref_position,
    out11.length, meta_data_size, out12.length, data_offset, start, objects2,
    end_position, header_out, final2⟩

/-- Serialize an `AssetFile` on its own (fresh output). -/
def AssetFile.write_bytes (af : AssetFile) : Except Fail (List Nat) :=
  (AssetFile.write_pipeline af []).map AssetFileWriteTrace.out

/-! ## Bundle container (bundle.rs)

The external decompressors (`lzma_rs::lzma_decompress_with_options`,
`lz4_flex::block::decompress`) and compressor (`lz4_flex::block::compress`)
are third-party crates, not code of this repository; all bundle functions
are parameterized over them. -/

/-- Lift a pure `Except` computation into the reader monad. -/
def liftE {α : Type} (e : Except Fail α) : RM α := fun _ p => e.map (·, p)

/-- `stream_position()`. -/
def rpos : RM Nat := fun _ p => .ok (p, p)

/-- ASCII bytes of `"UnityFS"`. -/
def unityfs_magic : List Nat := [0x55, 0x6E, 0x69, 0x74, 0x79, 0x46, 0x53]

/-- ASCII bytes of `"5.x.x"`. -/
def major_version_str : List Nat := [0x35, 0x2E, 0x78, 0x2E, 0x78]

/-- ASCII bytes of `"2020.3.18f1"`. -/
def minor_version_str : List Nat :=
  [0x32, 0x30, 0x32, 0x30, 0x2E, 0x33, 0x2E, 0x31, 0x38, 0x66, 0x31]

/-- The bundle `Header` (bundle.rs lines 274-287): big-endian, asserted
`magic == "UnityFS"` and `format_version == 7`. -/
structure Header where
  magic : List Nat
  format_version : Nat
  major_version : List Nat
  minor_version : List Nat
  file_size : Nat
  compressed_size : Nat
  decompressed_size : Nat
  flags : Nat
deriving Repr, DecidableEq

/-- `Header::read_be`; the struct-level `binrw` asserts are checked after the
fields are read. -/
def Header.read_be : RM Header := do
  let magic ← read_null_string
  ralign 4
  let format_version ← read_u32be
  let major_version ← read_null_string
  let minor_version ← read_null_string
  let file_size ← read_u64be
  let compressed_size ← read_u32be
  let decompressed_size ← read_u32be
  let flags ← read_u32be
  ralign 16
  if format_version = 7 then
    if magic = unityfs_magic then
      pure ⟨magic, format_version, major_version, minor_version, file_size,
        compressed_size, decompressed_size, flags⟩
    else
      rerr "assertion failed: magic"
  else
    rerr "assertion failed: format_version"

def Header.write_be (h : Header) : Wr Unit := do
  write_null_string h.magic
  wpad 4
  write_u32be h.format_version
  write_null_string h.major_version
  write_null_string h.minor_version
  write_u64be h.file_size
  write_u32be h.compressed_size
  write_u32be h.decompressed_size
  write_u32be h.flags
  wpad 16

structure Block where
  decompressed_size : Nat
  compressed_size : Nat
  flags : Nat
deriving Repr, DecidableEq

def Block.read_be : RM Block := do
  let decompressed_size ← read_u32be
  let compressed_size ← read_u32be
  let flags ← read_u16be
  pure ⟨decompressed_size, compressed_size, flags⟩

def Block.write_be (b : Block) : Wr Unit := do
  write_u32be b.decompressed_size
  write_u32be b.compressed_size
  write_u16be b.flags

/-- `#[brw(repr = u32)] enum BundleFileType { Raw = 0, Assets = 4 }`. -/
inductive BundleFileType where
  | Raw : BundleFileType
  | Assets : BundleFileType
deriving Repr, DecidableEq

def BundleFileType.code : BundleFileType → Nat
  | .Raw => 0
  | .Assets => 4

def BundleFileType.read_be : RM BundleFileType := do
  let v ← read_u32be
  if v = 0 then pure .Raw
  else if v = 4 then pure .Assets
  else rerr "no variant matches the value of the repr enum"

structure Node where
  offset : Nat
  size : Nat
  file_type : BundleFileType
  path : List Nat
deriving Repr, DecidableEq

def Node.read_be : RM Node := do
  let offset ← read_u64be
  let size ← read_u64be
  let file_type ← BundleFileType.read_be
  let path ← read_null_string
  pure ⟨offset, size, file_type, path⟩

def Node.write_be (n : Node) : Wr Unit := do
  write_u64be n.offset
  write_u64be n.size
  write_u32be n.file_type.code
  write_null_string n.path

structure MetaData where
  guid : Nat
  block_count : Nat
  blocks : List Block
  node_count : Nat
  nodes : List Node
deriving Repr, DecidableEq

def MetaData.read_be : RM MetaData := do
  let guid ← read_u128be
  let block_count ← read_u32be
  let blocks ← read_count Block.read_be block_count
  let node_count ← read_u32be
  let nodes ← read_count Node.read_be node_count
  pure ⟨guid, block_count, blocks, node_count, nodes⟩

def MetaData.write_be (m : MetaData) : Wr Unit := do
  write_u128be m.guid
  write_u32be m.block_count
  write_list Block.write_be m.blocks
  write_u32be m.node_count
  write_list Node.write_be m.nodes

/-- The external decompression routines, abstracted: each takes the
compressed buffer and the declared decompressed size. -/
structure Decompressors where
  lzma : List Nat → Nat → Except Fail (List Nat)
  lz4 : List Nat → Nat → Except Fail (List Nat)

/-- The `match flags & 0x3F` decompression dispatch (shared shape between
the meta-data block and the payload blocks): 0 = stored, 1 = LZMA,
2 | 3 = LZ4, anything else is a hard error. -/
def decompress_block (dec : Decompressors) (flags : Nat) (buffer : List Nat)
    (decompressed_size : Nat) : Except Fail (List Nat) :=
  match flags % 64 with
  | 0 => .ok buffer
  | 1 => dec.lzma buffer decompressed_size
  | 2 => dec.lz4 buffer decompressed_size
  | 3 => dec.lz4 buffer decompressed_size
  | _ => .error (.err "unsupported compression type")

/-- `Bundle::read_header_and_meta_data`: read the header, read the
(possibly end-of-file-located) compressed meta-data block, decompress it and
decode it as big-endian `MetaData`. -/
def Bundle.read_header_and_meta_data (dec : Decompressors) : RM MetaData := do
  let header ← Header.read_be
  let buffer ←
    if header.flags / 0x80 % 2 = 1 then do
      let position ← rpos
      seek_to ((header.file_size + 2 ^ 64 - header.compressed_size) % 2 ^ 64)
      let b ← read_exact header.compressed_size
      seek_to position
      pure b
    else
      read_exact header.compressed_size
  let decompressed_data ←
    liftE (decompress_block dec header.flags buffer header.decompressed_size)
  let meta_data ← liftE ((MetaData.read_be decompressed_data 0).map Prod.fst)
  pure meta_data

inductive BundleFile where
  | Raw : List Nat → BundleFile
  | Assets : AssetFile → BundleFile
deriving Repr, DecidableEq

def BundleFile.file_type : BundleFile → BundleFileType
  | .Raw _ => .Raw
  | .Assets _ => .Assets

/-- `Bundle` owns an insertion-ordered name-to-file map (`IndexMap`); keys
are the (lossily) decoded node path strings. -/
structure Bundle where
  files : List (UString × BundleFile)
deriving Repr, DecidableEq

/-- `IndexMap::insert`: replace in place if the key exists (keeping its
position), otherwise append. -/
def index_map_insert (m : List (UString × BundleFile)) (k : UString)
    (v : BundleFile) : List (UString × BundleFile) :=
  if m.any (fun p => p.1 = k) then
    m.map (fun p => if p.1 = k then (k, v) else p)
  else
    m ++ [(k, v)]

/-- The per-block loop of `Bundle::from_slice`: read each block's compressed
bytes in table order, decompress per its own flags, and concatenate. -/
def read_blocks (dec : Decompressors) : List Block → RM (List Nat)
  | [] => pure []
  | block :: rest => do
    let buffer ← read_exact block.compressed_size
    let d ← liftE (decompress_block dec block.flags buffer
      block.decompressed_size)
    let drest ← read_blocks dec rest
    pure (d ++ drest)

/-- The node-slicing loop of `Bundle::from_slice` in release (wrapping)
semantics: `end = (offset + size) mod 2^64`; the zero-size skip tests the
wrapping difference `end - start == 0`; a slice whose bounds survive the
explicit checks with `start > end` is a Rust slice-indexing panic. -/
def slice_nodes (blob : List Nat) :
    List Node → List (UString × BundleFile) →
    Except Fail (List (UString × BundleFile))
  | [], files => .ok files
  | node :: rest, files =>
    let start := node.offset
    let end_ := (node.offset + node.size) % 2 ^ 64
    if (end_ + 2 ^ 64 - start) % 2 ^ 64 = 0 then
      -- FAILSAFE from the source: zero-size nodes are skipped
      slice_nodes blob rest files
    else if end_ > blob.length ∨ start ≥ blob.length then
      .error (.err "corrupted file offset/size for node")
    else if start > end_ then
      .error (.panicked "slice index starts at greater index than it ends at")
    else
      let slice := (blob.drop start).take (end_ - start)
      match node.file_type with
      | .Raw =>
        slice_nodes blob rest
          (index_map_insert files (utf8_decode_lossy node.path)
            (BundleFile.Raw slice))
      | .Assets => do
        let af ← AssetFile.from_bytes slice
        slice_nodes blob rest
          (index_map_insert files (utf8_decode_lossy node.path)
            (BundleFile.Assets af))

/-- `Bundle::from_slice`. -/
def Bundle.from_slice (dec : Decompressors) (raw_bundle : List Nat) :
    Except Fail Bundle := do
  let (meta_data, cursor) ←
    Bundle.read_header_and_meta_data dec raw_bundle 0
  let (blob, _) ← read_blocks dec meta_data.blocks raw_bundle cursor
  let files ← slice_nodes blob meta_data.nodes []
  .ok ⟨files⟩

/-- `Bundle::list_files`. -/
def Bundle.list_files (dec : Decompressors) (input : List Nat) :
    Except Fail (List UString) :=
  (Bundle.read_header_and_meta_data dec input 0).map
    (fun p => p.1.nodes.map (fun n => utf8_decode_lossy n.path))

inductive CompressionType where
  | Lz4 : CompressionType
  | Lzma : CompressionType
  | Uncompressed : CompressionType
deriving Repr, DecidableEq

def CompressionType.flag : CompressionType → Nat
  | .Lz4 => 3
  | .Lzma => 1
  | .Uncompressed => 0

/-- The file-concatenation loop of `serialize_with_block_compression`:
append each file's bytes (raw verbatim, asset files via the asset-file
writer started at the blob's current end) and record a node entry. -/
def build_blob_and_nodes :
    List (UString × BundleFile) → List Nat → List Node →
    Except Fail (List Nat × List Node)
  | [], blob, nodes => .ok (blob, nodes)
  | (key, file) :: rest, blob, nodes => do
    let base_size := blob.length
    let blob' ←
      match file with
      | .Raw raw_file => .ok (blob ++ raw_file)
      | .Assets assets_file =>
        (AssetFile.write_pipeline assets_file blob).map
          AssetFileWriteTrace.out
    build_blob_and_nodes rest blob'
      (nodes ++ [⟨base_size, blob'.length - base_size, file.file_type,
        utf8_encode key⟩])

/-- The chunking loop: split the blob into 0x20000-byte windows, compress
each independently (`bail!` on LZMA), and record per-block sizes/flags.
Structural recursion on a fuel argument; each iteration advances
`chunk_start` by at least one byte, so a fuel of `blob.length + 1` (used by
`chunk_blocks`) always outlasts the loop. -/
def chunk_go (compression_type : CompressionType)
    (lz4_compress : List Nat → List Nat) (blob : List Nat) :
    Nat → Nat → Except Fail (List Nat × List Block)
  | 0, _ => .ok ([], [])
  | fuel + 1, chunk_start =>
    if chunk_start < blob.length then do
      let chunk_end := min (chunk_start + 0x20000) blob.length
      let chunk := (blob.drop chunk_start).take (chunk_end - chunk_start)
      let chunk_buffer ←
        match compression_type with
        | .Lz4 => .ok (lz4_compress chunk)
        | .Lzma => .error (.err "LZMA compression is not supported yet")
        | .Uncompressed => .ok chunk
      let (rest_blob, rest_blocks) ←
        chunk_go compression_type lz4_compress blob fuel chunk_end
      .ok (chunk_buffer ++ rest_blob,
        ⟨(chunk_end - chunk_start) % 2 ^ 32, chunk_buffer.length % 2 ^ 32,
          compression_type.flag⟩ :: rest_blocks)
    else
      .ok ([], [])

def chunk_blocks (compression_type : CompressionType)
    (lz4_compress : List Nat → List Nat) (blob : List Nat)
    (chunk_start : Nat) : Except Fail (List Nat × List Block) :=
  chunk_go compression_type lz4_compress blob (blob.length + 1) chunk_start

/-- `Bundle::serialize_with_block_compression`. -/
def Bundle.serialize_with_block_compression
    (lz4_compress : List Nat → List Nat) (b : Bundle)
    (compression_type : CompressionType) : Except Fail (List Nat) := do
  let (uncompressed_blob, nodes) ← build_blob_and_nodes b.files [] []
  let (compressed_blob, blocks) ←
    chunk_blocks compression_type lz4_compress uncompressed_blob 0
  let meta_data : MetaData :=
    ⟨0, blocks.length % 2 ^ 32, blocks, nodes.length % 2 ^ 32, nodes⟩
  let (_, mrev) ← MetaData.write_be meta_data []
  let meta_data_buffer := mrev.reverse
  let header : Header :=
    ⟨unityfs_magic, 7, major_version_str, minor_version_str,
      compressed_blob.length + meta_data_buffer.length + 0x40,
      meta_data_buffer.length % 2 ^ 32, meta_data_buffer.length % 2 ^ 32, 64⟩
  let (_, hrev) ← Header.write_be header []
  .ok (hrev.reverse ++ meta_data_buffer ++ compressed_blob)

/-- `Bundle::serialize` defaults to uncompressed blocks. -/
def Bundle.serialize (lz4_compress : List Nat → List Nat) (b : Bundle) :
    Except Fail (List Nat) :=
  Bundle.serialize_with_block_compression lz4_compress b .Uncompressed

instance {ε α : Type} [DecidableEq ε] [DecidableEq α] :
    DecidableEq (Except ε α)
  | .error e, .error f => decidable_of_iff (e = f) (by simp)
  | .error _, .ok _ => isFalse (by simp)
  | .ok _, .error _ => isFalse (by simp)
  | .ok a, .ok b => decidable_of_iff (a = b) (by simp)

/-! ## Concrete test vectors -/

/-- Dummy external decompressors (the test vectors below use only stored,
uncompressed blocks, so these are never invoked). -/
def dec0 : Decompressors :=
  ⟨fun _ _ => .error (.err "lzma"), fun _ _ => .error (.err "lz4")⟩

/-- A minimal `AssetFile` value: no types, no objects, empty strings. -/
def af0 : AssetFile := ⟨⟨0, 0, 0, 0, 0, 0, 0, [], 0, 0⟩, [], [], [], [], [], [], []⟩

/-- A minimal well-formed asset-file byte stream: header (version 22, empty
unity-version string, platform 38), zero types, zero objects, zero scripts,
zero externals, zero ref-types, empty user info. -/
def af0_bytes : List Nat :=
  List.replicate 8 0 ++ [0, 0, 0, 22] ++ List.replicate 8 0 ++
    List.replicate 4 0 ++ List.replicate 8 0 ++ List.replicate 8 0 ++
    List.replicate 8 0 ++ [0] ++ [38, 0, 0, 0] ++ [1] ++
    [0, 0, 0, 0] ++ [0, 0, 0, 0] ++ [0, 0] ++ [0, 0, 0, 0] ++ [0, 0, 0, 0] ++
    [0, 0, 0, 0] ++ [0]

/-- The same stream with the reserved ref-type count set to 1. -/
def af0_bytes_ref1 : List Nat :=
  List.replicate 8 0 ++ [0, 0, 0, 22] ++ List.replicate 8 0 ++
    List.replicate 4 0 ++ List.replicate 8 0 ++ List.replicate 8 0 ++
    List.replicate 8 0 ++ [0] ++ [38, 0, 0, 0] ++ [1] ++
    [0, 0, 0, 0] ++ [0, 0, 0, 0] ++ [0, 0] ++ [0, 0, 0, 0] ++ [0, 0, 0, 0] ++
    [1, 0, 0, 0] ++ [0]

/-- A minimal valid bundle: `"UnityFS"` magic, version 7, empty version
strings, a 24-byte stored meta-data block declaring zero blocks and zero
nodes. -/
def c7_bytes : List Nat :=
  [0x55, 0x6E, 0x69, 0x74, 0x79, 0x46, 0x53, 0] ++ [0, 0, 0, 7] ++ [0] ++
    [0] ++ List.replicate 8 0 ++ [0, 0, 0, 24] ++ [0, 0, 0, 24] ++
    [0, 0, 0, 0] ++ List.replicate 14 0 ++
    (List.replicate 16 0 ++ [0, 0, 0, 0] ++ [0, 0, 0, 0])

/-- The meta-data section of `c6_bytes`: one stored block of two bytes, and
one node with `offset = 1`, `size = 2^64 - 1` (all-ones `u64`), type `Raw`,
path `"a"`. -/
def c6_meta : List Nat :=
  List.replicate 16 0 ++ [0, 0, 0, 1] ++
    ([0, 0, 0, 2] ++ [0, 0, 0, 2] ++ [0, 0]) ++ [0, 0, 0, 1] ++
    ([0, 0, 0, 0, 0, 0, 0, 1] ++ List.replicate 8 255 ++ [0, 0, 0, 0] ++
      [0x61, 0])

/-- A bundle whose node table makes `offset + node.size` wrap around `u64`:
the decompressed blob has length 2, the node has `offset = 1` and
`size = 2^64 - 1`, so the wrapped end is 0 and the code reaches the slice
`blob[1..0]`. -/
def c6_bytes : List Nat :=
  [0x55, 0x6E, 0x69, 0x74, 0x79, 0x46, 0x53, 0] ++ [0, 0, 0, 7] ++ [0] ++
    [0] ++ List.replicate 8 0 ++ [0, 0, 0, 56] ++ [0, 0, 0, 56] ++
    [0, 0, 0, 0] ++ List.replicate 14 0 ++ c6_meta ++ [7, 7]

/-- A bundle holding one nonempty raw file. -/
def c9_bundle : Bundle := ⟨[([0x61], BundleFile.Raw [1, 2, 3])]⟩

/-- A tiny `AssetFile` value with one object, used as a lookup witness:
logical path id 5 at logical index 0, physical slot 0. -/
def af10 : AssetFile :=
  ⟨⟨0, 0, 0, 0, 0, 0, 0, [], 0, 0⟩, [], [5], [0], [], [], [],
    [Asset.Unparsed ⟨0, 5, []⟩]⟩


/-! ## C1 test vectors: a parsed bundle whose `TextAsset` name starts with a
UTF-8 byte-order mark.  `c1B1` is a valid bundle byte stream whose nested
asset file stores the name bytes `EF BB BF EF BB BF`; decoding strips one
BOM (name `[0xFEFF]`), the round-trip write emits `EF BB BF`, and the second
decode strips the remaining BOM (name `[]`). -/

def c1_type : AssetFileType :=
  ⟨49, 0, 0, 0, TEXT_ASSET_HASH, ⟨0, 0, [], []⟩, 0⟩

/-- The nested asset file of `c1B1`: one `TextAsset` object at
`data_offset = 140`, type table entry with the `TextAsset` hash. -/
def c1_blob : List Nat :=
  List.replicate 8 0 ++ [0, 0, 0, 22] ++ List.replicate 8 0 ++ [0, 0, 0, 89] ++
    [0, 0, 0, 0, 0, 0, 0, 156] ++ [0, 0, 0, 0, 0, 0, 0, 140] ++
    List.replicate 8 0 ++ [0] ++ [38, 0, 0, 0] ++ [1] ++
    [1, 0, 0, 0] ++
    [49, 0, 0, 0] ++ [0] ++ [0, 0] ++
    [72, 107, 164, 225, 93, 189, 106, 234, 138, 193, 160, 100, 48, 88, 137, 200] ++
    [0, 0, 0, 0] ++ [0, 0, 0, 0] ++ [0, 0, 0, 0] ++
    [1, 0, 0, 0] ++ [0, 0, 0] ++
    [1, 0, 0, 0, 0, 0, 0, 0] ++ List.replicate 8 0 ++ [16, 0, 0, 0] ++ [0, 0, 0, 0] ++
    [0, 0, 0, 0] ++ [0, 0, 0, 0] ++ [0, 0, 0, 0] ++ [0] ++ [0, 0, 0] ++
    [6, 0, 0, 0] ++ [239, 187, 191, 239, 187, 191] ++ [0, 0] ++ [0, 0, 0, 0]

/-- A 276-byte uncompressed `UnityFS` bundle holding `c1_blob` as its single
(`Assets`) node, named `"a"`. -/
def c1B1 : List Nat :=
  [85, 110, 105, 116, 121, 70, 83, 0] ++ [0, 0, 0, 7] ++
    [53, 46, 120, 46, 120, 0] ++ [50, 48, 50, 48, 46, 51, 46, 49, 56, 102, 49, 0] ++
    [0, 0, 0, 0, 0, 0, 1, 20] ++ [0, 0, 0, 56] ++ [0, 0, 0, 56] ++ [0, 0, 0, 64] ++
    List.replicate 14 0 ++
    (List.replicate 16 0 ++ [0, 0, 0, 1] ++
      ([0, 0, 0, 156] ++ [0, 0, 0, 156] ++ [0, 0]) ++ [0, 0, 0, 1] ++
      (List.replicate 8 0 ++ [0, 0, 0, 0, 0, 0, 0, 156] ++ [0, 0, 0, 4] ++ [97, 0])) ++
    c1_blob

/-- The parse of `c1B1`: one BOM already consumed by the decoder. -/
def c1af1 : AssetFile :=
  ⟨⟨0, 22, 0, 89, 156, 140, 0, [], 38, 1⟩, [c1_type], [1], [0], [], [], [],
    [Asset.Text ⟨[0xFEFF], []⟩]⟩

def c1b1 : Bundle := ⟨[([97], BundleFile.Assets c1af1)]⟩

/-- First 144 bytes of the asset file produced by re-serializing `c1af1`. -/
def c1p2 : List Nat := [0, 0, 0, 0, 0, 0, 0, 0, 0, 0, 0, 22, 0, 0, 0, 0, 0, 0, 0, 0, 0, 0, 0, 89, 0, 0, 0, 0, 0, 0, 16, 12, 0, 0, 0, 0, 0, 0, 16, 0, 0, 0, 0, 0, 0, 0, 0, 0, 0, 38, 0, 0, 0, 1, 1, 0, 0, 0, 49, 0, 0, 0, 0, 0, 0, 72, 107, 164, 225, 93, 189, 106, 234, 138, 193, 160, 100, 48, 88, 137, 200, 0, 0, 0, 0, 0, 0, 0, 0, 0, 0, 0, 0, 1, 0, 0, 0, 0, 0, 0, 1, 0, 0, 0, 0, 0, 0, 0, 0, 0, 0, 0, 0, 0, 0, 0, 12, 0, 0, 0, 0, 0, 0, 0, 0, 0, 0, 0, 0, 0, 0, 0, 0, 0, 0, 0, 0, 0, 0, 0, 0, 0, 0, 0]

/-- The full serialized asset file for `c1af1` (4108 bytes). -/
def c1out2 : List Nat :=
  c1p2 ++ (List.replicate 3952 0 ++ [3, 0, 0, 0, 239, 187, 191, 0, 0, 0, 0, 0])

/-- Bundle header and meta-data section of the re-serialized bundle. -/
def c1bh2 : List Nat := [85, 110, 105, 116, 121, 70, 83, 0, 0, 0, 0, 7, 53, 46, 120, 46, 120, 0, 50, 48, 50, 48, 46, 51, 46, 49, 56, 102, 49, 0, 0, 0, 0, 0, 0, 0, 16, 132, 0, 0, 0, 56, 0, 0, 0, 56, 0, 0, 0, 64, 0, 0, 0, 0, 0, 0, 0, 0, 0, 0, 0, 0, 0, 0, 0, 0, 0, 0, 0, 0, 0, 0, 0, 0, 0, 0, 0, 0, 0, 0, 0, 0, 0, 1, 0, 0, 16, 12, 0, 0, 16, 12, 0, 0, 0, 0, 0, 1, 0, 0, 0, 0, 0, 0, 0, 0, 0, 0, 0, 0, 0, 0, 16, 12, 0, 0, 0, 4, 97, 0]

/-- The re-serialized bundle (4228 bytes). -/
def c1B2 : List Nat := c1bh2 ++ c1out2

/-- The second parse: the remaining BOM is stripped, the name is now empty. -/
def c1af2 : AssetFile :=
  ⟨⟨0, 22, 0, 89, 4108, 4096, 0, [], 38, 1⟩, [c1_type], [1], [0], [], [], [],
    [Asset.Text ⟨[], []⟩]⟩

def c1b2 : Bundle := ⟨[([97], BundleFile.Assets c1af2)]⟩



/-- The output of `write_options` on the empty `AssetFile` `af0`. -/
def af0_out : List Nat :=
  [0, 0, 0, 0, 0, 0, 0, 0, 0, 0, 0, 22, 0, 0, 0, 0, 0, 0, 0, 0, 0, 0, 0, 29,
   0, 0, 0, 0, 0, 0, 16, 0, 0, 0, 0, 0, 0, 0, 16, 0, 0, 0, 0, 0, 0, 0, 0, 0,
   0, 38, 0, 0, 0, 1] ++ List.replicate 4042 0

/-- The write trace of `write_options` on `af0`. -/
def af0_trace : AssetFileWriteTrace :=
  ⟨0, 54, 64, 72, 77, 23, 80, 4096, 4096, [], 4096,
   ⟨0, 22, 0, 29, 4096, 4096, 0, [], 38, 1⟩, af0_out⟩

/-- The parse of `af0_bytes`. -/
def af0p : AssetFile :=
  ⟨⟨0, 22, 0, 0, 0, 0, 0, [], 38, 1⟩, [], [], [], [], [], [], []⟩


/-! ## Monad unfolding lemmas -/

theorem RM.bind_apply {α β : Type} (x : RM α) (f : α → RM β) (d : List Nat)
    (p : Nat) :
    (x >>= f) d p = match x d p with
      | .ok (a, p') => f a d p'
      | .error e => .error e := rfl

theorem RM.pure_apply {α : Type} (a : α) (d : List Nat) (p : Nat) :
    (pure a : RM α) d p = .ok (a, p) := rfl

theorem Wr.wbind_apply {α β : Type} (x : Wr α) (f : α → Wr β) (out : List Nat) :
    (x >>= f) out = match x out with
      | .ok (a, out') => f a out'
      | .error e => .error e := rfl

theorem Wr.wpure_apply {α : Type} (a : α) (out : List Nat) :
    (pure a : Wr α) out = .ok (a, out) := rfl

/-! ## Padding-loop characterization -/

theorem pad_go_eq (align : Nat) (fuel : Nat) (out : List Nat) (h : align ≠ 0)
    (hfuel : (align - out.length % align) % align ≤ fuel) :
    pad_go align fuel out =
      List.replicate ((align - out.length % align) % align) 0 ++ out := by
  induction fuel generalizing out with
  | zero =>
    have hk : (align - out.length % align) % align = 0 := Nat.le_zero.mp hfuel
    rw [pad_go, hk]
    simp
  | succ fuel ih =>
    rw [pad_go]
    by_cases h2 : out.length % align = 0
    · rw [if_pos h2]
      have hk : (align - out.length % align) % align = 0 := by
        rw [h2, Nat.sub_zero, Nat.mod_self]
      rw [hk]
      simp
    · rw [if_neg h2]
      have h0 : 0 < align := Nat.pos_of_ne_zero h
      have hr1 : 1 ≤ out.length % align := Nat.one_le_iff_ne_zero.mpr h2
      have hr2 : out.length % align < align := Nat.mod_lt _ h0
      have hone : 1 % align = 1 := Nat.mod_eq_of_lt (by omega)
      have hadd : (0 :: out).length % align =
          (out.length % align + 1) % align := by
        simp only [List.length_cons]
        conv_lhs => rw [Nat.add_mod, hone]
      have key : (align - out.length % align) % align =
          (align - (0 :: out).length % align) % align + 1 := by
        rw [hadd]
        by_cases hc : out.length % align + 1 = align
        · rw [hc, Nat.mod_self, Nat.sub_zero, Nat.mod_self]
          have h1 : align - out.length % align = 1 := by omega
          rw [h1, hone]
        · have hL : (out.length % align + 1) % align =
              out.length % align + 1 := Nat.mod_eq_of_lt (by omega)
          have e1 : (align - out.length % align) % align =
              align - out.length % align := Nat.mod_eq_of_lt (by omega)
          have e2 : (align - (out.length % align + 1)) % align =
              align - (out.length % align + 1) := Nat.mod_eq_of_lt (by omega)
          rw [hL, e1, e2]
          omega
      rw [ih (0 :: out) (by omega), key, List.replicate_succ']
      simp [List.append_assoc]

theorem pad_align_eq (align : Nat) (out : List Nat) (h : align ≠ 0) :
    pad_align align out =
      List.replicate ((align - out.length % align) % align) 0 ++ out := by
  unfold pad_align
  rw [if_neg h]
  exact pad_go_eq align align out h
    (Nat.le_of_lt (Nat.mod_lt _ (Nat.pos_of_ne_zero h)))

theorem pad_align_length_mod (align : Nat) (out : List Nat) (h : align ≠ 0) :
    (pad_align align out).length % align = 0 := by
  rw [pad_align_eq align out h]
  have h0 : 0 < align := Nat.pos_of_ne_zero h
  simp only [List.length_append, List.length_replicate]
  by_cases h2 : out.length % align = 0
  · rw [h2, Nat.sub_zero, Nat.mod_self, Nat.zero_add]
    exact h2
  · have hr2 : out.length % align < align := Nat.mod_lt _ h0
    have hr1 : 1 ≤ out.length % align := Nat.one_le_iff_ne_zero.mpr h2
    have hk : (align - out.length % align) % align = align - out.length % align :=
      Nat.mod_eq_of_lt (by omega)
    rw [hk, Nat.add_mod, hk]
    have hsum : align - out.length % align + out.length % align = align := by
      omega
    rw [hsum, Nat.mod_self]

/-! ## C4: alignment discipline of the length-prefixed codecs -/

/-- C4.  For every decode of a length-prefixed array (`UArray`) or string
(`UString`), the cursor is advanced to the next multiple of 4 relative to the
stream start (`align_up pos 4`, which is divisible by 4, is at least `pos`,
is less than `pos + 4`, and is the least such multiple) before the 4-byte
little-endian count is read; identically on write, zero bytes are emitted
until the position (= bytes written) is a multiple of 4 and only then is the
count written, followed by the elements (for `UString`: the UTF-8 bytes). -/
theorem C4_length_prefix_alignment :
    (∀ p : Nat, 4 ∣ align_up p 4 ∧ p ≤ align_up p 4 ∧ align_up p 4 < p + 4 ∧
      ∀ q : Nat, 4 ∣ q → p ≤ q → align_up p 4 ≤ q) ∧
    (∀ (α : Type) (elem : RM α) (d : List Nat) (p : Nat),
      UArray.read_options elem d p =
        (do
          let count ← read_u32le
          read_count elem count : RM (List α)) d (align_up p 4)) ∧
    (∀ (d : List Nat) (p : Nat),
      UString.read_options d p =
        (do
          let count ← read_u32le
          let buffer ← read_exact count
          ralign 4
          pure (decode_utf8_with_bom_removal buffer) : RM UString) d
          (align_up p 4)) ∧
    (∀ out : List Nat,
      pad_align 4 out = List.replicate ((4 - out.length % 4) % 4) 0 ++ out ∧
      (pad_align 4 out).length % 4 = 0) ∧
    (∀ (α : Type) (elem : α → Wr Unit) (items : List α) (out : List Nat),
      UArray.write_options elem items out =
        (do
          write_u32le (items.length % 2 ^ 32)
          write_list elem items : Wr Unit) (pad_align 4 out)) ∧
    (∀ (s : UString) (out : List Nat),
      UString.write_options s out =
        (do
          write_u32le ((utf8_encode s).length % 2 ^ 32)
          write_bytes (utf8_encode s)
          wpad 4 : Wr Unit) (pad_align 4 out)) := by
  refine ⟨fun p => ?_, fun α elem d p => rfl, fun d p => rfl,
    fun out => ⟨pad_align_eq 4 out (by omega),
      pad_align_length_mod 4 out (by omega)⟩,
    fun α elem items out => rfl, fun s out => rfl⟩
  unfold align_up
  split
  · exact ⟨by omega, by omega, by omega, fun q hq hpq => by omega⟩
  · exact ⟨by omega, by omega, by omega, fun q hq hpq => by omega⟩

/-- Witness for C4 at concrete inputs. -/
theorem C4_length_prefix_alignment_witness :
    4 ∣ align_up 5 4 ∧ align_up 5 4 ≤ 8 ∧
      pad_align 4 [0] = List.replicate 3 0 ++ [0] := by
  refine ⟨(C4_length_prefix_alignment.1 5).1,
    (C4_length_prefix_alignment.1 5).2.2.2 8 (by decide) (by decide), ?_⟩
  have h := (C4_length_prefix_alignment.2.2.2.1 [0]).1
  simpa using h

/-! ## C3: unknown-type passthrough -/

/-- C3.  For every type hash not in the known dispatch table,
`Asset::read_options` consumes exactly the declared object size and returns
the `Unparsed` variant carrying that hash, the stable id supplied by the
caller, and the consumed bytes; writing that value emits exactly the stored
byte span verbatim, so decoding then re-encoding an unknown-type object is
byte-identical. -/
theorem C3_unknown_hash_passthrough :
    ∀ (args : AssetReadOptions) (d : List Nat) (p : Nat),
      args.type_hash ∉ known_type_hashes →
      (Asset.read_options args d p =
        (do
          let blob ← read_exact args.size
          pure (Asset.Unparsed ⟨args.type_hash, args.pptr, blob⟩) :
            RM Asset) d p) ∧
      (p + args.size ≤ d.length →
        Asset.read_options args d p =
          .ok (Asset.Unparsed
            ⟨args.type_hash, args.pptr, (d.drop p).take args.size⟩,
            p + args.size)) ∧
      (∀ (u : Unparsed) (out : List Nat),
        Unparsed.write_options u out = .ok ((), u.blob.reverse ++ out)) ∧
      (∀ out : List Nat,
        Unparsed.write_options
          ⟨args.type_hash, args.pptr, (d.drop p).take args.size⟩ out =
          .ok ((), ((d.drop p).take args.size).reverse ++ out)) := by
  intro args d p hmem
  simp only [known_type_hashes, List.mem_cons, List.not_mem_nil, or_false,
    not_or] at hmem
  obtain ⟨h1, h2, h3, h4, h5, h6, h7, h8, h9, h10, h11, h12, h13, h14, h15,
    h16, h17, h18, h19, h20⟩ := hmem
  have heq : Asset.read_options args d p =
      (do
        let blob ← read_exact args.size
        pure (Asset.Unparsed ⟨args.type_hash, args.pptr, blob⟩) :
          RM Asset) d p := by
    unfold Asset.read_options
    simp only [if_neg h1, if_neg h2, if_neg h3, if_neg h4, if_neg h5,
      if_neg h6, if_neg h7, if_neg h8, if_neg h9, if_neg h10, if_neg h11,
      if_neg h12, if_neg h13, if_neg h14, if_neg h15, if_neg h16, if_neg h17,
      if_neg h18, if_neg h19, if_neg h20]
  refine ⟨heq, fun hle => ?_, fun u out => rfl, fun out => rfl⟩
  rw [heq]
  simp only [RM.bind_apply, read_exact, if_pos hle, RM.pure_apply]

/-- Witness for C3: type hash 0 is unknown; reading 2 bytes of `[9, 8, 7]`
yields `Unparsed` with blob `[9, 8]`, and writing emits it verbatim. -/
theorem C3_unknown_hash_passthrough_witness :
    Asset.read_options ⟨2, 0, 77⟩ [9, 8, 7] 0 =
      .ok (Asset.Unparsed ⟨0, 77, [9, 8]⟩, 2) ∧
    Unparsed.write_options ⟨0, 77, [9, 8]⟩ [] = .ok ((), [8, 9]) := by
  have h := C3_unknown_hash_passthrough ⟨2, 0, 77⟩ [9, 8, 7] 0 (by decide)
  exact ⟨by simpa using h.2.1 (by decide), by simpa using h.2.2.2 []⟩

/-! ## C7: bundle header assertions -/

theorem exc_bind_apply {α β : Type} (x : Except Fail α)
    (f : α → Except Fail β) :
    (x >>= f) = match x with | .ok a => f a | .error e => .error e := by
  cases x <;> rfl

/-- Any successful `Header` parse has the asserted magic and version. -/
theorem header_read_asserts (d : List Nat) (p : Nat) (h : Header) (p' : Nat)
    (hok : Header.read_be d p = .ok (h, p')) :
    h.magic = unityfs_magic ∧ h.format_version = 7 := by
  unfold Header.read_be at hok
  simp only [RM.bind_apply, RM.pure_apply] at hok
  repeat split at hok
  all_goals simp_all [rerr, RM.pure_apply]
  obtain ⟨rfl, -⟩ := hok
  simp

/-- Success of `read_header_and_meta_data` presupposes a successful header
parse (whose asserted fields then hold). -/
theorem read_header_and_meta_data_asserts (dec : Decompressors)
    (d : List Nat) (p : Nat) (md : MetaData) (p' : Nat)
    (hok : Bundle.read_header_and_meta_data dec d p = .ok (md, p')) :
    ∃ hd q, Header.read_be d p = .ok (hd, q) ∧
      hd.magic = unityfs_magic ∧ hd.format_version = 7 := by
  unfold Bundle.read_header_and_meta_data at hok
  simp only [RM.bind_apply] at hok
  cases hheader : Header.read_be d p with
  | ok a =>
    obtain ⟨hd, q⟩ := a
    exact ⟨hd, q, rfl, header_read_asserts d p hd q hheader⟩
  | error e =>
    rw [hheader] at hok
    simp at hok

/-- C7.  Bundle parsing asserts the fixed big-endian header: every
successful `Header` parse (hence every successful `Bundle::from_slice` or
`Bundle::list_files`, which parse the header first and propagate its error)
has magic `"UnityFS"` and format version 7; contrapositively, an input whose
magic or version field differs cannot yield a bundle, and the `Result`
return type precludes partial results. -/
theorem C7_header_magic_version_asserted :
    (∀ (d : List Nat) (p : Nat) (h : Header) (p' : Nat),
      Header.read_be d p = .ok (h, p') →
      h.magic = unityfs_magic ∧ h.format_version = 7) ∧
    (∀ (dec : Decompressors) (b : List Nat) (bundle : Bundle),
      Bundle.from_slice dec b = .ok bundle →
      ∃ hd q, Header.read_be b 0 = .ok (hd, q) ∧
        hd.magic = unityfs_magic ∧ hd.format_version = 7) ∧
    (∀ (dec : Decompressors) (input : List Nat) (names : List UString),
      Bundle.list_files dec input = .ok names →
      ∃ hd q, Header.read_be input 0 = .ok (hd, q) ∧
        hd.magic = unityfs_magic ∧ hd.format_version = 7) := by
  refine ⟨header_read_asserts, ?_, ?_⟩
  · intro dec b bundle hok
    unfold Bundle.from_slice at hok
    simp only [exc_bind_apply] at hok
    split at hok
    · next a heq =>
      obtain ⟨md, cursor⟩ := a
      exact read_header_and_meta_data_asserts dec b 0 md cursor heq
    · exact absurd hok (by simp)
  · intro dec input names hok
    unfold Bundle.list_files at hok
    cases heq : Bundle.read_header_and_meta_data dec input 0 with
    | ok a =>
      obtain ⟨md, cursor⟩ := a
      exact read_header_and_meta_data_asserts dec input 0 md cursor heq
    | error e =>
      rw [heq] at hok
      exact absurd hok (by simp [Except.map])

/-- Witness for C7: a concrete minimal valid bundle parses successfully, and
the theorem recovers its asserted header fields. -/
theorem C7_header_magic_version_asserted_witness :
    ∃ hd q, Header.read_be c7_bytes 0 = .ok (hd, q) ∧
      hd.magic = unityfs_magic ∧ hd.format_version = 7 :=
  C7_header_magic_version_asserted.2.1 dec0 c7_bytes ⟨[]⟩ (by decide)

/-! ## C6: node slicing (zero-size skip, bounds check, overflow panic) -/

/-- C6.  In the node-slicing loop of `Bundle::from_slice`: a node of size
zero is skipped (no entry, no error); a node of nonzero size whose
`offset + size` range (when it does not overflow `u64`) extends past the
blob fails the whole parse with the structural "corrupted file offset/size"
error.  However, the claim's "not a panic" part fails on the code: with
`offset + size` wrapping around `u64` (release semantics; in a debug build
the addition itself panics), the bounds checks can pass with a wrapped end
below the start, and the slice `blob[start..end]` panics, as the concrete
bundle `c6_bytes` (node `offset = 1`, `size = 2^64 - 1`, blob length 2)
shows. -/
theorem C6_node_bounds_behavior :
    (∀ (blob : List Nat) (node : Node) (rest : List Node)
      (files : List (UString × BundleFile)),
      node.offset < 2 ^ 64 → node.size = 0 →
      slice_nodes blob (node :: rest) files = slice_nodes blob rest files) ∧
    (∀ (blob : List Nat) (node : Node) (rest : List Node)
      (files : List (UString × BundleFile)),
      node.size ≠ 0 → node.offset + node.size < 2 ^ 64 →
      node.offset + node.size > blob.length →
      slice_nodes blob (node :: rest) files =
        .error (.err "corrupted file offset/size for node")) ∧
    (Bundle.from_slice dec0 c6_bytes =
      .error (.panicked "slice index starts at greater index than it ends at")) := by
  refine ⟨?_, ?_, by decide⟩
  · intro blob node rest files hofs hsize
    have hc : ((node.offset + node.size) % 2 ^ 64 + 2 ^ 64 - node.offset) %
        2 ^ 64 = 0 := by omega
    rw [slice_nodes, if_pos hc]
  · intro blob node rest files hsize hnof hgt
    have hc : ¬(((node.offset + node.size) % 2 ^ 64 + 2 ^ 64 - node.offset) %
        2 ^ 64 = 0) := by omega
    have hb : (node.offset + node.size) % 2 ^ 64 > blob.length ∨
        node.offset ≥ blob.length := by
      left
      omega
    rw [slice_nodes, if_neg hc, if_pos hb]

/-- Witness for C6 at concrete nodes: a zero-size node is skipped; an
out-of-bounds nonzero node is a structural error. -/
theorem C6_node_bounds_behavior_witness :
    slice_nodes [0] [⟨0, 0, BundleFileType.Raw, []⟩] [] = .ok [] ∧
    slice_nodes [0] [⟨0, 5, BundleFileType.Raw, []⟩] [] =
      .error (.err "corrupted file offset/size for node") := by
  constructor
  · rw [C6_node_bounds_behavior.1 [0] ⟨0, 0, BundleFileType.Raw, []⟩ [] []
      (by decide) rfl]
    rfl
  · exact C6_node_bounds_behavior.2.1 [0] ⟨0, 5, BundleFileType.Raw, []⟩ [] []
      (by decide) (by decide) (by decide)

/-! ## Append-only writers -/

theorem ao_write_bytes (bs : List Nat) : AppendOnly (write_bytes bs) :=
  fun out => ⟨bs.reverse, rfl⟩

theorem ao_write_u8 (b : Nat) : AppendOnly (write_u8 b) :=
  fun out => ⟨[b % 256], rfl⟩

theorem ao_write_u16le (v : Nat) : AppendOnly (write_u16le v) :=
  ao_write_bytes _

theorem ao_write_u32le (v : Nat) : AppendOnly (write_u32le v) :=
  ao_write_bytes _

theorem ao_write_u64le (v : Nat) : AppendOnly (write_u64le v) :=
  ao_write_bytes _

theorem ao_write_u128le (v : Nat) : AppendOnly (write_u128le v) :=
  ao_write_bytes _

theorem ao_write_u16be (v : Nat) : AppendOnly (write_u16be v) :=
  ao_write_bytes _

theorem ao_write_u32be (v : Nat) : AppendOnly (write_u32be v) :=
  ao_write_bytes _

theorem ao_write_u64be (v : Nat) : AppendOnly (write_u64be v) :=
  ao_write_bytes _

theorem ao_write_u128be (v : Nat) : AppendOnly (write_u128be v) :=
  ao_write_bytes _

theorem ao_wpad (n : Nat) : AppendOnly (wpad n) := by
  intro out
  by_cases h : n = 0
  · subst h
    refine ⟨[], ?_⟩
    show Except.ok ((), pad_align 0 out) = _
    rw [pad_align]
    simp
  · refine ⟨List.replicate ((n - out.length % n) % n) 0, ?_⟩
    show Except.ok ((), pad_align n out) = _
    rw [pad_align_eq n out h]

theorem ao_pure : AppendOnly (pure ()) := fun out => ⟨[], rfl⟩

theorem ao_seq {w1 w2 : Wr Unit} (h1 : AppendOnly w1) (h2 : AppendOnly w2) :
    AppendOnly (do w1; w2) := by
  intro out
  obtain ⟨n1, e1⟩ := h1 out
  obtain ⟨n2, e2⟩ := h2 (n1 ++ out)
  exact ⟨n2 ++ n1, by simp [Wr.wbind_apply, e1, e2, List.append_assoc]⟩

theorem ao_write_list {α : Type} (f : α → Wr Unit) (xs : List α)
    (h : ∀ x, AppendOnly (f x)) : AppendOnly (write_list f xs) := by
  induction xs with
  | nil => exact ao_pure
  | cons x xs ih => exact ao_seq (h x) ih

theorem ao_write_null_string (bs : List Nat) :
    AppendOnly (write_null_string bs) :=
  ao_seq (ao_write_bytes _) (ao_write_u8 _)

theorem ao_block_write (b : Block) : AppendOnly (Block.write_be b) :=
  ao_seq (ao_write_u32be _) (ao_seq (ao_write_u32be _) (ao_write_u16be _))

theorem ao_node_write (n : Node) : AppendOnly (Node.write_be n) :=
  ao_seq (ao_write_u64be _) (ao_seq (ao_write_u64be _)
    (ao_seq (ao_write_u32be _) (ao_write_null_string _)))

theorem ao_meta_data_write (m : MetaData) : AppendOnly (MetaData.write_be m) :=
  ao_seq (ao_write_u128be _) (ao_seq (ao_write_u32be _)
    (ao_seq (ao_write_list _ _ ao_block_write)
      (ao_seq (ao_write_u32be _) (ao_write_list _ _ ao_node_write))))

theorem ao_bundle_header_write (h : Header) : AppendOnly (Header.write_be h) :=
  ao_seq (ao_write_null_string _) (ao_seq (ao_wpad _)
    (ao_seq (ao_write_u32be _) (ao_seq (ao_write_null_string _)
      (ao_seq (ao_write_null_string _) (ao_seq (ao_write_u64be _)
        (ao_seq (ao_write_u32be _) (ao_seq (ao_write_u32be _)
          (ao_seq (ao_write_u32be _) (ao_wpad _)))))))))

/-! ## C9: LZMA block compression is rejected on write -/

theorem except_isOk_exists {α : Type} {x : Except Fail α}
    (h : x.isOk = true) : ∃ a, x = .ok a := by
  cases x with
  | ok a => exact ⟨a, rfl⟩
  | error e => simp [Except.isOk, Except.toBool] at h

/-- For the supported compression types the chunking loop always
succeeds. -/
theorem chunk_go_isOk (ct : CompressionType) (hct : ct ≠ .Lzma)
    (lz4c : List Nat → List Nat) (blob : List Nat) (fuel cs : Nat) :
    (chunk_go ct lz4c blob fuel cs).isOk = true := by
  induction fuel generalizing cs with
  | zero => rfl
  | succ fuel ih =>
    by_cases h : cs < blob.length
    · obtain ⟨⟨r1, r2⟩, hr⟩ :=
        except_isOk_exists (ih (min (cs + 0x20000) blob.length))
      rw [chunk_go, if_pos h]
      cases ct with
      | Lz4 => simp only [exc_bind_apply, hr]; rfl
      | Lzma => exact absurd rfl hct
      | Uncompressed => simp only [exc_bind_apply, hr]; rfl
    · rw [chunk_go, if_neg h]
      rfl

theorem chunk_blocks_ok (ct : CompressionType) (hct : ct ≠ .Lzma)
    (lz4c : List Nat → List Nat) (blob : List Nat) (cs : Nat) :
    ∃ r, chunk_blocks ct lz4c blob cs = .ok r :=
  except_isOk_exists (chunk_go_isOk ct hct lz4c blob (blob.length + 1) cs)

/-- With a nonempty blob the chunking loop fails immediately on LZMA. -/
theorem chunk_blocks_lzma_fails (lz4c : List Nat → List Nat)
    (blob : List Nat) (hne : blob ≠ []) :
    chunk_blocks .Lzma lz4c blob 0 =
      .error (.err "LZMA compression is not supported yet") := by
  have h : 0 < blob.length := List.length_pos.mpr hne
  unfold chunk_blocks
  rw [chunk_go, if_pos h]
  rfl

/-- C9 (amended).  Serializing a bundle with LZMA block compression is a
hard error naming the unsupported feature whenever there is at least one
byte of file content (the `bail!` sits inside the per-chunk loop, so an
empty content blob skips it — see the counterexample theorem); LZ4 and
uncompressed block compression succeed for any bundle whose
file-concatenation phase succeeds. -/
theorem C9_lzma_write_unsupported (lz4c : List Nat → List Nat) (b : Bundle)
    (blob : List Nat) (nodes : List Node)
    (hbuild : build_blob_and_nodes b.files [] [] = .ok (blob, nodes)) :
    (blob ≠ [] →
      Bundle.serialize_with_block_compression lz4c b .Lzma =
        .error (.err "LZMA compression is not supported yet")) ∧
    (Bundle.serialize_with_block_compression lz4c b .Lz4).isOk = true ∧
    (Bundle.serialize_with_block_compression lz4c b .Uncompressed).isOk =
      true := by
  refine ⟨fun hne => ?_, ?_, ?_⟩
  · unfold Bundle.serialize_with_block_compression
    simp only [exc_bind_apply, hbuild, chunk_blocks_lzma_fails lz4c blob hne]
  · obtain ⟨⟨cb, blocks⟩, hr⟩ := chunk_blocks_ok .Lz4 (by simp) lz4c blob 0
    unfold Bundle.serialize_with_block_compression
    simp only [exc_bind_apply, hbuild, hr]
    cases hm : MetaData.write_be
        ⟨0, blocks.length % 2 ^ 32, blocks, nodes.length % 2 ^ 32, nodes⟩ []
      with
    | error e =>
      obtain ⟨mnew, hm'⟩ := ao_meta_data_write
        ⟨0, blocks.length % 2 ^ 32, blocks, nodes.length % 2 ^ 32, nodes⟩ []
      rw [hm'] at hm
      cases hm
    | ok pr =>
      obtain ⟨u, mrev⟩ := pr
      cases hh : Header.write_be
          ⟨unityfs_magic, 7, major_version_str, minor_version_str,
            cb.length + mrev.reverse.length + 0x40,
            mrev.reverse.length % 2 ^ 32, mrev.reverse.length % 2 ^ 32, 64⟩ []
        with
      | error e =>
        obtain ⟨hnew, hh'⟩ := ao_bundle_header_write _ []
        rw [hh'] at hh
        cases hh
      | ok hpr => rfl
  · obtain ⟨⟨cb, blocks⟩, hr⟩ :=
      chunk_blocks_ok .Uncompressed (by simp) lz4c blob 0
    unfold Bundle.serialize_with_block_compression
    simp only [exc_bind_apply, hbuild, hr]
    cases hm : MetaData.write_be
        ⟨0, blocks.length % 2 ^ 32, blocks, nodes.length % 2 ^ 32, nodes⟩ []
      with
    | error e =>
      obtain ⟨mnew, hm'⟩ := ao_meta_data_write
        ⟨0, blocks.length % 2 ^ 32, blocks, nodes.length % 2 ^ 32, nodes⟩ []
      rw [hm'] at hm
      cases hm
    | ok pr =>
      obtain ⟨u, mrev⟩ := pr
      cases hh : Header.write_be
          ⟨unityfs_magic, 7, major_version_str, minor_version_str,
            cb.length + mrev.reverse.length + 0x40,
            mrev.reverse.length % 2 ^ 32, mrev.reverse.length % 2 ^ 32, 64⟩ []
        with
      | error e =>
        obtain ⟨hnew, hh'⟩ := ao_bundle_header_write _ []
        rw [hh'] at hh
        cases hh
      | ok hpr => rfl

/-- Counterexample to C9 as stated: for the empty bundle, LZMA serialization
succeeds (the `bail!` is only reachable inside the chunk loop, which runs
zero times on empty content). -/
theorem C9_lzma_empty_bundle_succeeds :
    (Bundle.serialize_with_block_compression (fun c => c) ⟨[]⟩
      CompressionType.Lzma).isOk = true := by
  decide

/-- Witness for C9 (amended) at a concrete one-file bundle. -/
theorem C9_lzma_write_unsupported_witness :
    Bundle.serialize_with_block_compression (fun c => c) c9_bundle .Lzma =
      .error (.err "LZMA compression is not supported yet") ∧
    (Bundle.serialize_with_block_compression (fun c => c) c9_bundle
      .Lz4).isOk = true ∧
    (Bundle.serialize_with_block_compression (fun c => c) c9_bundle
      .Uncompressed).isOk = true := by
  have h := C9_lzma_write_unsupported (fun c => c) c9_bundle [1, 2, 3]
    [⟨0, 3, BundleFileType.Raw, [0x61]⟩] (by decide)
  exact ⟨h.1 (by decide), h.2.1, h.2.2⟩


/-! ## C1: serialize-then-reparse is not structurally equal (BOM stripping) -/

theorem exc_pure_apply {α : Type} (a : α) : (pure a : Except Fail α) = .ok a := rfl

theorem rep_cons (a : α) (n : Nat) : a :: List.replicate n a = List.replicate (n + 1) a := rfl

theorem wpad_eq (align : Nat) (out : List Nat) (h : align ≠ 0) :
    wpad align out = .ok ((),
      List.replicate ((align - out.length % align) % align) 0 ++ out) := by
  unfold wpad
  rw [pad_align_eq align out h]

theorem drop_rep_append {α : Type} (a : α) (m : Nat) (l : List α) (n : Nat)
    (h : m ≤ n) :
    (List.replicate m a ++ l).drop n = l.drop (n - m) := by
  induction m generalizing n with
  | zero => simp
  | succ k ih =>
    cases n with
    | zero => omega
    | succ n2 =>
      have harith : n2 + 1 - (k + 1) = n2 - k := by omega
      rw [harith, List.replicate_succ, List.cons_append, List.drop_succ_cons,
        ih n2 (by omega)]

theorem take_rep_append {α : Type} (a : α) (m : Nat) (l : List α) (n : Nat)
    (h : m ≤ n) :
    (List.replicate m a ++ l).take n = List.replicate m a ++ l.take (n - m) := by
  induction m generalizing n with
  | zero => simp
  | succ k ih =>
    cases n with
    | zero => omega
    | succ n2 =>
      have harith : n2 + 1 - (k + 1) = n2 - k := by omega
      rw [harith, List.replicate_succ, List.cons_append, List.take_succ_cons,
        ih n2 (by omega), List.cons_append]

theorem take_ge {α : Type} (l : List α) (n : Nat) (h : l.length ≤ n) :
    l.take n = l := by
  induction l generalizing n with
  | nil => cases n <;> rfl
  | cons a as ih =>
    cases n with
    | zero => simp at h
    | succ n2 =>
      rw [List.take_succ_cons, ih n2 (by simpa using h)]

theorem split_zero (rest : List Nat) :
    split_at_zero (0 :: rest) = some ([], rest) := by
  simp [split_at_zero]

theorem split_cons (b : Nat) (rest : List Nat) (h : ¬ b = 0) :
    split_at_zero (b :: rest) =
      (split_at_zero rest).map (fun p => (b :: p.1, p.2)) := by
  rw [split_at_zero, if_neg h]

theorem chunk_go_done (ct : CompressionType) (lz : List Nat → List Nat)
    (blob : List Nat) (fuel cs : Nat) (h : ¬ cs < blob.length) :
    chunk_go ct lz blob fuel cs = .ok ([], []) := by
  cases fuel with
  | zero => rfl
  | succ n => rw [chunk_go, if_neg h]

theorem chunk_blocks_uncompressed_single (lz : List Nat → List Nat)
    (blob : List Nat) (h1 : 0 < blob.length) (h2 : blob.length ≤ 0x20000) :
    chunk_blocks .Uncompressed lz blob 0 =
      .ok (blob, [⟨blob.length % 2 ^ 32, blob.length % 2 ^ 32, 0⟩]) := by
  unfold chunk_blocks
  rw [chunk_go, if_pos h1]
  have hmin : min (0 + 0x20000) blob.length = blob.length :=
    Nat.min_eq_right (by omega)
  have hdone : chunk_go CompressionType.Uncompressed lz blob blob.length
      blob.length = .ok ([], []) := chunk_go_done _ _ _ _ _ (by omega)
  simp only [hmin, Nat.sub_zero, List.drop_zero, List.take_length, hdone,
    exc_bind_apply, CompressionType.flag, List.append_nil]

theorem decompress_stored_64 (dec : Decompressors) (b : List Nat) (s : Nat) :
    decompress_block dec 64 b s = .ok b := rfl

theorem decompress_stored_0 (dec : Decompressors) (b : List Nat) (s : Nat) :
    decompress_block dec 0 b s = .ok b := rfl

set_option maxHeartbeats 64000000 in
set_option maxRecDepth 100000 in
/-- Symbolic evaluation of the asset-file writer on `c1af1`. -/
theorem c1_write2 :
    AssetFile.write_pipeline c1af1 [] = .ok
      ⟨0, 54, 100, 132, 137, 83, 144, 4096, 4096, [⟨1, 0, 12, 0⟩], 4108,
       ⟨0, 22, 0, 89, 4108, 4096, 0, [], 38, 1⟩, c1out2⟩ := by
  simp only [AssetFile.write_pipeline, c1af1, c1_type, c1p2, c1out2,
    TEXT_ASSET_HASH, write_u32le, write_u32be,
    write_u8, write_bytes, le_split, write_list, write_null_string,
    wpad_eq, pad_align_eq, wpos, fill_zeros_to, patch_at, write_assets_loop,
    set_path_ids, AssetFileHeader.write_be, write_u64be, write_u16le,
    write_u128le, write_u64le, write_u128be, write_u16be,
    AssetFileType.write_options, AssetFileTypeTree.write_options,
    AssetFileTypeTreeNode.write_options, AssetFileObject.write_options,
    AssetScript.write_options, AssetExternal.write_options,
    Asset.write_options, TextAsset.write_options, UString.write_options,
    UArray.write_options, utf8_encode, utf8_encode_char, Asset.type_hash,
    type_hash_to_id, List.enum, List.enumFrom, List.filter,
    List.getLast?_singleton, List.replicate_one, Option.map,
    List.zip, List.zipWith, List.map, List.flatten, List.set,
    List.get,
    Wr.wbind_apply, Wr.wpure_apply, exc_bind_apply, exc_pure_apply,
    rep_cons, ne_eq, not_false_eq_true,
    List.reverse_cons, List.reverse_append, List.reverse_nil,
    List.reverse_replicate, List.length_cons, List.length_append,
    List.length_replicate, List.length_nil, List.length_reverse,
    List.cons_append, List.nil_append, List.append_nil, List.append_assoc,
    List.take_succ_cons, List.take_zero, List.take_nil,
    List.drop_succ_cons, List.drop_zero, List.drop_nil,
    Nat.reduceAdd, Nat.reduceSub, Nat.reduceMul, Nat.reduceDiv,
    Nat.reduceMod, Nat.reducePow, Nat.reduceEqDiff,
    List.replicate_zero, Nat.max_def, decide_True, decide_False,
    Nat.reduceLT, Nat.reduceGT,
    Nat.reduceLeDiff, reduceIte, reduceDIte]
  congr 1

set_option maxHeartbeats 64000000 in
set_option maxRecDepth 100000 in
/-- Serializing the parsed bundle `c1b1` yields `c1B2`. -/
theorem c1_serialize2 :
    Bundle.serialize (fun l => l) c1b1 = .ok c1B2 := by
  simp only [Bundle.serialize, Bundle.serialize_with_block_compression,
    build_blob_and_nodes, c1b1, c1bh2, c1B2, c1_write2,
    chunk_blocks_uncompressed_single, decompress_stored_64,
    CompressionType.flag, BundleFileType.code, BundleFile.file_type,
    MetaData.write_be, Block.write_be, Node.write_be, Header.write_be,
    unityfs_magic, major_version_str, minor_version_str,
    utf8_encode, utf8_encode_char, Except.map, c1out2, c1p2,
    write_u32le, write_u32be, write_u8, write_bytes, le_split, write_list,
    write_null_string, wpad_eq, pad_align_eq, write_u64be, write_u16le,
    write_u128le, write_u64le, write_u128be, write_u16be,
    Wr.wbind_apply, Wr.wpure_apply, exc_bind_apply, exc_pure_apply,
    rep_cons, ne_eq, not_false_eq_true,
    List.reverse_cons, List.reverse_append, List.reverse_nil,
    List.reverse_replicate, List.length_cons, List.length_append,
    List.length_replicate, List.length_nil, List.length_reverse,
    List.cons_append, List.nil_append, List.append_nil, List.append_assoc,
    List.replicate_one, List.replicate_zero,
    Nat.reduceAdd, Nat.reduceSub, Nat.reduceMul, Nat.reduceDiv,
    Nat.reduceMod, Nat.reducePow, Nat.reduceEqDiff,
    Nat.max_def, decide_True, decide_False,
    Nat.reduceLT, Nat.reduceGT,
    Nat.reduceLeDiff, reduceIte, reduceDIte]
  congr 1

/-- Slicing a single whole-blob `Assets` node parses the nested file. -/
theorem slice_single_assets (blob : List Nat) (path : List Nat)
    (af : AssetFile) (L : Nat) (hL : blob.length = L) (h1 : 0 < L)
    (h2 : L < 2 ^ 64) (hparse : AssetFile.from_bytes blob = .ok af) :
    slice_nodes blob [⟨0, L, .Assets, path⟩] [] =
      .ok [(utf8_decode_lossy path, BundleFile.Assets af)] := by
  rw [slice_nodes]
  have he : (0 + L) % 2 ^ 64 = L := by
    rw [Nat.zero_add]
    exact Nat.mod_eq_of_lt h2
  simp only [he, hL]
  rw [if_neg (by omega)]
  rw [if_neg (by omega)]
  rw [if_neg (by omega)]
  have hslice : (blob.drop 0).take (L - 0) = blob := by
    rw [List.drop_zero, Nat.sub_zero, ← hL, List.take_length]
  simp only [hslice, hparse, exc_bind_apply]
  rw [slice_nodes]
  rfl

/-- `Bundle.from_slice` decomposed into its three stages. -/
theorem from_slice_stages (dec : Decompressors) (d : List Nat)
    (meta : MetaData) (cursor : Nat) (blob : List Nat) (p2 : Nat)
    (files : List (UString × BundleFile))
    (h1 : Bundle.read_header_and_meta_data dec d 0 = .ok (meta, cursor))
    (h2 : read_blocks dec meta.blocks d cursor = .ok (blob, p2))
    (h3 : slice_nodes blob meta.nodes [] = .ok files) :
    Bundle.from_slice dec d = .ok ⟨files⟩ := by
  unfold Bundle.from_slice
  simp only [h1, h2, h3, exc_bind_apply]

set_option maxHeartbeats 64000000 in
set_option maxRecDepth 100000 in
/-- Header/meta-data stage of parsing `c1B2`. -/
theorem c1_hm :
    Bundle.read_header_and_meta_data dec0 c1B2 0 = .ok
      (⟨0, 1, [⟨4108, 4108, 0⟩], 1, [⟨0, 4108, .Assets, [97]⟩]⟩, 120) := by
  simp only [Bundle.read_header_and_meta_data,
    Header.read_be, MetaData.read_be, Block.read_be, Node.read_be,
    BundleFileType.read_be, read_blocks, decompress_stored_64,
    decompress_stored_0, liftE, rpos,
    seek_to, skip, align_up, ralign, read_exact, read_u8, read_u16le,
    read_u32le, read_u64le, read_u128le, read_u16be, read_u32be, read_u64be,
    read_u128be, lebytes, read_null_string, split_zero, split_cons,
    read_count, unityfs_magic, Except.map, Option.map, List.headD,
    AssetFile.from_bytes, AssetFile.read_le, AssetFile.read_raw,
    AssetFileHeader.read_be, AssetFileType.read_options,
    AssetFileTypeTree.read_options, AssetFileTypeTreeNode.read_options,
    AssetFileObject.read_options, AssetScript.read_options,
    AssetExternal.read_options, read_assets, read_assets_loop,
    sorted_by_offset, stable_sort, insert_sorted, calculate_object_order,
    Asset.read_options, TextAsset.read_options, UString.read_options,
    UArray.read_options, decode_utf8_with_bom_removal, strip_bom,
    utf8_decode_lossy, is_cont,
    List.enum, List.enumFrom, List.map, List.get?,
    ASSET_BUNDLE_HASH, TEXT_ASSET_HASH, MESH_HASH, MESH_FILTER_HASH,
    MESH_RENDERER_HASH, AVATAR_HASH, MATERIAL_HASH, TRANSFORM_HASH,
    GAME_OBJECT_HASH, SKINNED_MESH_RENDERER_HASH, ANIMATOR_HASH,
    EMPTY_MONO_BEHAVIOR_HASH, SPRING_BONE_MONO_BEHAVIOR_HASH,
    SPRING_JOB_MONO_BEHAVIOR_HASH, MONO_SCRIPT_HASH, TEXTURE_2D_HASH,
    SPRITE_HASH, SPRITE_ATLAS_HASH, TERRAIN_MONO_BEHAVIOR_TYPE_HASH,
    ANIMATION_CLIP_HASH,
    c1B2, c1bh2, c1out2, c1p2, c1af2, c1_type, dec0,
    RM.bind_apply, RM.pure_apply, exc_bind_apply, exc_pure_apply,
    drop_rep_append, take_rep_append,
    rep_cons, ne_eq, not_false_eq_true,
    List.reverse_cons, List.reverse_append, List.reverse_nil,
    List.reverse_replicate, List.length_cons, List.length_append,
    List.length_replicate, List.length_nil, List.length_reverse,
    List.cons_append, List.nil_append, List.append_nil, List.append_assoc,
    List.replicate_one, List.replicate_zero, take_ge,
    List.take_succ_cons, List.take_zero, List.take_nil,
    List.drop_succ_cons, List.drop_zero, List.drop_nil,
    Nat.reduceAdd, Nat.reduceSub, Nat.reduceMul, Nat.reduceDiv,
    Nat.reduceMod, Nat.reducePow, Nat.reduceEqDiff,
    Nat.max_def, decide_True, decide_False,
    Nat.reduceLT, Nat.reduceGT, ge_iff_le, gt_iff_lt,
    or_false, false_or, true_or, or_true, or_self,
    List.any_nil, List.any_cons, Bool.false_eq_true, Bool.true_eq_false,
    Nat.reduceLeDiff, reduceIte, reduceDIte]

set_option maxHeartbeats 64000000 in
set_option maxRecDepth 100000 in
/-- Block-concatenation stage of parsing `c1B2`. -/
theorem c1_blocks :
    read_blocks dec0 [⟨4108, 4108, 0⟩] c1B2 120 = .ok (c1out2, 4228) := by
  simp only [Header.read_be, MetaData.read_be, Block.read_be, Node.read_be,
    BundleFileType.read_be, read_blocks, decompress_stored_64,
    decompress_stored_0, liftE, rpos,
    seek_to, skip, align_up, ralign, read_exact, read_u8, read_u16le,
    read_u32le, read_u64le, read_u128le, read_u16be, read_u32be, read_u64be,
    read_u128be, lebytes, read_null_string, split_zero, split_cons,
    read_count, unityfs_magic, Except.map, Option.map, List.headD,
    AssetFile.from_bytes, AssetFile.read_le, AssetFile.read_raw,
    AssetFileHeader.read_be, AssetFileType.read_options,
    AssetFileTypeTree.read_options, AssetFileTypeTreeNode.read_options,
    AssetFileObject.read_options, AssetScript.read_options,
    AssetExternal.read_options, read_assets, read_assets_loop,
    sorted_by_offset, stable_sort, insert_sorted, calculate_object_order,
    Asset.read_options, TextAsset.read_options, UString.read_options,
    UArray.read_options, decode_utf8_with_bom_removal, strip_bom,
    utf8_decode_lossy, is_cont,
    List.enum, List.enumFrom, List.map, List.get?,
    ASSET_BUNDLE_HASH, TEXT_ASSET_HASH, MESH_HASH, MESH_FILTER_HASH,
    MESH_RENDERER_HASH, AVATAR_HASH, MATERIAL_HASH, TRANSFORM_HASH,
    GAME_OBJECT_HASH, SKINNED_MESH_RENDERER_HASH, ANIMATOR_HASH,
    EMPTY_MONO_BEHAVIOR_HASH, SPRING_BONE_MONO_BEHAVIOR_HASH,
    SPRING_JOB_MONO_BEHAVIOR_HASH, MONO_SCRIPT_HASH, TEXTURE_2D_HASH,
    SPRITE_HASH, SPRITE_ATLAS_HASH, TERRAIN_MONO_BEHAVIOR_TYPE_HASH,
    ANIMATION_CLIP_HASH,
    c1B2, c1bh2, c1out2, c1p2, c1af2, c1_type, dec0,
    RM.bind_apply, RM.pure_apply, exc_bind_apply, exc_pure_apply,
    drop_rep_append, take_rep_append,
    rep_cons, ne_eq, not_false_eq_true,
    List.reverse_cons, List.reverse_append, List.reverse_nil,
    List.reverse_replicate, List.length_cons, List.length_append,
    List.length_replicate, List.length_nil, List.length_reverse,
    List.cons_append, List.nil_append, List.append_nil, List.append_assoc,
    List.replicate_one, List.replicate_zero, take_ge,
    List.take_succ_cons, List.take_zero, List.take_nil,
    List.drop_succ_cons, List.drop_zero, List.drop_nil,
    Nat.reduceAdd, Nat.reduceSub, Nat.reduceMul, Nat.reduceDiv,
    Nat.reduceMod, Nat.reducePow, Nat.reduceEqDiff,
    Nat.max_def, decide_True, decide_False,
    Nat.reduceLT, Nat.reduceGT, ge_iff_le, gt_iff_lt,
    or_false, false_or, true_or, or_true, or_self,
    List.any_nil, List.any_cons, Bool.false_eq_true, Bool.true_eq_false,
    Nat.reduceLeDiff, reduceIte, reduceDIte]

set_option maxHeartbeats 64000000 in
set_option maxRecDepth 100000 in
/-- The nested asset file of `c1B2` parses to `c1af2` (name now empty). -/
theorem c1_asset :
    AssetFile.from_bytes c1out2 = .ok c1af2 := by
  simp only [Header.read_be, MetaData.read_be, Block.read_be, Node.read_be,
    BundleFileType.read_be, read_blocks, decompress_stored_64,
    decompress_stored_0, liftE, rpos,
    seek_to, skip, align_up, ralign, read_exact, read_u8, read_u16le,
    read_u32le, read_u64le, read_u128le, read_u16be, read_u32be, read_u64be,
    read_u128be, lebytes, read_null_string, split_zero, split_cons,
    read_count, unityfs_magic, Except.map, Option.map, List.headD,
    AssetFile.from_bytes, AssetFile.read_le, AssetFile.read_raw,
    AssetFileHeader.read_be, AssetFileType.read_options,
    AssetFileTypeTree.read_options, AssetFileTypeTreeNode.read_options,
    AssetFileObject.read_options, AssetScript.read_options,
    AssetExternal.read_options, read_assets, read_assets_loop,
    sorted_by_offset, stable_sort, insert_sorted, calculate_object_order,
    Asset.read_options, TextAsset.read_options, UString.read_options,
    UArray.read_options, decode_utf8_with_bom_removal, strip_bom,
    utf8_decode_lossy, is_cont,
    List.enum, List.enumFrom, List.map, List.get?,
    ASSET_BUNDLE_HASH, TEXT_ASSET_HASH, MESH_HASH, MESH_FILTER_HASH,
    MESH_RENDERER_HASH, AVATAR_HASH, MATERIAL_HASH, TRANSFORM_HASH,
    GAME_OBJECT_HASH, SKINNED_MESH_RENDERER_HASH, ANIMATOR_HASH,
    EMPTY_MONO_BEHAVIOR_HASH, SPRING_BONE_MONO_BEHAVIOR_HASH,
    SPRING_JOB_MONO_BEHAVIOR_HASH, MONO_SCRIPT_HASH, TEXTURE_2D_HASH,
    SPRITE_HASH, SPRITE_ATLAS_HASH, TERRAIN_MONO_BEHAVIOR_TYPE_HASH,
    ANIMATION_CLIP_HASH,
    c1B2, c1bh2, c1out2, c1p2, c1af2, c1_type, dec0,
    RM.bind_apply, RM.pure_apply, exc_bind_apply, exc_pure_apply,
    drop_rep_append, take_rep_append,
    rep_cons, ne_eq, not_false_eq_true,
    List.reverse_cons, List.reverse_append, List.reverse_nil,
    List.reverse_replicate, List.length_cons, List.length_append,
    List.length_replicate, List.length_nil, List.length_reverse,
    List.cons_append, List.nil_append, List.append_nil, List.append_assoc,
    List.replicate_one, List.replicate_zero, take_ge,
    List.take_succ_cons, List.take_zero, List.take_nil,
    List.drop_succ_cons, List.drop_zero, List.drop_nil,
    Nat.reduceAdd, Nat.reduceSub, Nat.reduceMul, Nat.reduceDiv,
    Nat.reduceMod, Nat.reducePow, Nat.reduceEqDiff,
    Nat.max_def, decide_True, decide_False,
    Nat.reduceLT, Nat.reduceGT, ge_iff_le, gt_iff_lt,
    or_false, false_or, true_or, or_true, or_self,
    List.any_nil, List.any_cons, Bool.false_eq_true, Bool.true_eq_false,
    Nat.reduceLeDiff, reduceIte, reduceDIte]

set_option maxHeartbeats 64000000 in
set_option maxRecDepth 100000 in
theorem c1out2_len : c1out2.length = 4108 := by
  simp only [c1out2, c1p2,
    List.cons_append, List.nil_append, List.append_assoc,
    List.length_cons, List.length_append, List.length_replicate,
    List.length_nil, Nat.reduceAdd]

/-- Parsing the re-serialized bundle gives `c1b2`. -/
theorem c1_parse2 : Bundle.from_slice dec0 c1B2 = .ok c1b2 := by
  refine from_slice_stages dec0 c1B2 _ 120 c1out2 4228 _ c1_hm c1_blocks ?_
  have h := slice_single_assets c1out2 [97] c1af2 4108 c1out2_len
    (by decide) (by decide) c1_asset
  simpa using h

set_option maxRecDepth 10000 in
/-- Parsing the original bundle `c1B1` gives `c1b1` (name `[0xFEFF]`). -/
theorem c1_parse1 : Bundle.from_slice dec0 c1B1 = .ok c1b1 := by decide

/-- C1.  Refuted: the byte slice `c1B1` parses successfully to `c1b1`, and
re-serializing and re-parsing succeeds but yields a structurally different
bundle: the `TextAsset` name decodes as `[0xFEFF]` on the first parse and as
`[]` after the round trip, because the UTF-8 decoder strips a byte-order
mark on every decode while the encoder re-emits the remaining BOM verbatim.
So serialize-then-reparse is not structurally equal for every successfully
parsed bundle. -/
theorem C1_roundtrip_structural_equality_refuted :
    Bundle.from_slice dec0 c1B1 = .ok c1b1 ∧
    Bundle.serialize (fun l => l) c1b1 = .ok c1B2 ∧
    Bundle.from_slice dec0 c1B2 = .ok c1b2 ∧
    c1b1 ≠ c1b2 :=
  ⟨c1_parse1, c1_serialize2, c1_parse2, by decide⟩

/-- C10.  For every `AssetFile` whose `object_order` is a permutation of
`0..n` (with `path_ids` and `assets` of length `n`),
`get_asset_by_path_id p` returns `some` exactly when some entry of
`path_ids`, reinterpreted as `i64`, equals `p`; and when the first matching
logical index is `j`, the result is `assets.get? i` (a `some`) for a
physical index `i < n` with `object_order.get? i = some j`.  The lookup is a
pure function of the file (the embedding types it as an observer returning
`Option Asset`). -/
theorem C10_lookup (af : AssetFile) (p : Int) (n : Nat)
    (hp : af.path_ids.length = n) (ha : af.assets.length = n)
    (hperm : af.object_order.Perm (List.range n)) :
    ((af.get_asset_by_path_id p).isSome ↔ ∃ x ∈ af.path_ids, as_i64 x = p) ∧
    (∀ j, af.path_ids.findIdx? (fun elem => as_i64 elem = p) = some j →
      ∃ i, ∃ hi : i < n, af.object_order.get? i = some j ∧
        af.get_asset_by_path_id p = af.assets.get? i ∧
        (af.assets.get? i).isSome) := by
  have hlen : af.object_order.length = n := by
    rw [hperm.length_eq, List.length_range]
  have key : ∀ j, af.path_ids.findIdx? (fun elem => as_i64 elem = p) = some j →
      ∃ i, ∃ hi : i < n, af.object_order.get? i = some j ∧
        af.get_asset_by_path_id p = af.assets.get? i ∧
        (af.assets.get? i).isSome := by
    intro j hf
    obtain ⟨hjlt, hidx⟩ := List.findIdx?_eq_some_iff_findIdx_eq.mp hf
    have hjn : j < n := hp ▸ hjlt
    have hjmem : j ∈ af.object_order := hperm.mem_iff.mpr (List.mem_range.mpr hjn)
    cases hfi : af.object_order.findIdx? (fun elem => elem = j) with
    | none =>
      have := List.findIdx?_eq_none_iff.mp hfi j hjmem
      simp at this
    | some i =>
      obtain ⟨hilt, hidx2⟩ := List.findIdx?_eq_some_iff_findIdx_eq.mp hfi
      subst hidx2
      have hin : af.object_order.findIdx (fun elem => elem = j) < n :=
        hlen ▸ hilt
      have hpred := List.findIdx_getElem (w := hilt)
      have hval : af.object_order.get?
          (af.object_order.findIdx (fun elem => elem = j)) = some j := by
        rw [List.get?_eq_getElem?, List.getElem?_eq_getElem hilt]
        simpa using hpred
      have hsome : (af.assets.get?
          (af.object_order.findIdx (fun elem => elem = j))).isSome := by
        rw [List.get?_eq_getElem?, List.getElem?_eq_getElem (ha ▸ hin)]
        rfl
      refine ⟨_, hin, hval, ?_, hsome⟩
      unfold AssetFile.get_asset_by_path_id
      simp only [hf, hfi]
  refine ⟨⟨?_, ?_⟩, key⟩
  · intro hs
    cases hf : af.path_ids.findIdx? (fun elem => as_i64 elem = p) with
    | none =>
      unfold AssetFile.get_asset_by_path_id at hs
      rw [hf] at hs
      simp at hs
    | some j =>
      obtain ⟨hjlt, hidx⟩ := List.findIdx?_eq_some_iff_findIdx_eq.mp hf
      subst hidx
      have h2 := List.findIdx_getElem (w := hjlt)
      exact ⟨_, List.getElem_mem hjlt, by simpa using h2⟩
  · rintro ⟨x, hx, hxp⟩
    have hex : ∃ x ∈ af.path_ids,
        (fun elem => decide (as_i64 elem = p)) x = true := by
      exact ⟨x, hx, by simpa using hxp⟩
    have hfs := List.findIdx?_eq_some_of_exists hex
    obtain ⟨i, hin, _, heq, hsome⟩ := key _ hfs
    rw [heq]
    exact hsome

/-- Witness for C10 at `af10` (`path_ids = [5]`, identity order). -/
theorem C10_lookup_witness :
    af10.path_ids.length = 1 ∧ af10.assets.length = 1 ∧
    af10.object_order.Perm (List.range 1) ∧
    ((af10.get_asset_by_path_id 5).isSome ↔ ∃ x ∈ af10.path_ids, as_i64 x = 5) := by
  have hperm : af10.object_order.Perm (List.range 1) := by
    have h1 : List.range 1 = [0] := rfl
    rw [h1]
    rfl
  exact ⟨by decide, by decide, hperm,
    (C10_lookup af10 5 1 (by decide) (by decide) hperm).1⟩

/-! ## AppendOnly catalog: every record writer only appends bytes -/

theorem ao_unit_write (u : Unit) : AppendOnly (unit_write u) := ao_pure

theorem ao_write_pair {α β : Type} (wa : α → Wr Unit) (wb : β → Wr Unit)
    (ha : ∀ a, AppendOnly (wa a)) (hb : ∀ b, AppendOnly (wb b)) (x : α × β) :
    AppendOnly (write_pair wa wb x) := by
  unfold write_pair
  exact ao_seq (ha _) (hb _)

theorem ao_UString (s : UString) : AppendOnly (UString.write_options s) := by
  unfold UString.write_options
  exact ao_seq (ao_wpad _) (ao_seq (ao_write_u32le _)
    (ao_seq (ao_write_bytes _) (ao_wpad _)))

theorem ao_UArray {α : Type} (elem : α → Wr Unit) (items : List α)
    (h : ∀ a, AppendOnly (elem a)) :
    AppendOnly (UArray.write_options elem items) := by
  unfold UArray.write_options
  exact ao_seq (ao_wpad _) (ao_seq (ao_write_u32le _) (ao_write_list _ _ h))

theorem ao_Unparsed (u : Unparsed) : AppendOnly (Unparsed.write_options u) :=
  ao_write_bytes _

set_option maxHeartbeats 2000000 in
theorem ao_PPtr (x : PPtr) : AppendOnly (PPtr.write_options x) := by
  unfold PPtr.write_options
  exact ao_seq (ao_wpad _) (ao_seq (ao_write_u32le _) (ao_write_u64le _))

set_option maxHeartbeats 2000000 in
theorem ao_AssetInfo (x : AssetInfo) : AppendOnly (AssetInfo.write_options x) := by
  unfold AssetInfo.write_options
  exact ao_seq (ao_write_u32le _) (ao_seq (ao_write_u32le _) (ao_PPtr _))

set_option maxHeartbeats 2000000 in
theorem ao_Quaternionf (x : Quaternionf) : AppendOnly (Quaternionf.write_options x) := by
  unfold Quaternionf.write_options
  exact ao_seq (ao_write_u32le _) (ao_seq (ao_write_u32le _) (ao_seq (ao_write_u32le _) (ao_write_u32le _)))

set_option maxHeartbeats 2000000 in
theorem ao_Vector2f (x : Vector2f) : AppendOnly (Vector2f.write_options x) := by
  unfold Vector2f.write_options
  exact ao_seq (ao_wpad _) (ao_seq (ao_write_u32le _) (ao_write_u32le _))

set_option maxHeartbeats 2000000 in
theorem ao_Vector3f (x : Vector3f) : AppendOnly (Vector3f.write_options x) := by
  unfold Vector3f.write_options
  exact ao_seq (ao_wpad _) (ao_seq (ao_write_u32le _) (ao_seq (ao_write_u32le _) (ao_write_u32le _)))

set_option maxHeartbeats 2000000 in
theorem ao_Vector4f (x : Vector4f) : AppendOnly (Vector4f.write_options x) := by
  unfold Vector4f.write_options
  exact ao_seq (ao_wpad _) (ao_seq (ao_write_u32le _) (ao_seq (ao_write_u32le _) (ao_seq (ao_write_u32le _) (ao_write_u32le _))))

set_option maxHeartbeats 2000000 in
theorem ao_RectF (x : RectF) : AppendOnly (RectF.write_options x) := by
  unfold RectF.write_options
  exact ao_seq (ao_wpad _) (ao_seq (ao_write_u32le _) (ao_seq (ao_write_u32le _) (ao_seq (ao_write_u32le _) (ao_write_u32le _))))

set_option maxHeartbeats 2000000 in
theorem ao_Matrix4x4f (x : Matrix4x4f) : AppendOnly (Matrix4x4f.write_options x) := by
  unfold Matrix4x4f.write_options
  exact ao_write_list _ _ ao_write_u32le

set_option maxHeartbeats 2000000 in
theorem ao_AABB (x : AABB) : AppendOnly (AABB.write_options x) := by
  unfold AABB.write_options
  exact ao_seq (ao_Vector3f _) (ao_Vector3f _)

set_option maxHeartbeats 2000000 in
theorem ao_MinMaxAABB (x : MinMaxAABB) : AppendOnly (MinMaxAABB.write_options x) := by
  unfold MinMaxAABB.write_options
  exact ao_seq (ao_Vector3f _) (ao_Vector3f _)

set_option maxHeartbeats 2000000 in
theorem ao_ColorRGBA (x : ColorRGBA) : AppendOnly (ColorRGBA.write_options x) := by
  unfold ColorRGBA.write_options
  exact ao_seq (ao_wpad _) (ao_seq (ao_write_u32le _) (ao_seq (ao_write_u32le _) (ao_seq (ao_write_u32le _) (ao_write_u32le _))))

set_option maxHeartbeats 2000000 in
theorem ao_TextAsset (x : TextAsset) : AppendOnly (TextAsset.write_options x) := by
  unfold TextAsset.write_options
  exact ao_seq (ao_UString _) (ao_UArray _ _ ao_write_u8)

set_option maxHeartbeats 2000000 in
theorem ao_MonoScript (x : MonoScript) : AppendOnly (MonoScript.write_options x) := by
  unfold MonoScript.write_options
  exact ao_seq (ao_UString _) (ao_seq (ao_wpad _) (ao_seq (ao_write_u32le _) (ao_seq (ao_write_u128le _) (ao_seq (ao_UString _) (ao_seq (ao_UString _) (ao_UString _))))))

set_option maxHeartbeats 2000000 in
theorem ao_TerrainLayerData (x : TerrainLayerData) : AppendOnly (TerrainLayerData.write_options x) := by
  unfold TerrainLayerData.write_options
  exact ao_seq (ao_wpad _) (ao_seq (ao_write_u32le _) (ao_seq (ao_write_u32le _) (ao_seq (ao_write_u32le _) (ao_seq (ao_write_u32le _) (ao_seq (ao_write_u32le _) (ao_UString _))))))

set_option maxHeartbeats 2000000 in
theorem ao_TerrainOverlapData (x : TerrainOverlapData) : AppendOnly (TerrainOverlapData.write_options x) := by
  unfold TerrainOverlapData.write_options
  exact ao_seq (ao_wpad _) (ao_seq (ao_write_u32le _) (ao_seq (ao_write_u32le _) (ao_UString _)))

set_option maxHeartbeats 2000000 in
theorem ao_TerrainData (x : TerrainData) : AppendOnly (TerrainData.write_options x) := by
  unfold TerrainData.write_options
  exact ao_seq (ao_wpad _) (ao_seq (ao_write_u32le _) (ao_seq (ao_write_u32le _) (ao_seq (ao_write_u32le _) (ao_seq (ao_write_u32le _) (ao_seq (ao_UArray _ _ ao_TerrainLayerData) (ao_seq (ao_UArray _ _ ao_TerrainOverlapData) (ao_UArray _ _ ao_UString)))))))

set_option maxHeartbeats 2000000 in
theorem ao_GlTextureSettings (x : GlTextureSettings) : AppendOnly (GlTextureSettings.write_options x) := by
  unfold GlTextureSettings.write_options
  exact ao_seq (ao_write_u32le _) (ao_seq (ao_write_u32le _) (ao_seq (ao_write_u32le _) (ao_seq (ao_write_u32le _) (ao_seq (ao_write_u32le _) (ao_write_u32le _)))))

set_option maxHeartbeats 2000000 in
theorem ao_StreamingInfo (x : StreamingInfo) : AppendOnly (StreamingInfo.write_options x) := by
  unfold StreamingInfo.write_options
  exact ao_seq (ao_write_u64le _) (ao_seq (ao_write_u32le _) (ao_UString _))

set_option maxHeartbeats 2000000 in
theorem ao_TextureFormat (x : TextureFormat) : AppendOnly (TextureFormat.write_options x) := by
  unfold TextureFormat.write_options
  exact ao_write_u32le _

set_option maxHeartbeats 2000000 in
theorem ao_Texture2D (x : Texture2D) : AppendOnly (Texture2D.write_options x) := by
  unfold Texture2D.write_options
  exact ao_seq (ao_UString _) (ao_seq (ao_wpad _) (ao_seq (ao_write_u32le _) (ao_seq (ao_write_u8 _) (ao_seq (ao_write_u8 _) (ao_seq (ao_wpad _) (ao_seq (ao_write_u32le _) (ao_seq (ao_write_u32le _) (ao_seq (ao_write_u32le _) (ao_seq (ao_write_u32le _) (ao_seq (ao_TextureFormat _) (ao_seq (ao_write_u32le _) (ao_seq (ao_write_u8 _) (ao_seq (ao_write_u8 _) (ao_seq (ao_write_u8 _) (ao_seq (ao_write_u8 _) (ao_seq (ao_write_u32le _) (ao_seq (ao_write_u32le _) (ao_seq (ao_write_u32le _) (ao_seq (ao_GlTextureSettings _) (ao_seq (ao_write_u32le _) (ao_seq (ao_write_u32le _) (ao_seq (ao_UArray _ _ ao_write_u8) (ao_seq (ao_UArray _ _ ao_write_u8) (ao_StreamingInfo _))))))))))))))))))))))))

set_option maxHeartbeats 2000000 in
theorem ao_RenderDataKey (x : RenderDataKey) : AppendOnly (RenderDataKey.write_options x) := by
  unfold RenderDataKey.write_options
  exact ao_seq (ao_wpad _) (ao_seq (ao_write_u128le _) (ao_write_u64le _))

set_option maxHeartbeats 2000000 in
theorem ao_SecondarySpriteTexture (x : SecondarySpriteTexture) : AppendOnly (SecondarySpriteTexture.write_options x) := by
  unfold SecondarySpriteTexture.write_options
  exact ao_seq (ao_PPtr _) (ao_UString _)

set_option maxHeartbeats 2000000 in
theorem ao_ChannelInfo (x : ChannelInfo) : AppendOnly (ChannelInfo.write_options x) := by
  unfold ChannelInfo.write_options
  exact ao_seq (ao_write_u8 _) (ao_seq (ao_write_u8 _) (ao_seq (ao_write_u8 _) (ao_write_u8 _)))

set_option maxHeartbeats 2000000 in
theorem ao_VertexData (x : VertexData) : AppendOnly (VertexData.write_options x) := by
  unfold VertexData.write_options
  exact ao_seq (ao_wpad _) (ao_seq (ao_write_u32le _) (ao_seq (ao_UArray _ _ ao_ChannelInfo) (ao_UArray _ _ ao_write_u8)))

set_option maxHeartbeats 2000000 in
theorem ao_SubMesh (x : SubMesh) : AppendOnly (SubMesh.write_options x) := by
  unfold SubMesh.write_options
  exact ao_seq (ao_wpad _) (ao_seq (ao_write_u32le _) (ao_seq (ao_write_u32le _) (ao_seq (ao_write_u32le _) (ao_seq (ao_write_u32le _) (ao_seq (ao_write_u32le _) (ao_seq (ao_write_u32le _) (ao_AABB _)))))))

set_option maxHeartbeats 2000000 in
theorem ao_SpriteRenderData (x : SpriteRenderData) : AppendOnly (SpriteRenderData.write_options x) := by
  unfold SpriteRenderData.write_options
  exact ao_seq (ao_PPtr _) (ao_seq (ao_PPtr _) (ao_seq (ao_UArray _ _ ao_SecondarySpriteTexture) (ao_seq (ao_UArray _ _ ao_SubMesh) (ao_seq (ao_UArray _ _ ao_write_u8) (ao_seq (ao_VertexData _) (ao_seq (ao_UArray _ _ ao_Matrix4x4f) (ao_seq (ao_RectF _) (ao_seq (ao_Vector2f _) (ao_seq (ao_Vector2f _) (ao_seq (ao_write_u32le _) (ao_seq (ao_Vector4f _) (ao_write_u32le _))))))))))))

set_option maxHeartbeats 2000000 in
theorem ao_SpriteBone (x : SpriteBone) : AppendOnly (SpriteBone.write_options x) := by
  unfold SpriteBone.write_options
  exact ao_seq (ao_UString _) (ao_seq (ao_Vector3f _) (ao_seq (ao_Quaternionf _) (ao_seq (ao_write_u32le _) (ao_write_u32le _))))

set_option maxHeartbeats 2000000 in
theorem ao_Sprite (x : Sprite) : AppendOnly (Sprite.write_options x) := by
  unfold Sprite.write_options
  exact ao_seq (ao_UString _) (ao_seq (ao_RectF _) (ao_seq (ao_Vector2f _) (ao_seq (ao_Vector4f _) (ao_seq (ao_write_u32le _) (ao_seq (ao_Vector2f _) (ao_seq (ao_write_u32le _) (ao_seq (ao_write_u8 _) (ao_seq (ao_RenderDataKey _) (ao_seq (ao_UArray _ _ ao_UString) (ao_seq (ao_PPtr _) (ao_seq (ao_SpriteRenderData _) (ao_seq (ao_UArray _ _ (fun a => ao_UArray _ a ao_Vector2f)) (ao_UArray _ _ ao_SpriteBone)))))))))))))

set_option maxHeartbeats 2000000 in
theorem ao_SpriteAtlasData (x : SpriteAtlasData) : AppendOnly (SpriteAtlasData.write_options x) := by
  unfold SpriteAtlasData.write_options
  exact ao_seq (ao_PPtr _) (ao_seq (ao_PPtr _) (ao_seq (ao_RectF _) (ao_seq (ao_Vector2f _) (ao_seq (ao_Vector2f _) (ao_seq (ao_Vector4f _) (ao_seq (ao_write_u32le _) (ao_seq (ao_write_u32le _) (ao_UArray _ _ ao_SecondarySpriteTexture))))))))

set_option maxHeartbeats 2000000 in
theorem ao_SpriteAtlas (x : SpriteAtlas) : AppendOnly (SpriteAtlas.write_options x) := by
  unfold SpriteAtlas.write_options
  exact ao_seq (ao_UString _) (ao_seq (ao_UArray _ _ ao_PPtr) (ao_seq (ao_UArray _ _ ao_UString) (ao_seq (ao_UArray _ _ (fun a => ao_write_pair _ _ ao_RenderDataKey ao_SpriteAtlasData a)) (ao_seq (ao_UString _) (ao_write_u32le _)))))

set_option maxHeartbeats 2000000 in
theorem ao_GameObject (x : GameObject) : AppendOnly (GameObject.write_options x) := by
  unfold GameObject.write_options
  exact ao_seq (ao_UArray _ _ ao_PPtr) (ao_seq (ao_write_u32le _) (ao_seq (ao_UString _) (ao_seq (ao_wpad _) (ao_seq (ao_write_u16le _) (ao_write_u8 _)))))

set_option maxHeartbeats 2000000 in
theorem ao_Transform (x : Transform) : AppendOnly (Transform.write_options x) := by
  unfold Transform.write_options
  exact ao_seq (ao_PPtr _) (ao_seq (ao_Quaternionf _) (ao_seq (ao_Vector3f _) (ao_seq (ao_Vector3f _) (ao_seq (ao_UArray _ _ ao_PPtr) (ao_PPtr _)))))

set_option maxHeartbeats 2000000 in
theorem ao_Animator (x : Animator) : AppendOnly (Animator.write_options x) := by
  unfold Animator.write_options
  exact ao_seq (ao_PPtr _) (ao_seq (ao_write_u8 _) (ao_seq (ao_wpad _) (ao_seq (ao_PPtr _) (ao_seq (ao_PPtr _) (ao_seq (ao_write_u32le _) (ao_seq (ao_write_u32le _) (ao_seq (ao_write_u8 _) (ao_seq (ao_write_u8 _) (ao_seq (ao_wpad _) (ao_seq (ao_write_u8 _) (ao_seq (ao_write_u8 _) (ao_write_u8 _))))))))))))

set_option maxHeartbeats 2000000 in
theorem ao_AssetBundle (x : AssetBundle) : AppendOnly (AssetBundle.write_options x) := by
  unfold AssetBundle.write_options
  exact ao_seq (ao_UString _) (ao_seq (ao_UArray _ _ ao_PPtr) (ao_seq (ao_UArray _ _ (fun a => ao_write_pair _ _ ao_UString ao_AssetInfo a)) (ao_seq (ao_AssetInfo _) (ao_seq (ao_write_u32le _) (ao_seq (ao_UString _) (ao_seq (ao_UArray _ _ ao_UString) (ao_seq (ao_write_u8 _) (ao_seq (ao_wpad _) (ao_seq (ao_write_u32le _) (ao_seq (ao_write_u32le _) (ao_UArray _ _ (fun a => ao_write_pair _ _ ao_UString ao_UString a))))))))))))

set_option maxHeartbeats 2000000 in
theorem ao_BlendShapeVertex (x : BlendShapeVertex) : AppendOnly (BlendShapeVertex.write_options x) := by
  unfold BlendShapeVertex.write_options
  exact ao_seq (ao_Vector3f _) (ao_seq (ao_Vector3f _) (ao_seq (ao_Vector3f _) (ao_write_u32le _)))

set_option maxHeartbeats 2000000 in
theorem ao_MeshBlendShape (x : MeshBlendShape) : AppendOnly (MeshBlendShape.write_options x) := by
  unfold MeshBlendShape.write_options
  exact ao_seq (ao_wpad _) (ao_seq (ao_write_u32le _) (ao_seq (ao_write_u32le _) (ao_seq (ao_write_u8 _) (ao_write_u8 _))))

set_option maxHeartbeats 2000000 in
theorem ao_MeshBlendShapeChannel (x : MeshBlendShapeChannel) : AppendOnly (MeshBlendShapeChannel.write_options x) := by
  unfold MeshBlendShapeChannel.write_options
  exact ao_seq (ao_UString _) (ao_seq (ao_write_u32le _) (ao_seq (ao_write_u32le _) (ao_write_u32le _)))

set_option maxHeartbeats 2000000 in
theorem ao_BlendShapeData (x : BlendShapeData) : AppendOnly (BlendShapeData.write_options x) := by
  unfold BlendShapeData.write_options
  exact ao_seq (ao_UArray _ _ ao_BlendShapeVertex) (ao_seq (ao_UArray _ _ ao_MeshBlendShape) (ao_seq (ao_UArray _ _ ao_MeshBlendShapeChannel) (ao_UArray _ _ ao_write_u32le)))

set_option maxHeartbeats 2000000 in
theorem ao_PackedBitVector (x : PackedBitVector) : AppendOnly (PackedBitVector.write_options x) := by
  unfold PackedBitVector.write_options
  exact ao_seq (ao_wpad _) (ao_seq (ao_write_u32le _) (ao_seq (ao_write_u32le _) (ao_seq (ao_write_u32le _) (ao_seq (ao_UArray _ _ ao_write_u8) (ao_write_u8 _)))))

set_option maxHeartbeats 2000000 in
theorem ao_PackedBitVector2 (x : PackedBitVector2) : AppendOnly (PackedBitVector2.write_options x) := by
  unfold PackedBitVector2.write_options
  exact ao_seq (ao_wpad _) (ao_seq (ao_write_u32le _) (ao_seq (ao_UArray _ _ ao_write_u8) (ao_write_u8 _)))

set_option maxHeartbeats 2000000 in
theorem ao_CompressedMesh (x : CompressedMesh) : AppendOnly (CompressedMesh.write_options x) := by
  unfold CompressedMesh.write_options
  exact ao_seq (ao_PackedBitVector _) (ao_seq (ao_PackedBitVector _) (ao_seq (ao_PackedBitVector _) (ao_seq (ao_PackedBitVector _) (ao_seq (ao_PackedBitVector2 _) (ao_seq (ao_PackedBitVector2 _) (ao_seq (ao_PackedBitVector2 _) (ao_seq (ao_PackedBitVector _) (ao_seq (ao_PackedBitVector2 _) (ao_seq (ao_PackedBitVector2 _) (ao_seq (ao_wpad _) (ao_write_u32le _)))))))))))

set_option maxHeartbeats 2000000 in
theorem ao_Mesh (x : Mesh) : AppendOnly (Mesh.write_options x) := by
  unfold Mesh.write_options
  exact ao_seq (ao_UString _) (ao_seq (ao_UArray _ _ ao_SubMesh) (ao_seq (ao_BlendShapeData _) (ao_seq (ao_UArray _ _ ao_Matrix4x4f) (ao_seq (ao_UArray _ _ ao_write_u32le) (ao_seq (ao_write_u32le _) (ao_seq (ao_UArray _ _ ao_MinMaxAABB) (ao_seq (ao_UArray _ _ ao_write_u32le) (ao_seq (ao_write_u8 _) (ao_seq (ao_write_u8 _) (ao_seq (ao_write_u8 _) (ao_seq (ao_write_u8 _) (ao_seq (ao_write_u32le _) (ao_seq (ao_UArray _ _ ao_write_u8) (ao_seq (ao_VertexData _) (ao_seq (ao_wpad _) (ao_seq (ao_CompressedMesh _) (ao_seq (ao_AABB _) (ao_seq (ao_write_u32le _) (ao_seq (ao_UArray _ _ ao_write_u8) (ao_seq (ao_UArray _ _ ao_write_u8) (ao_seq (ao_write_u32le _) (ao_seq (ao_write_u32le _) (ao_StreamingInfo _)))))))))))))))))))))))

set_option maxHeartbeats 2000000 in
theorem ao_MeshFilter (x : MeshFilter) : AppendOnly (MeshFilter.write_options x) := by
  unfold MeshFilter.write_options
  exact ao_seq (ao_PPtr _) (ao_PPtr _)

set_option maxHeartbeats 2000000 in
theorem ao_StaticBatchInfo (x : StaticBatchInfo) : AppendOnly (StaticBatchInfo.write_options x) := by
  unfold StaticBatchInfo.write_options
  exact ao_seq (ao_write_u16le _) (ao_write_u16le _)

set_option maxHeartbeats 2000000 in
theorem ao_MeshRenderer (x : MeshRenderer) : AppendOnly (MeshRenderer.write_options x) := by
  unfold MeshRenderer.write_options
  exact ao_seq (ao_PPtr _) (ao_seq (ao_write_u8 _) (ao_seq (ao_write_u8 _) (ao_seq (ao_write_u8 _) (ao_seq (ao_write_u8 _) (ao_seq (ao_write_u8 _) (ao_seq (ao_write_u8 _) (ao_seq (ao_write_u8 _) (ao_seq (ao_write_u8 _) (ao_seq (ao_write_u8 _) (ao_seq (ao_wpad _) (ao_seq (ao_write_u32le _) (ao_seq (ao_write_u32le _) (ao_seq (ao_write_u16le _) (ao_seq (ao_write_u16le _) (ao_seq (ao_Vector4f _) (ao_seq (ao_Vector4f _) (ao_seq (ao_UArray _ _ ao_PPtr) (ao_seq (ao_StaticBatchInfo _) (ao_seq (ao_PPtr _) (ao_seq (ao_PPtr _) (ao_seq (ao_PPtr _) (ao_seq (ao_write_u32le _) (ao_seq (ao_write_u16le _) (ao_seq (ao_write_u16le _) (ao_seq (ao_PPtr _) (ao_PPtr _))))))))))))))))))))))))))

set_option maxHeartbeats 2000000 in
theorem ao_SkinnedMeshRenderer (x : SkinnedMeshRenderer) : AppendOnly (SkinnedMeshRenderer.write_options x) := by
  unfold SkinnedMeshRenderer.write_options
  exact ao_seq (ao_PPtr _) (ao_seq (ao_write_u8 _) (ao_seq (ao_write_u8 _) (ao_seq (ao_write_u8 _) (ao_seq (ao_write_u8 _) (ao_seq (ao_write_u8 _) (ao_seq (ao_write_u8 _) (ao_seq (ao_write_u8 _) (ao_seq (ao_write_u8 _) (ao_seq (ao_write_u8 _) (ao_seq (ao_wpad _) (ao_seq (ao_write_u32le _) (ao_seq (ao_write_u32le _) (ao_seq (ao_write_u16le _) (ao_seq (ao_write_u16le _) (ao_seq (ao_Vector4f _) (ao_seq (ao_Vector4f _) (ao_seq (ao_UArray _ _ ao_PPtr) (ao_seq (ao_write_u16le _) (ao_seq (ao_write_u16le _) (ao_seq (ao_PPtr _) (ao_seq (ao_PPtr _) (ao_seq (ao_PPtr _) (ao_seq (ao_write_u32le _) (ao_seq (ao_write_u16le _) (ao_seq (ao_write_u16le _) (ao_seq (ao_write_u32le _) (ao_seq (ao_write_u8 _) (ao_seq (ao_write_u8 _) (ao_seq (ao_wpad _) (ao_seq (ao_PPtr _) (ao_seq (ao_UArray _ _ ao_PPtr) (ao_seq (ao_UArray _ _ ao_write_u32le) (ao_seq (ao_PPtr _) (ao_seq (ao_AABB _) (ao_write_u8 _)))))))))))))))))))))))))))))))))))

set_option maxHeartbeats 2000000 in
theorem ao_SkeletonNode (x : SkeletonNode) : AppendOnly (SkeletonNode.write_options x) := by
  unfold SkeletonNode.write_options
  exact ao_seq (ao_write_u32le _) (ao_write_u32le _)

set_option maxHeartbeats 2000000 in
theorem ao_SkeletonLimit (x : SkeletonLimit) : AppendOnly (SkeletonLimit.write_options x) := by
  unfold SkeletonLimit.write_options
  exact ao_seq (ao_Vector3f _) (ao_Vector3f _)

set_option maxHeartbeats 2000000 in
theorem ao_SkeletonAxes (x : SkeletonAxes) : AppendOnly (SkeletonAxes.write_options x) := by
  unfold SkeletonAxes.write_options
  exact ao_seq (ao_Vector4f _) (ao_seq (ao_Vector4f _) (ao_seq (ao_Vector3f _) (ao_seq (ao_SkeletonLimit _) (ao_seq (ao_write_u32le _) (ao_write_u32le _)))))

set_option maxHeartbeats 2000000 in
theorem ao_Skeleton (x : Skeleton) : AppendOnly (Skeleton.write_options x) := by
  unfold Skeleton.write_options
  exact ao_seq (ao_UArray _ _ ao_SkeletonNode) (ao_seq (ao_UArray _ _ ao_write_u32le) (ao_UArray _ _ ao_SkeletonAxes))

set_option maxHeartbeats 2000000 in
theorem ao_SkeletonTransform (x : SkeletonTransform) : AppendOnly (SkeletonTransform.write_options x) := by
  unfold SkeletonTransform.write_options
  exact ao_seq (ao_Vector3f _) (ao_seq (ao_Quaternionf _) (ao_Vector3f _))

set_option maxHeartbeats 2000000 in
theorem ao_SkeletonPose (x : SkeletonPose) : AppendOnly (SkeletonPose.write_options x) := by
  unfold SkeletonPose.write_options
  exact ao_UArray _ _ ao_SkeletonTransform

set_option maxHeartbeats 2000000 in
theorem ao_AvatarHuman (x : AvatarHuman) : AppendOnly (AvatarHuman.write_options x) := by
  unfold AvatarHuman.write_options
  exact ao_seq (ao_SkeletonTransform _) (ao_seq (ao_Skeleton _) (ao_seq (ao_SkeletonPose _) (ao_seq (ao_UArray _ _ ao_write_u32le) (ao_seq (ao_UArray _ _ ao_write_u32le) (ao_seq (ao_UArray _ _ ao_write_u32le) (ao_seq (ao_UArray _ _ ao_write_u32le) (ao_seq (ao_write_u32le _) (ao_seq (ao_write_u32le _) (ao_seq (ao_write_u32le _) (ao_seq (ao_write_u32le _) (ao_seq (ao_write_u32le _) (ao_seq (ao_write_u32le _) (ao_seq (ao_write_u32le _) (ao_seq (ao_write_u32le _) (ao_seq (ao_write_u8 _) (ao_seq (ao_write_u8 _) (ao_write_u8 _)))))))))))))))))

set_option maxHeartbeats 2000000 in
theorem ao_AvatarConstant (x : AvatarConstant) : AppendOnly (AvatarConstant.write_options x) := by
  unfold AvatarConstant.write_options
  exact ao_seq (ao_Skeleton _) (ao_seq (ao_SkeletonPose _) (ao_seq (ao_SkeletonPose _) (ao_seq (ao_UArray _ _ ao_write_u32le) (ao_seq (ao_AvatarHuman _) (ao_seq (ao_UArray _ _ ao_write_u32le) (ao_seq (ao_UArray _ _ ao_write_u32le) (ao_seq (ao_write_u32le _) (ao_seq (ao_SkeletonTransform _) (ao_seq (ao_Skeleton _) (ao_seq (ao_SkeletonPose _) (ao_UArray _ _ ao_write_u32le)))))))))))

set_option maxHeartbeats 2000000 in
theorem ao_TosPair (x : TosPair) : AppendOnly (TosPair.write_options x) := by
  unfold TosPair.write_options
  exact ao_seq (ao_wpad _) (ao_seq (ao_write_u32le _) (ao_UString _))

set_option maxHeartbeats 2000000 in
theorem ao_SkeletonBoneLimit (x : SkeletonBoneLimit) : AppendOnly (SkeletonBoneLimit.write_options x) := by
  unfold SkeletonBoneLimit.write_options
  exact ao_seq (ao_Vector3f _) (ao_seq (ao_Vector3f _) (ao_seq (ao_Vector3f _) (ao_seq (ao_write_u32le _) (ao_write_u8 _))))

set_option maxHeartbeats 2000000 in
theorem ao_HumanBone (x : HumanBone) : AppendOnly (HumanBone.write_options x) := by
  unfold HumanBone.write_options
  exact ao_seq (ao_UString _) (ao_seq (ao_UString _) (ao_SkeletonBoneLimit _))

set_option maxHeartbeats 2000000 in
theorem ao_SkeletonBone (x : SkeletonBone) : AppendOnly (SkeletonBone.write_options x) := by
  unfold SkeletonBone.write_options
  exact ao_seq (ao_UString _) (ao_seq (ao_UString _) (ao_seq (ao_Vector3f _) (ao_seq (ao_Vector3f _) (ao_Vector3f _))))

set_option maxHeartbeats 2000000 in
theorem ao_HumanDescription (x : HumanDescription) : AppendOnly (HumanDescription.write_options x) := by
  unfold HumanDescription.write_options
  exact ao_seq (ao_UArray _ _ ao_HumanBone) (ao_seq (ao_UArray _ _ ao_SkeletonBone) (ao_seq (ao_write_u32le _) (ao_seq (ao_write_u32le _) (ao_seq (ao_write_u32le _) (ao_seq (ao_write_u32le _) (ao_seq (ao_write_u32le _) (ao_seq (ao_write_u32le _) (ao_seq (ao_write_u32le _) (ao_seq (ao_write_u32le _) (ao_seq (ao_UString _) (ao_seq (ao_write_u8 _) (ao_seq (ao_write_u8 _) (ao_write_u8 _)))))))))))))

set_option maxHeartbeats 2000000 in
theorem ao_Avatar (x : Avatar) : AppendOnly (Avatar.write_options x) := by
  unfold Avatar.write_options
  exact ao_seq (ao_UString _) (ao_seq (ao_write_u32le _) (ao_seq (ao_AvatarConstant _) (ao_seq (ao_UArray _ _ ao_TosPair) (ao_HumanDescription _))))

set_option maxHeartbeats 2000000 in
theorem ao_TexEnv (x : TexEnv) : AppendOnly (TexEnv.write_options x) := by
  unfold TexEnv.write_options
  exact ao_seq (ao_wpad _) (ao_seq (ao_PPtr _) (ao_seq (ao_Vector2f _) (ao_Vector2f _)))

set_option maxHeartbeats 2000000 in
theorem ao_FloatPropertySheetPair (x : FloatPropertySheetPair) : AppendOnly (FloatPropertySheetPair.write_options x) := by
  unfold FloatPropertySheetPair.write_options
  exact ao_seq (ao_UString _) (ao_seq (ao_wpad _) (ao_write_u32le _))

set_option maxHeartbeats 2000000 in
theorem ao_UnityPropertySheet (x : UnityPropertySheet) : AppendOnly (UnityPropertySheet.write_options x) := by
  unfold UnityPropertySheet.write_options
  exact ao_seq (ao_UArray _ _ (fun a => ao_write_pair _ _ ao_UString ao_TexEnv a)) (ao_seq (ao_UArray _ _ ao_FloatPropertySheetPair) (ao_UArray _ _ (fun a => ao_write_pair _ _ ao_UString ao_ColorRGBA a)))

set_option maxHeartbeats 2000000 in
theorem ao_Material (x : Material) : AppendOnly (Material.write_options x) := by
  unfold Material.write_options
  exact ao_seq (ao_UString _) (ao_seq (ao_PPtr _) (ao_seq (ao_UString _) (ao_seq (ao_wpad _) (ao_seq (ao_write_u32le _) (ao_seq (ao_write_u8 _) (ao_seq (ao_write_u8 _) (ao_seq (ao_wpad _) (ao_seq (ao_write_u32le _) (ao_seq (ao_UArray _ _ (fun a => ao_write_pair _ _ ao_UString ao_UString a)) (ao_seq (ao_UArray _ _ ao_UString) (ao_seq (ao_UnityPropertySheet _) (ao_UArray _ _ (fun a => ao_write_pair _ _ ao_UString ao_UString a)))))))))))))

set_option maxHeartbeats 2000000 in
theorem ao_AngleLimits (x : AngleLimits) : AppendOnly (AngleLimits.write_options x) := by
  unfold AngleLimits.write_options
  exact ao_seq (ao_write_u8 _) (ao_seq (ao_wpad _) (ao_seq (ao_write_u32le _) (ao_write_u32le _)))

set_option maxHeartbeats 2000000 in
theorem ao_SpringColliderProperty (x : SpringColliderProperty) : AppendOnly (SpringColliderProperty.write_options x) := by
  unfold SpringColliderProperty.write_options
  exact ao_seq (ao_write_u32le _) (ao_seq (ao_write_u32le _) (ao_seq (ao_write_u32le _) (ao_write_u32le _)))

set_option maxHeartbeats 2000000 in
theorem ao_LengthLimitProperty (x : LengthLimitProperty) : AppendOnly (LengthLimitProperty.write_options x) := by
  unfold LengthLimitProperty.write_options
  exact ao_seq (ao_write_u32le _) (ao_write_u32le _)

set_option maxHeartbeats 2000000 in
theorem ao_SpringBoneProperties (x : SpringBoneProperties) : AppendOnly (SpringBoneProperties.write_options x) := by
  unfold SpringBoneProperties.write_options
  exact ao_seq (ao_write_u32le _) (ao_seq (ao_write_u32le _) (ao_seq (ao_Vector3f _) (ao_seq (ao_write_u32le _) (ao_seq (ao_write_u32le _) (ao_seq (ao_AngleLimits _) (ao_seq (ao_AngleLimits _) (ao_seq (ao_write_u32le _) (ao_seq (ao_write_u32le _) (ao_seq (ao_Vector3f _) (ao_seq (ao_Vector3f _) (ao_seq (ao_Quaternionf _) (ao_seq (ao_write_u32le _) (ao_seq (ao_write_u32le _) (ao_Matrix4x4f _))))))))))))))

set_option maxHeartbeats 2000000 in
theorem ao_SpringJob (x : SpringJob) : AppendOnly (SpringJob.write_options x) := by
  unfold SpringJob.write_options
  exact ao_seq (ao_write_u32le _) (ao_seq (ao_write_u32le _) (ao_seq (ao_write_u32le _) (ao_seq (ao_write_u32le _) (ao_seq (ao_Vector3f _) (ao_seq (ao_write_u32le _) (ao_seq (ao_write_u32le _) (ao_seq (ao_write_u32le _) (ao_seq (ao_write_u32le _) (ao_seq (ao_write_u32le _) (ao_seq (ao_write_u32le _) (ao_seq (ao_write_u32le _) (ao_seq (ao_write_u32le _) (ao_seq (ao_write_u32le _) (ao_seq (ao_write_u32le _) (ao_seq (ao_Vector3f _) (ao_seq (ao_Vector3f _) (ao_seq (ao_Vector3f _) (ao_seq (ao_write_u32le _) (ao_seq (ao_write_u32le _) (ao_seq (ao_write_u32le _) (ao_seq (ao_UArray _ _ ao_PPtr) (ao_seq (ao_UArray _ _ ao_PPtr) (ao_seq (ao_UArray _ _ ao_SpringBoneProperties) (ao_seq (ao_UArray _ _ ao_Quaternionf) (ao_seq (ao_UArray _ _ ao_SpringColliderProperty) (ao_UArray _ _ ao_LengthLimitProperty))))))))))))))))))))))))))

set_option maxHeartbeats 2000000 in
theorem ao_SpringBone (x : SpringBone) : AppendOnly (SpringBone.write_options x) := by
  unfold SpringBone.write_options
  exact ao_seq (ao_write_u32le _) (ao_seq (ao_write_u8 _) (ao_seq (ao_UArray _ _ ao_PPtr) (ao_seq (ao_UArray _ _ ao_PPtr) (ao_seq (ao_write_u32le _) (ao_seq (ao_write_u32le _) (ao_seq (ao_Vector3f _) (ao_seq (ao_write_u32le _) (ao_seq (ao_PPtr _) (ao_seq (ao_write_u32le _) (ao_seq (ao_AngleLimits _) (ao_seq (ao_AngleLimits _) (ao_seq (ao_UArray _ _ ao_PPtr) (ao_seq (ao_write_u32le _) (ao_seq (ao_UArray _ _ ao_PPtr) (ao_seq (ao_UArray _ _ ao_PPtr) (ao_UArray _ _ ao_PPtr))))))))))))))))

set_option maxHeartbeats 2000000 in
theorem ao_XForm (x : XForm) : AppendOnly (XForm.write_options x) := by
  unfold XForm.write_options
  exact ao_seq (ao_Vector3f _) (ao_seq (ao_Quaternionf _) (ao_Vector3f _))

set_option maxHeartbeats 2000000 in
theorem ao_HumanGoal (x : HumanGoal) : AppendOnly (HumanGoal.write_options x) := by
  unfold HumanGoal.write_options
  exact ao_seq (ao_XForm _) (ao_seq (ao_write_u32le _) (ao_seq (ao_write_u32le _) (ao_seq (ao_Vector3f _) (ao_write_u32le _))))

set_option maxHeartbeats 2000000 in
theorem ao_HandPose (x : HandPose) : AppendOnly (HandPose.write_options x) := by
  unfold HandPose.write_options
  exact ao_seq (ao_XForm _) (ao_seq (ao_UArray _ _ ao_write_u32le) (ao_seq (ao_write_u32le _) (ao_seq (ao_write_u32le _) (ao_seq (ao_write_u32le _) (ao_write_u32le _)))))

set_option maxHeartbeats 2000000 in
theorem ao_HumanPose (x : HumanPose) : AppendOnly (HumanPose.write_options x) := by
  unfold HumanPose.write_options
  exact ao_seq (ao_XForm _) (ao_seq (ao_Vector3f _) (ao_seq (ao_Vector4f _) (ao_seq (ao_UArray _ _ ao_HumanGoal) (ao_seq (ao_HandPose _) (ao_seq (ao_HandPose _) (ao_seq (ao_UArray _ _ ao_write_u32le) (ao_UArray _ _ ao_Vector3f)))))))

set_option maxHeartbeats 2000000 in
theorem ao_StreamedClip (x : StreamedClip) : AppendOnly (StreamedClip.write_options x) := by
  unfold StreamedClip.write_options
  exact ao_seq (ao_UArray _ _ ao_write_u32le) (ao_write_u32le _)

set_option maxHeartbeats 2000000 in
theorem ao_DenseClip (x : DenseClip) : AppendOnly (DenseClip.write_options x) := by
  unfold DenseClip.write_options
  exact ao_seq (ao_write_u32le _) (ao_seq (ao_write_u32le _) (ao_seq (ao_write_u32le _) (ao_seq (ao_write_u32le _) (ao_UArray _ _ ao_write_u32le))))

set_option maxHeartbeats 2000000 in
theorem ao_ConstantClip (x : ConstantClip) : AppendOnly (ConstantClip.write_options x) := by
  unfold ConstantClip.write_options
  exact ao_UArray _ _ ao_write_u32le

set_option maxHeartbeats 2000000 in
theorem ao_Clip (x : Clip) : AppendOnly (Clip.write_options x) := by
  unfold Clip.write_options
  exact ao_seq (ao_StreamedClip _) (ao_seq (ao_DenseClip _) (ao_ConstantClip _))

set_option maxHeartbeats 2000000 in
theorem ao_ValueDelta (x : ValueDelta) : AppendOnly (ValueDelta.write_options x) := by
  unfold ValueDelta.write_options
  exact ao_seq (ao_write_u32le _) (ao_write_u32le _)

set_option maxHeartbeats 2000000 in
theorem ao_ClipMuscleConstant (x : ClipMuscleConstant) : AppendOnly (ClipMuscleConstant.write_options x) := by
  unfold ClipMuscleConstant.write_options
  exact ao_seq (ao_HumanPose _) (ao_seq (ao_XForm _) (ao_seq (ao_XForm _) (ao_seq (ao_XForm _) (ao_seq (ao_XForm _) (ao_seq (ao_Vector3f _) (ao_seq (ao_Clip _) (ao_seq (ao_write_u32le _) (ao_seq (ao_write_u32le _) (ao_seq (ao_write_u32le _) (ao_seq (ao_write_u32le _) (ao_seq (ao_write_u32le _) (ao_seq (ao_write_u32le _) (ao_seq (ao_UArray _ _ ao_write_u32le) (ao_seq (ao_UArray _ _ ao_ValueDelta) (ao_seq (ao_UArray _ _ ao_write_u32le) (ao_seq (ao_write_u8 _) (ao_seq (ao_write_u8 _) (ao_seq (ao_write_u8 _) (ao_seq (ao_write_u8 _) (ao_seq (ao_write_u8 _) (ao_seq (ao_write_u8 _) (ao_seq (ao_write_u8 _) (ao_seq (ao_write_u8 _) (ao_seq (ao_write_u8 _) (ao_seq (ao_write_u8 _) (ao_write_u8 _))))))))))))))))))))))))))

set_option maxHeartbeats 2000000 in
theorem ao_QuaternionCurveKeyframe (x : QuaternionCurveKeyframe) : AppendOnly (QuaternionCurveKeyframe.write_options x) := by
  unfold QuaternionCurveKeyframe.write_options
  exact ao_seq (ao_write_u32le _) (ao_seq (ao_Quaternionf _) (ao_seq (ao_Quaternionf _) (ao_seq (ao_Quaternionf _) (ao_seq (ao_write_u32le _) (ao_seq (ao_Quaternionf _) (ao_Quaternionf _))))))

set_option maxHeartbeats 2000000 in
theorem ao_QuaternionAnimationCurve (x : QuaternionAnimationCurve) : AppendOnly (QuaternionAnimationCurve.write_options x) := by
  unfold QuaternionAnimationCurve.write_options
  exact ao_seq (ao_UArray _ _ ao_QuaternionCurveKeyframe) (ao_seq (ao_write_u32le _) (ao_seq (ao_write_u32le _) (ao_write_u32le _)))

set_option maxHeartbeats 2000000 in
theorem ao_QuaternionCurve (x : QuaternionCurve) : AppendOnly (QuaternionCurve.write_options x) := by
  unfold QuaternionCurve.write_options
  exact ao_seq (ao_QuaternionAnimationCurve _) (ao_UString _)

set_option maxHeartbeats 2000000 in
theorem ao_Vector3Curve (x : Vector3Curve) : AppendOnly (Vector3Curve.write_options x) := by
  unfold Vector3Curve.write_options
  exact ao_seq (ao_UArray _ _ ao_Vector3f) (ao_seq (ao_write_u32le _) (ao_seq (ao_write_u32le _) (ao_write_u32le _)))

set_option maxHeartbeats 2000000 in
theorem ao_FloatCurve (x : FloatCurve) : AppendOnly (FloatCurve.write_options x) := by
  unfold FloatCurve.write_options
  exact ao_seq (ao_UArray _ _ ao_write_u32le) (ao_seq (ao_write_u32le _) (ao_seq (ao_write_u32le _) (ao_write_u32le _)))

set_option maxHeartbeats 2000000 in
theorem ao_PPtrCurve (x : PPtrCurve) : AppendOnly (PPtrCurve.write_options x) := by
  unfold PPtrCurve.write_options
  exact ao_seq (ao_UArray _ _ ao_PPtr) (ao_seq (ao_write_u32le _) (ao_seq (ao_write_u32le _) (ao_write_u32le _)))

set_option maxHeartbeats 2000000 in
theorem ao_PackedIntVector (x : PackedIntVector) : AppendOnly (PackedIntVector.write_options x) := by
  unfold PackedIntVector.write_options
  exact ao_seq (ao_write_u32le _) (ao_seq (ao_UArray _ _ ao_write_u8) (ao_write_u8 _))

set_option maxHeartbeats 2000000 in
theorem ao_PackedFloatVector (x : PackedFloatVector) : AppendOnly (PackedFloatVector.write_options x) := by
  unfold PackedFloatVector.write_options
  exact ao_seq (ao_write_u32le _) (ao_seq (ao_write_u32le _) (ao_seq (ao_write_u32le _) (ao_seq (ao_UArray _ _ ao_write_u8) (ao_write_u8 _))))

set_option maxHeartbeats 2000000 in
theorem ao_CompressedAnimationCurve (x : CompressedAnimationCurve) : AppendOnly (CompressedAnimationCurve.write_options x) := by
  unfold CompressedAnimationCurve.write_options
  exact ao_seq (ao_UString _) (ao_seq (ao_PackedIntVector _) (ao_seq (ao_PackedFloatVector _) (ao_seq (ao_PackedFloatVector _) (ao_seq (ao_write_u32le _) (ao_write_u32le _)))))

set_option maxHeartbeats 2000000 in
theorem ao_GenericBinding (x : GenericBinding) : AppendOnly (GenericBinding.write_options x) := by
  unfold GenericBinding.write_options
  exact ao_seq (ao_write_u32le _) (ao_seq (ao_write_u32le _) (ao_seq (ao_PPtr _) (ao_seq (ao_write_u32le _) (ao_seq (ao_write_u8 _) (ao_seq (ao_write_u8 _) (ao_write_u8 _))))))

set_option maxHeartbeats 2000000 in
theorem ao_AnimationClipBindingConstant (x : AnimationClipBindingConstant) : AppendOnly (AnimationClipBindingConstant.write_options x) := by
  unfold AnimationClipBindingConstant.write_options
  exact ao_seq (ao_UArray _ _ ao_GenericBinding) (ao_UArray _ _ ao_PPtr)

set_option maxHeartbeats 2000000 in
theorem ao_AnimationEvent (x : AnimationEvent) : AppendOnly (AnimationEvent.write_options x) := by
  unfold AnimationEvent.write_options
  exact ao_seq (ao_write_u32le _) (ao_seq (ao_UString _) (ao_seq (ao_UString _) (ao_seq (ao_PPtr _) (ao_seq (ao_write_u32le _) (ao_seq (ao_write_u32le _) (ao_write_u32le _))))))

set_option maxHeartbeats 2000000 in
theorem ao_AnimationClip (x : AnimationClip) : AppendOnly (AnimationClip.write_options x) := by
  unfold AnimationClip.write_options
  exact ao_seq (ao_UString _) (ao_seq (ao_wpad _) (ao_seq (ao_write_u8 _) (ao_seq (ao_write_u8 _) (ao_seq (ao_write_u8 _) (ao_seq (ao_wpad _) (ao_seq (ao_UArray _ _ ao_QuaternionCurve) (ao_seq (ao_UArray _ _ ao_CompressedAnimationCurve) (ao_seq (ao_UArray _ _ ao_Vector3Curve) (ao_seq (ao_UArray _ _ ao_Vector3Curve) (ao_seq (ao_UArray _ _ ao_Vector3Curve) (ao_seq (ao_UArray _ _ ao_FloatCurve) (ao_seq (ao_UArray _ _ ao_PPtrCurve) (ao_seq (ao_write_u32le _) (ao_seq (ao_write_u32le _) (ao_seq (ao_AABB _) (ao_seq (ao_write_u32le _) (ao_seq (ao_ClipMuscleConstant _) (ao_seq (ao_AnimationClipBindingConstant _) (ao_seq (ao_write_u8 _) (ao_seq (ao_write_u8 _) (ao_seq (ao_wpad _) (ao_UArray _ _ ao_AnimationEvent))))))))))))))))))))))

theorem ao_MonoBehavior {T : Type} (dataW : T → Wr Unit)
    (h : ∀ t, AppendOnly (dataW t)) (m : MonoBehavior T) :
    AppendOnly (MonoBehavior.write_options dataW m) := by
  unfold MonoBehavior.write_options
  exact ao_seq (ao_PPtr _) (ao_seq (ao_write_u8 _) (ao_seq (ao_write_u8 _)
    (ao_seq (ao_write_u8 _) (ao_seq (ao_write_u8 _) (ao_seq (ao_PPtr _)
    (ao_seq (ao_UString _) (h _)))))))

set_option maxHeartbeats 2000000 in
theorem ao_Asset (a : Asset) : AppendOnly (Asset.write_options a) := by
  cases a with
  | Bundle x => exact ao_AssetBundle x
  | Text x => exact ao_TextAsset x
  | Script x => exact ao_MonoScript x
  | Terrain x => exact ao_MonoBehavior _ (fun t => ao_TerrainData t) x
  | Texture2D x pptr =>
    exact ao_seq (ao_Texture2D x) (ao_write_u64le pptr)
  | SpriteAtlas x => exact ao_SpriteAtlas x
  | Sprite x => exact ao_Sprite x
  | EmptyMonoBehavior x => exact ao_MonoBehavior _ (fun t => ao_unit_write t) x
  | GameObject x => exact ao_GameObject x
  | Animator x => exact ao_Animator x
  | Mesh x => exact ao_Mesh x
  | MeshFilter x => exact ao_MeshFilter x
  | MeshRenderer x => exact ao_MeshRenderer x
  | Avatar x => exact ao_Avatar x
  | Transform x => exact ao_Transform x
  | Material x => exact ao_Material x
  | SkinnedMeshRenderer x => exact ao_SkinnedMeshRenderer x
  | SpringJob x => exact ao_MonoBehavior _ (fun t => ao_SpringJob t) x
  | SpringBone x => exact ao_MonoBehavior _ (fun t => ao_SpringBone t) x
  | AnimationClip x => exact ao_AnimationClip x
  | Unparsed u => exact ao_Unparsed u


/-! ## C8 support: the writer state grows append-only and the reserved
ref-type count is written as four zero bytes -/

theorem ao_ite {c : Prop} [Decidable c] {w1 w2 : Wr Unit}
    (h1 : AppendOnly w1) (h2 : AppendOnly w2) :
    AppendOnly (if c then w1 else w2) := by
  split
  · exact h1
  · exact h2

theorem ao_AssetFileTypeTreeNode (x : AssetFileTypeTreeNode) :
    AppendOnly (AssetFileTypeTreeNode.write_options x) := by
  unfold AssetFileTypeTreeNode.write_options
  exact ao_seq (ao_write_u16le _) (ao_seq (ao_write_u8 _) (ao_seq (ao_write_u8 _)
    (ao_seq (ao_write_u32le _) (ao_seq (ao_write_u32le _) (ao_seq (ao_write_u32le _)
    (ao_seq (ao_write_u32le _) (ao_seq (ao_write_u32le _) (ao_write_u64le _))))))))

theorem ao_AssetFileTypeTree (x : AssetFileTypeTree) :
    AppendOnly (AssetFileTypeTree.write_options x) := by
  unfold AssetFileTypeTree.write_options
  exact ao_seq (ao_write_u32le _) (ao_seq (ao_write_u32le _)
    (ao_seq (ao_write_list _ _ (fun a => ao_AssetFileTypeTreeNode a)) (ao_write_bytes _)))

theorem ao_AssetFileType (x : AssetFileType) :
    AppendOnly (AssetFileType.write_options x) := by
  unfold AssetFileType.write_options
  by_cases hc : x.class_id = 114
  · simp only [if_pos hc]
    exact ao_seq (ao_write_u32le _) (ao_seq (ao_write_u8 _) (ao_seq (ao_write_u16le _)
      (ao_seq (ao_write_u128le _) (ao_seq (ao_write_u128le _)
      (ao_seq (ao_AssetFileTypeTree _) (ao_write_u32le _))))))
  · simp only [if_neg hc]
    exact ao_seq (ao_write_u32le _) (ao_seq (ao_write_u8 _) (ao_seq (ao_write_u16le _)
      (ao_seq ao_pure (ao_seq (ao_write_u128le _)
      (ao_seq (ao_AssetFileTypeTree _) (ao_write_u32le _))))))

theorem ao_AssetScript (x : AssetScript) : AppendOnly (AssetScript.write_options x) := by
  unfold AssetScript.write_options
  exact ao_seq (ao_write_u32le _) (ao_write_u64le _)

theorem ao_AssetExternal (x : AssetExternal) :
    AppendOnly (AssetExternal.write_options x) := by
  unfold AssetExternal.write_options
  exact ao_seq (ao_write_null_string _) (ao_seq (ao_write_u128le _)
    (ao_seq (ao_write_u32le _) (ao_write_null_string _)))

theorem pad_align_append (a : Nat) (h : a ≠ 0) (out : List Nat) :
    ∃ new, pad_align a out = new ++ out :=
  ⟨_, pad_align_eq a out h⟩

theorem prefix_trans {α : Type} {l1 l2 l3 : List α}
    (h1 : ∃ n, l2 = n ++ l1) (h2 : ∃ m, l3 = m ++ l2) :
    ∃ k, l3 = k ++ l1 := by
  obtain ⟨n, rfl⟩ := h1
  obtain ⟨m, rfl⟩ := h2
  exact ⟨m ++ n, by simp⟩

theorem drop_append_ge {α : Type} (l1 l2 : List α) (n : Nat)
    (h : l1.length ≤ n) : (l1 ++ l2).drop n = l2.drop (n - l1.length) := by
  induction l1 generalizing n with
  | nil => simp
  | cons a as ih =>
    cases n with
    | zero => simp at h
    | succ n2 =>
      have harith : n2 + 1 - (a :: as).length = n2 - as.length := by
        simp
      rw [List.cons_append, List.drop_succ_cons, ih n2 (by simpa using h),
        harith]

theorem patch_at_drop_ge (l patch : List Nat) (p r : Nat)
    (hp : p ≤ l.length) (hr : p + patch.length ≤ r) :
    (patch_at l p patch).drop r = l.drop r := by
  unfold patch_at
  have hlt : (l.take p).length = p := by
    rw [List.length_take]
    omega
  have h1 : ((l.take p ++ patch) ++ l.drop (p + patch.length)).drop r =
      (l.drop (p + patch.length)).drop (r - (p + patch.length)) := by
    rw [drop_append_ge]
    · congr 1
      rw [List.length_append, hlt]
    · rw [List.length_append, hlt]
      omega
  rw [h1, List.drop_drop]
  congr 1
  omega

theorem le_split_length (k v : Nat) : (le_split k v).length = k := by
  induction k generalizing v with
  | zero => rfl
  | succ k2 ih => simp [le_split, ih]

theorem write_u32le_apply (v : Nat) (out : List Nat) :
    write_u32le v out = .ok ((), (le_split 4 v).reverse ++ out) := rfl

theorem write_u32be_apply (v : Nat) (out : List Nat) :
    write_u32be v out = .ok ((), le_split 4 v ++ out) := by
  unfold write_u32be write_bytes
  rw [List.reverse_reverse]

theorem write_null_string_apply (bs : List Nat) (out : List Nat) :
    write_null_string bs out = .ok ((), 0 :: (bs.reverse ++ out)) := rfl

theorem wpad_apply (a : Nat) (h : a ≠ 0) (out : List Nat) :
    wpad a out = .ok ((),
      List.replicate ((a - out.length % a) % a) 0 ++ out) := by
  unfold wpad
  rw [pad_align_eq a out h]

theorem obj_write_apply (o : AssetFileObject) (out : List Nat) :
    ∃ new, AssetFileObject.write_options o out = .ok ((), new ++ out) ∧
      new.length = 24 := by
  refine ⟨(le_split 4 o.type_id).reverse ++ ((le_split 4 o.size).reverse ++
    ((le_split 8 o.offset).reverse ++ (le_split 8 o.path_id).reverse)), ?_, ?_⟩
  · unfold AssetFileObject.write_options write_u64le write_u32le write_bytes
    simp [Wr.wbind_apply, List.append_assoc]
  · simp [le_split_length]

theorem wlist_obj_apply : ∀ (objs : List AssetFileObject) (out : List Nat),
    ∃ new, write_list AssetFileObject.write_options objs out =
      .ok ((), new ++ out) ∧ new.length = 24 * objs.length := by
  intro objs
  induction objs with
  | nil => intro out; exact ⟨[], rfl, rfl⟩
  | cons o rest ih =>
    intro out
    obtain ⟨n1, h1, hl1⟩ := obj_write_apply o out
    obtain ⟨n2, h2, hl2⟩ := ih (n1 ++ out)
    refine ⟨n2 ++ n1, ?_, ?_⟩
    · unfold write_list
      rw [Wr.wbind_apply, h1]
      simp only [h2, List.append_assoc]
    · simp [hl1, hl2, List.length_append]
      ring

theorem afh_write_apply (h : AssetFileHeader) :
    ∃ bytes, AssetFileHeader.write_be h [] = .ok ((), bytes) ∧
      bytes.length = 54 + h.unity_version.length := by
  unfold AssetFileHeader.write_be write_u64be write_u32be write_u32le
    write_u8 write_bytes write_null_string
  simp only [Wr.wbind_apply, write_u8, write_bytes, Wr.wpure_apply]
  refine ⟨_, rfl, ?_⟩
  simp [le_split_length, List.length_append]
  omega

theorem set_path_ids_length : ∀ (ps : List Nat) (objs : List AssetFileObject)
    (i : Nat) (objs2 : List AssetFileObject),
    set_path_ids objs i ps = .ok objs2 → objs2.length = objs.length := by
  intro ps
  induction ps with
  | nil =>
    intro objs i objs2 h
    cases h
    rfl
  | cons p rest ih =>
    intro objs i objs2 h
    unfold set_path_ids at h
    split at h
    · have := ih _ _ _ h
      rw [this, List.length_set]
    · cases h

theorem wal_grow (types : List AssetFileType) (start : Nat) :
    ∀ (items : List (Asset × Nat)) (objs : List AssetFileObject)
      (out : List Nat) (objs2 : List AssetFileObject) (out2 : List Nat),
    write_assets_loop types start objs items out = .ok (objs2, out2) →
    (∃ new, out2 = new ++ out) ∧ objs2.length = objs.length := by
  intro items
  induction items with
  | nil =>
    intro objs out objs2 out2 h
    cases h
    exact ⟨⟨[], rfl⟩, rfl⟩
  | cons item rest ih =>
    intro objs out objs2 out2 h
    obtain ⟨asset, object_index⟩ := item
    unfold write_assets_loop at h
    obtain ⟨na, hna⟩ := ao_Asset asset
      (List.replicate ((8 - out.length % 8) % 8) 0 ++ out)
    rw [Wr.wbind_apply, wpad_apply 8 (by decide)] at h
    simp only [Wr.wbind_apply, wpos, hna, wpad_apply 4 (by decide)] at h
    cases hmatch : type_hash_to_id types asset.type_hash with
    | none =>
      simp only [hmatch, werr] at h
      cases h
    | some id =>
      simp only [hmatch] at h
      have hna_eq : na ++ (List.replicate ((8 - out.length % 8) % 8) 0 ++ out) =
          na ++ (List.replicate ((8 - out.length % 8) % 8) 0 ++ out) := rfl
      by_cases hb : object_index < objs.length
      · simp only [dif_pos hb] at h
        obtain ⟨⟨n2, hn2⟩, hlen⟩ := ih _ _ _ _ h
        constructor
        · refine prefix_trans (prefix_trans (prefix_trans
            ⟨List.replicate ((8 - out.length % 8) % 8) 0, rfl⟩
            ⟨na, hna_eq⟩) ⟨_, rfl⟩) ⟨n2, hn2⟩
        · rw [hlen, List.length_set]
      · simp only [dif_neg hb, wpanic] at h
        cases h


set_option maxHeartbeats 16000000 in
theorem write_pipeline_shape (af : AssetFile) (out_init : List Nat)
    (t : AssetFileWriteTrace)
    (hok : AssetFile.write_pipeline af out_init = .ok t) :
    ∃ (pre mid hb ob : List Nat),
      t.base_position = out_init.length ∧
      t.meta_data_base = 0x36 + af.header.unity_version.length + out_init.length ∧
      t.ref_position = pre.length ∧
      t.user_info_end = pre.length + 4 + (af.user_info.length + 1) ∧
      t.meta_data_size = t.user_info_end - t.meta_data_base ∧
      t.padded16 = t.user_info_end + (16 - t.user_info_end % 16) % 16 ∧
      t.data_offset = max (t.padded16 - t.base_position) 0x1000 ∧
      t.asset_blob_start = t.base_position + t.data_offset ∧
      t.header_out = AssetFileHeader.mk af.header.junk 22 af.header.junk2
        ((t.meta_data_size + af.header.unity_version.length + 6) % 2 ^ 32)
        (t.end_position - t.base_position) t.data_offset af.header.junk3
        af.header.unity_version 38 1 ∧
      t.out = patch_at
        (patch_at (mid ++ (le_split 4 0 ++ pre)).reverse t.base_position
          hb.reverse) t.objects_position ob.reverse ∧
      hb.length = 54 + af.header.unity_version.length ∧
      ob.length = 24 * af.assets.length ∧
      t.base_position + hb.length ≤ pre.length ∧
      t.objects_position + ob.length ≤ pre.length := by
  unfold AssetFile.write_pipeline at hok
  simp only [write_u32le_apply, write_u32be_apply, write_null_string_apply,
    exc_bind_apply] at hok
  obtain ⟨nT, hT⟩ := ao_write_list _ af.types (fun a => ao_AssetFileType a)
    ((le_split 4 (af.types.length % 2 ^ 32)).reverse ++
      (List.replicate (54 + af.header.unity_version.length) 0 ++
        out_init.reverse))
  simp only [hT] at hok
  obtain ⟨nS, hS⟩ := ao_write_list _ af.scripts (fun a => ao_AssetScript a)
    ((le_split 4 (af.scripts.length % 2 ^ 32)).reverse ++
      (List.replicate (24 * af.assets.length) 0 ++
        pad_align 4 ((le_split 4 (af.assets.length % 2 ^ 32)).reverse ++
          (nT ++ ((le_split 4 (af.types.length % 2 ^ 32)).reverse ++
            (List.replicate (54 + af.header.unity_version.length) 0 ++
              out_init.reverse))))))
  simp only [hS] at hok
  obtain ⟨nE, hE⟩ := ao_write_list _ af.externals (fun a => ao_AssetExternal a)
    ((le_split 4 (af.externals.length % 2 ^ 32)).reverse ++
      (nS ++ ((le_split 4 (af.scripts.length % 2 ^ 32)).reverse ++
        (List.replicate (24 * af.assets.length) 0 ++
          pad_align 4 ((le_split 4 (af.assets.length % 2 ^ 32)).reverse ++
            (nT ++ ((le_split 4 (af.types.length % 2 ^ 32)).reverse ++
              (List.replicate (54 + af.header.unity_version.length) 0 ++
                out_init.reverse))))))))
  simp only [hE] at hok
  set XX := (le_split 4 (af.assets.length % 2 ^ 32)).reverse ++
    (nT ++ ((le_split 4 (af.types.length % 2 ^ 32)).reverse ++
      (List.replicate (54 + af.header.unity_version.length) 0 ++
        out_init.reverse))) with hXXdef
  set PRE := nE ++ ((le_split 4 (af.externals.length % 2 ^ 32)).reverse ++
    (nS ++ ((le_split 4 (af.scripts.length % 2 ^ 32)).reverse ++
      (List.replicate (24 * af.assets.length) 0 ++
        pad_align 4 XX)))) with hPRE
  set S11 := 0 :: (af.user_info.reverse ++ (le_split 4 0 ++ PRE)) with hS11
  set S12 := pad_align 16 S11 with hS12
  set TGT := out_init.length + max (S12.length - out_init.length) 4096
    with hTGT
  set S13 := fill_zeros_to TGT S12 with hS13
  cases hw : write_assets_loop af.types S13.length
      (List.replicate af.assets.length ⟨0, 0, 0, 0⟩)
      (af.assets.zip af.object_order) S13 with
  | error e =>
    simp only [hw] at hok
    cases hok
  | ok r =>
    obtain ⟨objs1, out14⟩ := r
    simp only [hw] at hok
    obtain ⟨⟨nw, hnw⟩, hwlen⟩ := wal_grow _ _ _ _ _ _ _ hw
    cases hsp : set_path_ids objs1 0 af.path_ids with
    | error e =>
      simp only [hsp] at hok
      cases hok
    | ok objects2 =>
      simp only [hsp] at hok
      have hsplen := set_path_ids_length _ _ _ _ hsp
      obtain ⟨hb, hhb, hhblen⟩ := afh_write_apply (AssetFileHeader.mk
        af.header.junk 22 af.header.junk2
        ((S11.length - (List.replicate (54 + af.header.unity_version.length) 0
          ++ out_init.reverse).length + af.header.unity_version.length + 6) %
            2 ^ 32)
        ((pad_align 4 out14).length - out_init.length)
        (max (S12.length - out_init.length) 4096) af.header.junk3
        af.header.unity_version 38 1)
      simp only [hhb] at hok
      obtain ⟨ob, hob, hoblen⟩ := wlist_obj_apply objects2 []
      simp only [hob, List.append_nil] at hok
      simp only [exc_pure_apply, Except.ok.injEq] at hok
      subst hok
      simp only [List.length_replicate] at hwlen
      have hXXlen : XX.length = 4 + nT.length + 4 + 54 +
          af.header.unity_version.length + out_init.length := by
        rw [hXXdef]
        simp only [List.length_append, List.length_reverse, le_split_length,
          List.length_replicate]
        omega
      have hp4XX : (pad_align 4 XX).length =
          (4 - XX.length % 4) % 4 + XX.length := by
        rw [pad_align_eq 4 XX (by decide)]
        simp only [List.length_append, List.length_replicate]
      have hPRElen : PRE.length = nE.length + 4 + nS.length + 4 +
          24 * af.assets.length + (pad_align 4 XX).length := by
        rw [hPRE]
        simp only [List.length_append, List.length_reverse, le_split_length,
          List.length_replicate]
        omega
      have hS11len : S11.length = PRE.length + 4 + (af.user_info.length + 1) := by
        rw [hS11]
        simp only [List.length_cons, List.length_append, List.length_reverse,
          le_split_length]
        omega
      have hS12len : S12.length = S11.length + (16 - S11.length % 16) % 16 := by
        rw [hS12, pad_align_eq 16 S11 (by decide)]
        simp only [List.length_append, List.length_replicate]
        omega
      have houtle : out_init.length ≤ S12.length := by omega
      have hTGTge : S12.length ≤ TGT := by
        rw [hTGT]
        have hmx := Nat.le_max_left (S12.length - out_init.length) 4096
        omega
      have hS13len : S13.length = TGT := by
        rw [hS13]
        unfold fill_zeros_to
        simp only [List.length_append, List.length_replicate]
        omega
      have hhb2 : hb.length = 54 + af.header.unity_version.length := by
        simpa using hhblen
      have hob24 : ob.length = 24 * af.assets.length := by
        rw [hoblen, hsplen, hwlen]
      have hmid : pad_align 4 out14 =
          (List.replicate ((4 - out14.length % 4) % 4) 0 ++
            (nw ++ (List.replicate (TGT - S12.length) 0 ++
              (List.replicate ((16 - S11.length % 16) % 16) 0 ++
                (0 :: af.user_info.reverse))))) ++
            (le_split 4 0 ++ PRE) := by
        rw [pad_align_eq 4 out14 (by decide), hnw, hS13]
        unfold fill_zeros_to
        rw [hS12, pad_align_eq 16 S11 (by decide), hS11]
        simp only [List.append_assoc, List.cons_append]
      refine ⟨PRE, List.replicate ((4 - out14.length % 4) % 4) 0 ++
          (nw ++ (List.replicate (TGT - S12.length) 0 ++
            (List.replicate ((16 - S11.length % 16) % 16) 0 ++
              (0 :: af.user_info.reverse)))), hb, ob,
        rfl, ?_, rfl, ?_, rfl, ?_, rfl, ?_, rfl, ?_, ?_, ?_, ?_, ?_⟩
      · show (List.replicate (54 + af.header.unity_version.length) 0 ++
          out_init.reverse).length =
            54 + af.header.unity_version.length + out_init.length
        simp only [List.length_append, List.length_replicate,
          List.length_reverse]
      · exact hS11len
      · exact hS12len
      · exact hS13len.trans hTGT
      · show patch_at (patch_at (pad_align 4 out14).reverse out_init.length
            hb.reverse) (pad_align 4 XX).length ob.reverse = _
        rw [hmid]
      · exact hhb2
      · exact hob24
      · show out_init.length + hb.length ≤ PRE.length
        omega
      · show (pad_align 4 XX).length + ob.length ≤ PRE.length
        omega


theorem rep_append_rep {α : Type} (a : α) (n m : Nat) :
    List.replicate n a ++ List.replicate m a = List.replicate (n + m) a :=
  (List.append_replicate_replicate ..).symm ▸ rfl

set_option maxHeartbeats 4000000 in
theorem af0_pipeline :
    AssetFile.write_pipeline af0 [] = .ok af0_trace := by
  simp only [af0_trace, AssetFile.write_pipeline, af0, af0_out, write_u32le,
    write_u32be, write_u8, write_bytes, le_split, write_list,
    write_null_string, wpad, pad_align, pad_go, wpos, fill_zeros_to, patch_at,
    write_assets_loop, set_path_ids, AssetFileHeader.write_be, write_u64be,
    write_u16le, write_u128le, write_u64le, write_u128be, write_u16be,
    Wr.wbind_apply, Wr.wpure_apply, exc_bind_apply, exc_pure_apply,
    rep_cons, rep_append_rep,
    List.reverse_cons, List.reverse_append, List.reverse_nil,
    List.reverse_replicate, List.length_cons, List.length_append,
    List.length_replicate, List.length_nil, List.length_reverse,
    List.cons_append, List.nil_append, List.append_nil,
    List.take_succ_cons, List.take_zero, List.take_nil,
    List.drop_succ_cons, List.drop_zero, List.drop_nil,
    Nat.reduceAdd, Nat.reduceSub, Nat.reduceMul, Nat.reduceDiv,
    Nat.reduceMod, Nat.reducePow, Nat.reduceEqDiff, Nat.reduceLTLE,
    Nat.reduceLeDiff, Nat.max_def, reduceIte, reduceDIte,
    List.replicate_zero]
  congr 1

theorem patch_at_length (l patch : List Nat) (p : Nat)
    (h : p + patch.length ≤ l.length) :
    (patch_at l p patch).length = l.length := by
  unfold patch_at
  simp [List.length_append, List.length_take, List.length_drop]
  omega

theorem write_ref_count_zero (af : AssetFile) (t : AssetFileWriteTrace)
    (hok : AssetFile.write_pipeline af [] = .ok t) :
    (t.out.drop t.ref_position).take 4 = le_split 4 0 := by
  obtain ⟨pre, mid, hb, ob, h1, h2, h3, h4, h5, h6, h7, h8, h9, h10, h11,
    h12, h13, h14⟩ := write_pipeline_shape af [] t hok
  have hbase : t.base_position = 0 := by simpa using h1
  rw [h10, h3, hbase]
  have hBlen : (mid ++ (le_split 4 0 ++ pre)).reverse.length =
      mid.length + (4 + pre.length) := by
    simp [le_split_length]
    omega
  rw [hbase] at h13
  have hr1 : 0 + hb.reverse.length ≤ pre.length := by
    simpa using h13
  have hlen_inner :
      (patch_at (mid ++ (le_split 4 0 ++ pre)).reverse 0 hb.reverse).length =
        (mid ++ (le_split 4 0 ++ pre)).reverse.length := by
    refine patch_at_length _ _ _ ?_
    rw [hBlen]
    simp only [List.length_reverse]
    omega
  have hp2 : t.objects_position ≤
      (patch_at (mid ++ (le_split 4 0 ++ pre)).reverse 0 hb.reverse).length := by
    rw [hlen_inner, hBlen]
    omega
  have hr2 : t.objects_position + ob.reverse.length ≤ pre.length := by
    simpa using h14
  have hp1 : (0 : Nat) ≤ (mid ++ (le_split 4 0 ++ pre)).reverse.length :=
    Nat.zero_le _
  rw [patch_at_drop_ge _ _ _ _ hp2 hr2, patch_at_drop_ge _ _ _ _ hp1 hr1]
  rw [List.reverse_append, List.reverse_append, List.append_assoc]
  have hd : pre.length = pre.reverse.length := (List.length_reverse pre).symm
  rw [hd, List.drop_left]
  rw [List.take_left' (by decide : ((le_split 4 0).reverse).length = 4)]
  decide

theorem read_ref_assert (d : List Nat) (p : Nat) (raw : AssetFileRawParse)
    (p2 : Nat) (hraw : AssetFile.read_raw d p = .ok (raw, p2))
    (hne : raw.ref_type_count ≠ 0) :
    AssetFile.read_le d p =
      .error (.err "assertion failed: ref_type_count == 0") := by
  simp only [AssetFile.read_le, RM.bind_apply, hraw]
  rw [if_neg hne]
  rfl

/-- C8: parsing an asset file whose reserved ref-type count field is non-zero
fails `AssetFile::read_le` with the hard assertion error (it is not silently
ignored), and the write path always emits a ref-type count of zero: the four
bytes at the trace's `ref_position` of any successful `write_options` output
are the little-endian encoding of `0`. -/
theorem C8_ref_type_count_asserted :
    (∀ (d : List Nat) (p : Nat) (raw : AssetFileRawParse) (p2 : Nat),
      AssetFile.read_raw d p = .ok (raw, p2) → raw.ref_type_count ≠ 0 →
      AssetFile.read_le d p =
        .error (.err "assertion failed: ref_type_count == 0")) ∧
    (∀ (af : AssetFile) (t : AssetFileWriteTrace),
      AssetFile.write_pipeline af [] = .ok t →
      (t.out.drop t.ref_position).take 4 = le_split 4 0) :=
  ⟨read_ref_assert, write_ref_count_zero⟩

theorem C8_ref_type_count_asserted_witness :
    AssetFile.read_le af0_bytes_ref1 0 =
      .error (.err "assertion failed: ref_type_count == 0") ∧
    (af0_trace.out.drop af0_trace.ref_position).take 4 = le_split 4 0 :=
  ⟨C8_ref_type_count_asserted.1 af0_bytes_ref1 0
    ⟨⟨0, 22, 0, 0, 0, 0, 0, [], 38, 1⟩, 0, [], 0, [], 0, [], 0, [], 1, [], []⟩
    77 (by decide) (by decide),
   C8_ref_type_count_asserted.2 af0 af0_trace af0_pipeline⟩

/-- C5 (amended): during `AssetFile::write_options`, the local
`meta_data_size` is exactly the span from the start of the type table
(`meta_data_base`, right after the 0x36+unity-version-length header) to the
end of the user-info string, and `data_offset` is the larger of the 16-byte
padded position (relative to the base position) and 0x1000, with the output
zero-filled up to `base_position + data_offset` before the first object.
However the meta_data_size field stored in the backpatched header is not
that span: the source adds `unity_version.len() + 6` before storing it. -/
theorem C5_meta_data_size_and_data_offset (af : AssetFile)
    (t : AssetFileWriteTrace)
    (hok : AssetFile.write_pipeline af [] = .ok t) :
    t.meta_data_size = t.user_info_end - t.meta_data_base ∧
    t.header_out.meta_data_size =
      (t.meta_data_size + af.header.unity_version.length + 6) % 2 ^ 32 ∧
    t.data_offset = max (t.padded16 - t.base_position) 0x1000 ∧
    t.header_out.data_offset = t.data_offset ∧
    t.asset_blob_start = t.base_position + t.data_offset := by
  obtain ⟨pre, mid, hb, ob, h1, h2, h3, h4, h5, h6, h7, h8, h9, h10, h11,
    h12, h13, h14⟩ := write_pipeline_shape af [] t hok
  refine ⟨h5, ?_, h7, ?_, h8⟩
  · rw [h9]
  · rw [h9]

theorem C5_header_field_not_span :
    AssetFile.write_pipeline af0 [] = .ok af0_trace ∧
    af0_trace.header_out.meta_data_size ≠
      af0_trace.user_info_end - af0_trace.meta_data_base :=
  ⟨af0_pipeline, by decide⟩

theorem C5_meta_data_size_and_data_offset_witness :
    af0_trace.meta_data_size =
      af0_trace.user_info_end - af0_trace.meta_data_base ∧
    af0_trace.header_out.meta_data_size =
      (af0_trace.meta_data_size + af0.header.unity_version.length + 6) %
        2 ^ 32 ∧
    af0_trace.data_offset =
      max (af0_trace.padded16 - af0_trace.base_position) 0x1000 ∧
    af0_trace.header_out.data_offset = af0_trace.data_offset ∧
    af0_trace.asset_blob_start =
      af0_trace.base_position + af0_trace.data_offset :=
  C5_meta_data_size_and_data_offset af0 af0_trace af0_pipeline


theorem insert_sorted_perm {α : Type} (le : α → α → Bool) (x : α) :
    ∀ l : List α, (insert_sorted le x l).Perm (x :: l) := by
  intro l
  induction l with
  | nil => exact List.Perm.refl _
  | cons y ys ih =>
    unfold insert_sorted
    by_cases h : le x y
    · rw [if_pos h]
    · rw [if_neg h]
      exact (ih.cons y).trans (List.Perm.swap x y ys)

theorem stable_sort_perm {α : Type} (le : α → α → Bool) :
    ∀ l : List α, (stable_sort le l).Perm l := by
  intro l
  induction l with
  | nil => exact List.Perm.refl _
  | cons x xs ih =>
    unfold stable_sort
    exact (insert_sorted_perm le x _).trans (ih.cons x)

theorem insert_sorted_map_snd (x : Nat × AssetFileObject) :
    ∀ l : List (Nat × AssetFileObject),
    (insert_sorted (fun a b => a.2.offset ≤ b.2.offset) x l).map Prod.snd =
      insert_sorted (fun a b => a.offset ≤ b.offset) x.2
        (l.map Prod.snd) := by
  intro l
  induction l with
  | nil => rfl
  | cons y ys ih =>
    simp only [insert_sorted, List.map_cons]
    by_cases h : x.2.offset ≤ y.2.offset
    · simp [h]
    · simp [h, ih]

theorem stable_sort_map_snd :
    ∀ l : List (Nat × AssetFileObject),
    (stable_sort (fun a b => a.2.offset ≤ b.2.offset) l).map Prod.snd =
      stable_sort (fun a b => a.offset ≤ b.offset) (l.map Prod.snd) := by
  intro l
  induction l with
  | nil => rfl
  | cons x xs ih =>
    simp only [stable_sort, List.map_cons]
    rw [insert_sorted_map_snd, ih]

theorem sorted_by_offset_eq (objs : List AssetFileObject) :
    sorted_by_offset objs =
      (stable_sort (fun a b => a.2.offset ≤ b.2.offset) objs.enum).map
        Prod.snd := by
  rw [stable_sort_map_snd, List.enum_map_snd]
  rfl

theorem coo_perm (objs : List AssetFileObject) :
    (calculate_object_order objs).Perm (List.range objs.length) := by
  unfold calculate_object_order
  have h1 := (stable_sort_perm
    (fun (a b : Nat × AssetFileObject) => a.2.offset ≤ b.2.offset)
    objs.enum).map Prod.fst
  rw [List.enum_map_fst] at h1
  exact h1

theorem coo_length (objs : List AssetFileObject) :
    (calculate_object_order objs).length = objs.length := by
  have h := (coo_perm objs).length_eq
  simpa using h

theorem coo_get (objs : List AssetFileObject) (i j : Nat)
    (h : (calculate_object_order objs).get? i = some j) :
    ∃ o, objs.get? j = some o ∧ (sorted_by_offset objs).get? i = some o := by
  unfold calculate_object_order at h
  rw [List.get?_map] at h
  cases hSi : (stable_sort (fun (a b : Nat × AssetFileObject) =>
      a.2.offset ≤ b.2.offset) objs.enum).get? i with
  | none => rw [hSi] at h; cases h
  | some pr =>
    rw [hSi] at h
    simp only [Option.map_some', Option.some.injEq] at h
    have hmem : pr ∈ stable_sort (fun (a b : Nat × AssetFileObject) =>
        a.2.offset ≤ b.2.offset) objs.enum := List.get?_mem hSi
    have hmem2 : pr ∈ objs.enum :=
      ((stable_sort_perm _ objs.enum).mem_iff).1 hmem
    obtain ⟨k, hk, hEq⟩ := List.getElem_of_mem hmem2
    rw [List.getElem_enum] at hEq
    have hkl : k < objs.length := by simpa using hk
    refine ⟨pr.2, ?_, ?_⟩
    · have hj : j = k := by rw [← h, ← hEq]
      have h2 : pr.2 = objs[k] := by rw [← hEq]
      rw [hj, h2]
      simp [List.get?_eq_getElem?, List.getElem?_eq_getElem hkl]
    · rw [sorted_by_offset_eq, List.get?_map, hSi]
      rfl

theorem rm_bind_ok {α β : Type} {x : RM α} {f : α → RM β} {d : List Nat}
    {p : Nat} {b : β} {p2 : Nat} (h : (x >>= f) d p = .ok (b, p2)) :
    ∃ a p1, x d p = .ok (a, p1) ∧ f a d p1 = .ok (b, p2) := by
  rw [RM.bind_apply] at h
  cases hx : x d p with
  | error e => rw [hx] at h; cases h
  | ok v =>
    obtain ⟨a, p1⟩ := v
    rw [hx] at h
    exact ⟨a, p1, rfl, h⟩

theorem read_assets_loop_len (types : List AssetFileType) (d0 : Nat) :
    ∀ (objs : List AssetFileObject) (d : List Nat) (p : Nat)
      (as2 : List Asset) (p2 : Nat),
    read_assets_loop types d0 objs d p = .ok (as2, p2) →
    as2.length = objs.length := by
  intro objs
  induction objs with
  | nil =>
    intro d p as2 p2 h
    simp only [read_assets_loop, RM.pure_apply] at h
    cases h
    rfl
  | cons o rest ih =>
    intro d p as2 p2 h
    unfold read_assets_loop at h
    cases hty : types.get? o.type_id with
    | none => simp only [hty, rpanic] at h; cases h
    | some ty =>
      simp only [hty] at h
      obtain ⟨u, pA, hA, h⟩ := rm_bind_ok h
      obtain ⟨a, pB, hB, h⟩ := rm_bind_ok h
      obtain ⟨ras, pC, hC, h⟩ := rm_bind_ok h
      simp only [RM.pure_apply] at h
      cases h
      simp [ih _ _ _ _ hC]

theorem read_raw_shape (d : List Nat) (p : Nat) (raw : AssetFileRawParse)
    (p2 : Nat) (h : AssetFile.read_raw d p = .ok (raw, p2)) :
    raw.assets.length = raw.objects.length := by
  unfold AssetFile.read_raw at h
  obtain ⟨header, pA, hA, h⟩ := rm_bind_ok h
  obtain ⟨tc, pB, hB, h⟩ := rm_bind_ok h
  obtain ⟨types, pC, hC, h⟩ := rm_bind_ok h
  obtain ⟨oc, pD, hD, h⟩ := rm_bind_ok h
  obtain ⟨u1, pE, hE, h⟩ := rm_bind_ok h
  obtain ⟨objs, pF, hF, h⟩ := rm_bind_ok h
  obtain ⟨sc, pG, hG, h⟩ := rm_bind_ok h
  obtain ⟨scripts, pH, hH, h⟩ := rm_bind_ok h
  obtain ⟨ec, pI, hI, h⟩ := rm_bind_ok h
  obtain ⟨externals, pJ, hJ, h⟩ := rm_bind_ok h
  obtain ⟨rc, pK, hK, h⟩ := rm_bind_ok h
  obtain ⟨ui, pL, hL, h⟩ := rm_bind_ok h
  obtain ⟨assets, pM, hM, h⟩ := rm_bind_ok h
  simp only [RM.pure_apply] at h
  cases h
  unfold read_assets at hM
  have hlen := read_assets_loop_len types header.data_offset
    (sorted_by_offset objs) d pL assets p2 hM
  rw [hlen]
  exact (stable_sort_perm _ objs).length_eq

/-- C2: every `AssetFile` produced by a successful parse has `path_ids`,
`assets` and `object_order` of equal length `n`; `object_order` is a
permutation of `0..n`, namely `calculate_object_order` of the object table
(the entry indices stably sorted by ascending byte offset), and the `i`-th
entry of the offset-sorted table (the one `assets[i]` is decoded from) is
the object-table entry at index `object_order[i]`. -/
theorem C2_object_order_invariants (b : List Nat) (af : AssetFile)
    (h : AssetFile.from_bytes b = .ok af) :
    af.path_ids.length = af.assets.length ∧
    af.object_order.length = af.assets.length ∧
    af.object_order.Perm (List.range af.assets.length) ∧
    ∃ objects : List AssetFileObject,
      af.path_ids = objects.map (fun o => o.path_id) ∧
      af.object_order = calculate_object_order objects ∧
      ∀ i j, af.object_order.get? i = some j →
        ∃ o, objects.get? j = some o ∧
          (sorted_by_offset objects).get? i = some o := by
  unfold AssetFile.from_bytes at h
  cases hle : AssetFile.read_le b 0 with
  | error e => rw [hle] at h; cases h
  | ok v =>
    obtain ⟨af2, pf⟩ := v
    simp only [hle, Except.map] at h
    cases h
    unfold AssetFile.read_le at hle
    obtain ⟨raw, p2, hraw, hle2⟩ := rm_bind_ok hle
    by_cases hz : raw.ref_type_count = 0
    · rw [if_pos hz] at hle2
      simp only [RM.pure_apply] at hle2
      cases hle2
      have hal : raw.assets.length = raw.objects.length :=
        read_raw_shape b 0 raw pf hraw
      refine ⟨?_, ?_, ?_, raw.objects, rfl, rfl, ?_⟩
      · simp [hal]
      · show (calculate_object_order raw.objects).length = raw.assets.length
        rw [hal]
        exact coo_length _
      · show (calculate_object_order raw.objects).Perm
          (List.range raw.assets.length)
        rw [hal]
        exact coo_perm _
      · exact coo_get raw.objects
    · rw [if_neg hz] at hle2
      simp only [rerr] at hle2
      cases hle2

theorem C2_object_order_invariants_witness :
    af0p.path_ids.length = af0p.assets.length ∧
    af0p.object_order.length = af0p.assets.length ∧
    af0p.object_order.Perm (List.range af0p.assets.length) ∧
    ∃ objects : List AssetFileObject,
      af0p.path_ids = objects.map (fun o => o.path_id) ∧
      af0p.object_order = calculate_object_order objects ∧
      ∀ i j, af0p.object_order.get? i = some j →
        ∃ o, objects.get? j = some o ∧
          (sorted_by_offset objects).get? i = some o :=
  C2_object_order_invariants af0_bytes af0p (by decide)

end AstraFormats
